import Mathlib

/-!
# FeatureDetection: rigid alignment and cascaded fitting of an SDM landmark model

A shallow embedding of `SdmLandmarkModelFitting` (`SdmLandmarkModel.hpp`) and the
properties proved about it.

Conventions of the embedding.

* `float`/`double` values are exact rationals (`ℚ`): rounding error is not modelled.
  A division whose divisor may be zero yields a `FloatVal`, which also has the
  non-finite results `inf` and `nan`; `std::isnormal` is decided on it.
* `int` values are integers (`ℤ`). Counters and sizes stay far inside 32 bits and
  are used as they are. The window size is computed in `int` from a rounded `double`
  that need not fit: there the conversion is `castInt` and each `int` operation is
  reduced to 32 bits by `wrapInt`. The source has undefined behaviour when the
  conversion or an operation leaves `int`; the embedding then takes the values of
  the x86-64 build (`INT_MIN` from the conversion, wrap-around from the arithmetic);
  the bounds and the order of the window sizes are proved only where the conversion
  and every operation stay inside `int`.
* A `cv::Mat` of floats is its row count, its column count and its elements in
  row-major order. A `cv::Mat` header that is passed around shares its elements
  with the caller, so the two `alignRigid` overloads return, next to their result,
  the contents of the caller's matrix when the call ends.
* `std::sqrt` (inside `cv::norm`) and `exp` come from the C library; they are the
  two fields of `Libm`, a parameter of every function that calls them. Their values
  are floats, hence rationals here.
* An `at<float>(i)` outside the matrix is undefined behaviour in the source; the
  embedding stops such a run with `FitError.outOfRange`, so that no result ever
  depends on a value read outside the matrix.
* Every `throw` of the source is a `std::runtime_error` or a `cv::Exception`; the
  embedding names them by the place that throws: `invalidShape` (column check),
  `alignmentError` (both scale ratios not normal), `notFound` (identifier lookup),
  `extractionError` (descriptor extractor, matrix dimensions).
-/

namespace superviseddescent

/-! ## Data model -/

/-- The failures of one fitting attempt. -/
inductive FitError
  | invalidShape
  | alignmentError
  | notFound
  | extractionError
  | outOfRange
  deriving DecidableEq, Repr

/-- A `cv::Mat` of floats: `rows`, `cols` and the elements, row-major. -/
structure Mat where
  rows : Nat
  cols : Nat
  data : List ℚ
  deriving DecidableEq, Repr

/-- A `cv::Rect`: top-left corner, width and height, all `int`. -/
structure Rect where
  x : ℤ
  y : ℤ
  width : ℤ
  height : ℤ
  deriving DecidableEq, Repr

/-- A `cv::Point2f`. -/
structure Point2f where
  x : ℚ
  y : ℚ
  deriving DecidableEq, Repr

/-- The part of an `imageio::Landmark` the fitting reads: name, x, y, visibility. -/
structure Landmark where
  name : String
  x : ℚ
  y : ℚ
  visible : Bool
  deriving DecidableEq, Repr

/-- An `imageio::LandmarkCollection`, in the order `getLandmarks()` iterates it. -/
abbrev LandmarkCollection := List Landmark

/-- Outcome of a call that works on the caller's matrix: `buffer` is the content
of that matrix when the call ends, `result` what the call returns or throws. -/
structure Aligned where
  buffer : Mat
  result : Except FitError Mat

namespace Mat

/-- The matrix has as many elements as `rows * cols`. -/
def WellFormed (m : Mat) : Prop := m.data.length = m.rows * m.cols

instance (m : Mat) : Decidable m.WellFormed := by
  unfold WellFormed; infer_instance

/-- Elementwise in-place assignment `v = f(v)` through the view
`m.rowRange(startRow, endRow)`: the rows of the view are rewritten inside `m`. -/
def mapRowRange (m : Mat) (startRow endRow : Nat) (f : ℚ → ℚ) : Mat :=
  { m with
    data := m.data.take (startRow * m.cols)
      ++ ((m.data.drop (startRow * m.cols)).take ((endRow - startRow) * m.cols)).map f
      ++ m.data.drop (startRow * m.cols + (endRow - startRow) * m.cols) }

/-- The element access `m.at<float>(i)` with a single index: element `i` of the
row-major data; outside the matrix the run stops. -/
def atFloat (m : Mat) (i : Nat) : Except FitError ℚ :=
  match m.data[i]? with
  | some v => .ok v
  | none => .error .outOfRange

/-- The header `m.rowRange(startRow, endRow)` read as a matrix of its own. -/
def rowRange (m : Mat) (startRow endRow : Nat) : Mat :=
  ⟨endRow - startRow, m.cols,
    (m.data.drop (startRow * m.cols)).take ((endRow - startRow) * m.cols)⟩

/-- The header `m.row(i)` read as a matrix of its own. -/
def row (m : Mat) (i : Nat) : Mat := m.rowRange i (i + 1)

/-- Column `j`, top to bottom. -/
def col (m : Mat) (j : Nat) : List ℚ :=
  (List.range m.rows).filterMap (fun i => m.data[i * m.cols + j]?)

/-- The call `m.reshape(0, newRows)`: the same elements in `newRows` rows; `0` and the
present row count leave the header as it is; OpenCV throws when `newRows` exceeds
the element count or does not divide it. -/
def reshape (m : Mat) (newRows : Nat) : Except FitError Mat :=
  if newRows = 0 ∨ newRows = m.rows then .ok m
  else if m.rows * m.cols < newRows then .error .extractionError
  else if (m.rows * m.cols) % newRows ≠ 0 then .error .extractionError
  else .ok ⟨newRows, m.rows * m.cols / newRows, m.data⟩

/-- The transpose `m.t()`. -/
def t (m : Mat) : Mat :=
  ⟨m.cols, m.rows, (List.range m.cols).flatMap (fun j => m.col j)⟩

/-- Inner product of two rows of numbers. -/
def dot (u v : List ℚ) : ℚ := (List.zipWith (fun a b => a * b) u v).sum

/-- The matrix product `a * b`; OpenCV throws when the inner dimensions differ. -/
def mul (a b : Mat) : Except FitError Mat :=
  if a.cols ≠ b.rows then .error .extractionError
  else .ok ⟨a.rows, b.cols,
    (List.range a.rows).flatMap (fun i =>
      (List.range b.cols).map (fun j => dot (a.row i).data (b.col j)))⟩

/-- The matrix sum `a + b`; OpenCV throws when the sizes differ. -/
def add (a b : Mat) : Except FitError Mat :=
  if a.rows ≠ b.rows ∨ a.cols ≠ b.cols then .error .extractionError
  else .ok ⟨a.rows, a.cols, List.zipWith (fun x y => x + y) a.data b.data⟩

/-- The product `m * k` with a scalar. -/
def scale (m : Mat) (k : ℚ) : Mat := ⟨m.rows, m.cols, m.data.map (fun v => v * k)⟩

end Mat

/-! ## Float results that need not be finite -/

/-- The value of a `float` expression that contains a division: a finite number,
an infinity (non-zero over zero) or a NaN (zero over zero). -/
inductive FloatVal
  | finite (q : ℚ)
  | inf
  | nan
  deriving DecidableEq, Repr

namespace FloatVal

/-- Float division `a / b` of two finite values. -/
def div (a b : ℚ) : FloatVal :=
  if b = 0 then (if a = 0 then nan else inf) else finite (a / b)

/-- The function `std::isnormal`: neither zero, subnormal, infinite nor NaN. In exact
arithmetic there are no subnormal values, so the finite non-zero values remain. -/
def isnormal : FloatVal → Bool
  | finite q => decide (q ≠ 0)
  | inf => false
  | nan => false

/-- The number a normal value stands for. -/
def get : (v : FloatVal) → v.isnormal = true → ℚ
  | finite q, _ => q

end FloatVal

/-! ## The C library -/

/-- The two functions of the C library the fitting calls: `std::sqrt` (through
`cv::norm`) and `exp`, the latter only ever at an `int` argument. -/
structure Libm where
  sqrt : ℚ → ℚ
  exp : ℤ → ℚ

/-- The function `std::round`: to the nearest integer, halves away from zero. It is
written for any ordered field with a floor, so that it can be read on the rationals
of the embedding and on the reals alike. -/
def stdRound {α : Type} [LinearOrderedField α] [FloorRing α] (x : α) : ℤ :=
  if 0 ≤ x then ⌊x + 1 / 2⌋ else ⌈x - 1 / 2⌉

/-! ## The landmark model -/

/-- A grayscale image. -/
abbrev Image := Mat

/-- The interface `DescriptorExtractor`: `getDescriptors(image, points, windowSizeHalf)`
and, with `none` for the window, `getDescriptors(image, points)`. The extractor is
not part of the fitting code; it may fail. -/
structure DescriptorExtractor where
  getDescriptors : Image → List Point2f → Option ℤ → Except FitError Mat

/-- The data members of `SdmLandmarkModel` the fitting uses. -/
structure SdmLandmarkModel where
  /-- All x coordinates of the mean, then all y coordinates (`1 x 2N`). -/
  meanLandmarks : Mat
  landmarkIdentifiers : List String
  /-- One `(D + 1) x 2N` matrix for each cascade level. -/
  regressorData : List Mat
  descriptorExtractors : List DescriptorExtractor

namespace SdmLandmarkModel

/-- Modelled from the spec: the body of `getNumLandmarks` is not among the sources;
`N` is the number of landmarks, the length of the identifier list. -/
def getNumLandmarks (model : SdmLandmarkModel) : Nat :=
  model.landmarkIdentifiers.length

/-- Modelled from the spec: the body of `getNumCascadeSteps` is not among the
sources; `K` is the number of regression stages of the cascade. -/
def getNumCascadeSteps (model : SdmLandmarkModel) : Nat :=
  model.regressorData.length

/-- Modelled from the spec: the body of `getLandmarkAsPoint` is not among the
sources; it returns the point of the mean shape that carries the identifier (x at
its index, y at its index plus `N`) and fails with `NotFound` if the identifier is
absent from the identifier list. -/
def getLandmarkAsPoint (model : SdmLandmarkModel) (landmarkIdentifier : String) :
    Except FitError Point2f :=
  let pos := model.landmarkIdentifiers.indexOf landmarkIdentifier
  if pos < model.landmarkIdentifiers.length then
    match model.meanLandmarks.data[pos]?,
        model.meanLandmarks.data[pos + model.getNumLandmarks]? with
    | some x, some y => .ok ⟨x, y⟩
    | _, _ => .error .outOfRange
  else
    .error .notFound

end SdmLandmarkModel

/-! ## Helpers of `utils.hpp` -/

/-- Modelled from the spec: the dispersion measure of `calculateScaleRatio`
(`utils.hpp` is not among the sources), here the range `max - min` of the values;
an empty set has no spread. -/
def spread : List ℚ → ℚ
  | [] => 0
  | x :: xs => xs.foldl max x - xs.foldl min x

/-- Modelled from the spec: `calculateScaleRatio` (`utils.hpp` is not among the
sources) is `spread(targets_axis) / spread(model_points_axis)`, a float division. -/
def calculateScaleRatio (modelLandmarks alignmentLandmarks : List ℚ) : FloatVal :=
  FloatVal.div (spread alignmentLandmarks) (spread modelLandmarks)

/-- Modelled from the spec: `calculateMeanTranslation` (`utils.hpp` is not among the
sources) is the mean residual `mean(target_axis - model_axis)` over the
correspondences, the model values being the already scaled ones. -/
def calculateMeanTranslation (modelLandmarks alignmentLandmarks : List ℚ) : ℚ :=
  (List.zipWith (fun t m => t - m) alignmentLandmarks modelLandmarks).sum
    / (alignmentLandmarks.length : ℚ)

namespace SdmLandmarkModelFitting

/-- The overload `alignRigid(cv::Mat modelShape, cv::Rect faceBox)`. -/
def alignRigidRect (modelShape : Mat) (faceBox : Rect) : Aligned :=
  if modelShape.cols ≠ 1 then
    ⟨modelShape, .error .invalidShape⟩
  else
    -- xCoords = modelShape.rowRange(0, rows / 2); xCoords = (xCoords + 0.5f) * width + x
    let shape1 := modelShape.mapRowRange 0 (modelShape.rows / 2)
      (fun v => (v + 1 / 2) * (faceBox.width : ℚ) + (faceBox.x : ℚ))
    -- yCoords = modelShape.rowRange(rows / 2, rows); yCoords = (yCoords + 0.5f) * height + y
    let shape2 := shape1.mapRowRange (modelShape.rows / 2) modelShape.rows
      (fun v => (v + 1 / 2) * (faceBox.height : ℚ) + (faceBox.y : ℚ))
    ⟨shape2, .ok shape2⟩

/-- The model-space point of one correspondence (body of the loop over
`landmarks.getLandmarks()`): the eye centres `le` and `re` are midpoints of two
eye corners of the mean, every other name is looked up as it is. -/
def modelPointOf (model : SdmLandmarkModel) (lm : Landmark) : Except FitError Point2f :=
  if lm.name = "le" then
    match model.getLandmarkAsPoint "37" with
    | .error e => .error e
    | .ok reye_oc =>
      match model.getLandmarkAsPoint "40" with
      | .error e => .error e
      | .ok reye_ic => .ok ⟨(reye_oc.x + reye_ic.x) / 2, (reye_oc.y + reye_ic.y) / 2⟩
  else if lm.name = "re" then
    match model.getLandmarkAsPoint "46" with
    | .error e => .error e
    | .ok leye_oc =>
      match model.getLandmarkAsPoint "43" with
      | .error e => .error e
      | .ok leye_ic => .ok ⟨(leye_oc.x + leye_ic.x) / 2, (leye_oc.y + leye_ic.y) / 2⟩
  else
    model.getLandmarkAsPoint lm.name

/-- The loop over the correspondences: the model-space points, in the order of the
landmarks; the first identifier that does not resolve ends the loop. -/
def modelPoints (model : SdmLandmarkModel) : LandmarkCollection → Except FitError (List Point2f)
  | [] => .ok []
  | lm :: rest =>
    match modelPointOf model lm with
    | .error e => .error e
    | .ok p =>
      match modelPoints model rest with
      | .error e => .error e
      | .ok ps => .ok (p :: ps)

/-- The choice of the scale `s` from the two ratios `sx` and `sy` (the `isnormal`
tests of `alignRigid`). -/
def chooseScale (sx sy : FloatVal) : Except FitError ℚ :=
  if h : sx.isnormal = false ∧ sy.isnormal = false then
    .error .alignmentError
  else if hx : sx.isnormal = false then
    .ok (sy.get (by
      cases hy : sy.isnormal
      · exact absurd ⟨hx, hy⟩ h
      · rfl))
  else if hy : sy.isnormal = false then
    .ok (sx.get (by simpa using hx))
  else
    .ok ((sx.get (by simpa using hx) + sy.get (by simpa using hy)) / 2)

/-- The scale and the translation `alignRigid` computes from the correspondences. -/
structure Similarity where
  s : ℚ
  tx : ℚ
  ty : ℚ
  deriving DecidableEq, Repr

/-- The transform of `alignRigid`, from the model-space points `ps` of the
correspondences and the correspondences themselves: the two scale ratios, the
choice of `s`, the scaling of the model points and the two mean translations. -/
def estimateSimilarity (ps : List Point2f) (landmarks : LandmarkCollection) :
    Except FitError Similarity :=
  let modelLandmarksX := ps.map (fun p => p.x)
  let modelLandmarksY := ps.map (fun p => p.y)
  let alignmentLandmarksX := landmarks.map (fun lm => lm.x)
  let alignmentLandmarksY := landmarks.map (fun lm => lm.y)
  let sx := calculateScaleRatio modelLandmarksX alignmentLandmarksX
  let sy := calculateScaleRatio modelLandmarksY alignmentLandmarksY
  match chooseScale sx sy with
  | .error e => .error e
  | .ok s =>
    -- modelLandmarksX *= s; modelLandmarksY *= s
    let modelLandmarksX := modelLandmarksX.map (fun v => v * s)
    let modelLandmarksY := modelLandmarksY.map (fun v => v * s)
    let tx := calculateMeanTranslation modelLandmarksX alignmentLandmarksX
    let ty := calculateMeanTranslation modelLandmarksY alignmentLandmarksY
    .ok ⟨s, tx, ty⟩

/-- The overload `alignRigid(cv::Mat modelShape, imageio::LandmarkCollection landmarks)`. -/
def alignRigidLandmarks (model : SdmLandmarkModel) (modelShape : Mat)
    (landmarks : LandmarkCollection) : Aligned :=
  if modelShape.cols ≠ 1 then
    ⟨modelShape, .error .invalidShape⟩
  else
    match modelPoints model landmarks with
    | .error e => ⟨modelShape, .error e⟩
    | .ok ps =>
      match estimateSimilarity ps landmarks with
      | .error e => ⟨modelShape, .error e⟩
      | .ok tr =>
        -- xCoords = (xCoords * s + tx); yCoords = (yCoords * s + ty)
        let shape1 := modelShape.mapRowRange 0 (modelShape.rows / 2)
          (fun v => v * tr.s + tr.tx)
        let shape2 := shape1.mapRowRange (modelShape.rows / 2) modelShape.rows
          (fun v => v * tr.s + tr.ty)
        ⟨shape2, .ok shape2⟩

/-! ### The cascade -/

/-- The constant of the test `if (true) { // adaptive`. -/
def adaptive : Bool := true

/-- The constant `NUM_CELL`. -/
def NUM_CELL : ℤ := 3

/-- One call of `getDescriptors` as `optimize` makes it. -/
structure ExtractorCall where
  cascadeStep : Nat
  points : List Point2f
  windowSizeHalf : Option ℤ
  deriving DecidableEq, Repr

/-- The loop that fills `points`: for each index `i` of the list the point
`(modelShape.at(i), modelShape.at(i + N))`. -/
def collectPoints (modelShape : Mat) (N : Nat) : List Nat → Except FitError (List Point2f)
  | [] => .ok []
  | i :: rest => do
    let x ← modelShape.atFloat i
    let y ← modelShape.atFloat (i + N)
    let ps ← collectPoints modelShape N rest
    pure (⟨x, y⟩ :: ps)

/-- The value `dynamicFaceSizeDistance`: `cv::norm(anchor1 - anchor2)`, the anchors
being the midpoints of landmarks 8, 9 and of landmarks 11, 12. -/
def dynamicFaceSizeDistance (libm : Libm) (modelShape : Mat) (N : Nat) : Except FitError ℚ := do
  let point1 : Point2f := ⟨← modelShape.atFloat 8, ← modelShape.atFloat (8 + N)⟩
  let point2 : Point2f := ⟨← modelShape.atFloat 9, ← modelShape.atFloat (9 + N)⟩
  let anchor1 : Point2f := ⟨(point1.x + point2.x) / 2, (point1.y + point2.y) / 2⟩
  let point3 : Point2f := ⟨← modelShape.atFloat 11, ← modelShape.atFloat (11 + N)⟩
  let point4 : Point2f := ⟨← modelShape.atFloat 12, ← modelShape.atFloat (12 + N)⟩
  let anchor2 : Point2f := ⟨(point3.x + point4.x) / 2, (point3.y + point4.y) / 2⟩
  pure (libm.sqrt ((anchor1.x - anchor2.x) ^ 2 + (anchor1.y - anchor2.y) ^ 2))

/-- The rounded `windowSizeHalf` of cascade step `cascadeStep` out of
`numCascadeSteps`, for the exponential `exp` (in `optimize`, that of the C library). -/
def windowSizeHalf {α : Type} [LinearOrderedField α] [FloorRing α] (exp : ℤ → α)
    (dynamicFaceSizeDistance : α) (cascadeStep numCascadeSteps : Nat) : ℤ :=
  let windowSize := dynamicFaceSizeDistance / 2
  let windowSizeHalf := windowSize / 2
  stdRound (windowSizeHalf
    * (1 / (1 + exp (((cascadeStep : ℤ) + 1) - (numCascadeSteps : ℤ)))))

/-- The least value of the 32-bit `int`. -/
def INT_MIN : ℤ := -2147483648

/-- The greatest value of the 32-bit `int`. -/
def INT_MAX : ℤ := 2147483647

/-- The conversion `static_cast<int>(d)` of a `double` whose value is the integer `d`
(the result of `std::round`): `d` itself when it is a value of `int`. For a `d`
outside `int` the conversion is undefined in C++; the conversion instruction of
x86-64 then delivers `INT_MIN`, the value taken here. -/
def castInt (d : ℤ) : ℤ :=
  if INT_MIN ≤ d ∧ d ≤ INT_MAX then d else INT_MIN

/-- The `int` result of an addition or subtraction whose exact value is `v`: `v`
reduced to 32 bits in two's complement, so a result outside `int` wraps around. -/
def wrapInt (v : ℤ) : ℤ :=
  (v + 2147483648) % 4294967296 - 2147483648

/-- The `int` handed to the extractor:
`static_cast<int>(windowSizeHalf) + NUM_CELL - (static_cast<int>(windowSizeHalf) % NUM_CELL)`,
evaluated from left to right in `int`, with the remainder of C++ (truncated
division). -/
def windowSizeHalfi (windowSizeHalf : ℤ) : ℤ :=
  wrapInt (wrapInt (castInt windowSizeHalf + NUM_CELL) - (castInt windowSizeHalf).tmod NUM_CELL)

/-- The loop body up to the extractor call: the points, the face size and the
window argument of the call (`none` stands for the call without a window). -/
def stageInput (libm : Libm) (model : SdmLandmarkModel) (cascadeStep : Nat)
    (modelShape : Mat) : Except FitError (List Point2f × ℚ × Option ℤ) := do
  let points ← collectPoints modelShape model.getNumLandmarks
    (List.range model.getNumLandmarks)
  if adaptive then
    let faceSize ← dynamicFaceSizeDistance libm modelShape model.getNumLandmarks
    pure (points, faceSize,
      some (windowSizeHalfi
        (windowSizeHalf libm.exp faceSize cascadeStep model.getNumCascadeSteps)))
  else
    pure (points, 0, none)

/-- The loop body after the extractor call: the regression and the update of the
shape. -/
def stageUpdate (model : SdmLandmarkModel) (cascadeStep : Nat) (modelShape : Mat)
    (dynamicFaceSizeDistance : ℚ) (currentFeatures : Mat) : Except FitError Mat := do
  let reshaped ← currentFeatures.reshape (currentFeatures.cols * model.getNumLandmarks)
  let currentFeatures := reshaped.t
  let regressorData ←
    match model.regressorData[cascadeStep]? with
    | some r => pure r
    | none => .error .outOfRange
  if regressorData.rows = 0 then
    .error .extractionError
  else
    let product ← currentFeatures.mul (regressorData.rowRange 0 (regressorData.rows - 1))
    let deltaShape ← product.add (regressorData.row (regressorData.rows - 1))
    if adaptive then
      modelShape.add (deltaShape.t.scale dynamicFaceSizeDistance)
    else
      modelShape.add deltaShape.t

/-- One pass through the loop body of `optimize`: the extractor calls made and the
new shape, or the error that ends the run. -/
def cascadeStage (libm : Libm) (model : SdmLandmarkModel) (image : Image)
    (cascadeStep : Nat) (modelShape : Mat) : List ExtractorCall × Except FitError Mat :=
  match stageInput libm model cascadeStep modelShape with
  | .error e => ([], .error e)
  | .ok (points, faceSize, window) =>
    match model.descriptorExtractors[cascadeStep]? with
    | none => ([], .error .outOfRange)
    | some extractor =>
      ([⟨cascadeStep, points, window⟩],
        match extractor.getDescriptors image points window with
        | .error e => .error e
        | .ok currentFeatures => stageUpdate model cascadeStep modelShape faceSize currentFeatures)

/-- The loop `for (cascadeStep = ...; cascadeStep < numCascadeSteps; ++cascadeStep)`
with `stepsLeft` passes still to make. -/
def optimizeFrom (libm : Libm) (model : SdmLandmarkModel) (image : Image) :
    (stepsLeft : Nat) → (cascadeStep : Nat) → Mat → List ExtractorCall × Except FitError Mat
  | 0, _, modelShape => ([], .ok modelShape)
  | stepsLeft + 1, cascadeStep, modelShape =>
    match cascadeStage libm model image cascadeStep modelShape with
    | (calls, .error e) => (calls, .error e)
    | (calls, .ok next) =>
      let rest := optimizeFrom libm model image stepsLeft (cascadeStep + 1) next
      (calls ++ rest.1, rest.2)

/-- The function `optimize(cv::Mat modelShape, cv::Mat image)`: the extractor calls
it makes, in order, and what it returns or throws. -/
def optimize (libm : Libm) (model : SdmLandmarkModel) (modelShape : Mat) (image : Image) :
    List ExtractorCall × Except FitError Mat :=
  optimizeFrom libm model image model.getNumCascadeSteps 0 modelShape

/-! ### Inputs of the worked examples -/

/-- A model whose mean has the two points `(0, 0)` and `(1, 0)`, named `a` and `b`. -/
def exampleModel : SdmLandmarkModel := ⟨⟨1, 4, [0, 1, 0, 0]⟩, ["a", "b"], [], []⟩

/-- The mean of `exampleModel` as a column vector. -/
def exampleShape : Mat := ⟨4, 1, [0, 1, 0, 0]⟩

/-- The targets `(10, 5)` for `a` and `(12, 5)` for `b`. -/
def exampleLandmarks : LandmarkCollection := [⟨"a", 10, 5, true⟩, ⟨"b", 12, 5, true⟩]

/-- A model whose two landmarks `a` and `b` are both at `(3, 4)` in the mean. -/
def coincidentModel : SdmLandmarkModel := ⟨⟨1, 4, [3, 3, 4, 4]⟩, ["a", "b"], [], []⟩

/-- A stand-in for the C library with exact values: `exp n` is `2 ^ n` (positive,
increasing, `1` at `0`) and `sqrt q` is the integer square root of
`numerator * denominator` over the denominator (exact on squares). -/
def exampleLibm : Libm :=
  ⟨fun q => (Nat.sqrt (q.num.toNat * q.den) : ℚ) / (q.den : ℚ), fun n => (2 : ℚ) ^ n⟩

/-- A shape of 13 landmarks: x coordinates, then y coordinates. -/
def cascadeShape : Mat :=
  ⟨26, 1, [10, 20, 30, 40, 50, 60, 70, 80, 40, 60, 50, 40, 60,
    10, 10, 10, 10, 20, 20, 20, 20, 30, 30, 40, 70, 70]⟩

/-- An extractor that returns one feature, `1`, for each of 13 landmarks. -/
def constantExtractor : DescriptorExtractor :=
  ⟨fun _ _ _ => .ok ⟨13, 1, List.replicate 13 1⟩⟩

/-- A `14 x 26` weight matrix whose 13 weight rows are zero and whose bias row is
`1 / 2` throughout. -/
def biasOnlyWeights : Mat :=
  ⟨14, 26, List.replicate (13 * 26) 0 ++ List.replicate 26 (1 / 2)⟩

/-- A one-stage model of 13 landmarks with `biasOnlyWeights` and
`constantExtractor`. -/
def cascadeModel : SdmLandmarkModel :=
  ⟨⟨1, 26, cascadeShape.data⟩,
    ["0", "1", "2", "3", "4", "5", "6", "7", "8", "9", "10", "11", "12"],
    [biasOnlyWeights], [constantExtractor]⟩

/-- A two-stage model of 13 landmarks: `biasOnlyWeights` and `constantExtractor` at
both stages. -/
def twoStageModel : SdmLandmarkModel :=
  ⟨⟨1, 26, cascadeShape.data⟩,
    ["0", "1", "2", "3", "4", "5", "6", "7", "8", "9", "10", "11", "12"],
    [biasOnlyWeights, biasOnlyWeights], [constantExtractor, constantExtractor]⟩

/-- The shape `cascadeShape` with every coordinate moved by `20`. -/
def shiftedShape : Mat :=
  ⟨26, 1, [30, 40, 50, 60, 70, 80, 90, 100, 60, 80, 70, 60, 80,
    30, 30, 30, 30, 40, 40, 40, 40, 50, 50, 60, 90, 90]⟩

/-- The shape `cascadeShape` with every coordinate moved by `40`. -/
def twiceShiftedShape : Mat :=
  ⟨26, 1, [50, 60, 70, 80, 90, 100, 110, 120, 80, 100, 90, 80, 100,
    50, 50, 50, 50, 60, 60, 60, 60, 70, 70, 80, 110, 110]⟩

/-- A shape of 13 landmarks whose landmarks 11 and 12 lie `68719476736 = 2 ^ 36`
below all others: x coordinates, then y coordinates. -/
def largeFaceShape : Mat :=
  ⟨26, 1, [0, 0, 0, 0, 0, 0, 0, 0, 0, 0, 0, 0, 0,
    0, 0, 0, 0, 0, 0, 0, 0, 0, 0, 0, 68719476736, 68719476736]⟩

end SdmLandmarkModelFitting

end superviseddescent

/-! ## The per-image loop of `detect-landmarks` -/

namespace superviseddescent

open SdmLandmarkModelFitting

/-- Modelled from the spec: the body of `getMeanShape` is not among the sources; it
returns a copy of the mean as a column vector (the header notes `returns a copy.
col-vec. ext always col, internal row`). -/
def SdmLandmarkModel.getMeanShape (model : SdmLandmarkModel) : Mat :=
  ⟨model.meanLandmarks.data.length, 1, model.meanLandmarks.data⟩

namespace detectLandmarks

/-- What the collaborators of the loop deliver for one image: the grayscale image,
the rectangles of the face detector, the face box of the landmark source (`none`
when the collection is empty) and the landmarks of the landmark source. -/
structure ImageInput where
  imgGray : Image
  detectedFaces : List Rect
  facebox : Option Rect
  alignmentLandmarks : LandmarkCollection

/-- How one pass of the loop body ends when it does not leave by an exception. -/
inductive ImageOutcome
  /-- The statement `continue` after no face or no landmark information was found. -/
  | noFace
  /-- The statement `continue` in the handler `catch (std::runtime_error& e)`. -/
  | cannotAlign (e : FitError)
  /-- The end of the body: the fitted shape is drawn and written out. -/
  | fitted (modelShape : Mat)
  deriving DecidableEq, Repr

/-- Whether `catch (std::runtime_error& e)` catches the error. The two `throw`
statements of `alignRigid` throw `std::runtime_error`; `cv::Exception` is not one;
a read outside a matrix is no exception at all. The type thrown by the identifier
lookup is declared outside the sources and is the parameter `lookupIsRuntimeError`. -/
def caughtAsRuntimeError (lookupIsRuntimeError : Bool) : FitError → Bool
  | .invalidShape => true
  | .alignmentError => true
  | .notFound => lookupIsRuntimeError
  | .extractionError => false
  | .outOfRange => false

/-- The end of the loop body: `modelShape = modelFitter.optimize(modelShape, imgGray)`,
outside any `try` block, then the output of the result. -/
def optimizeAndSave (libm : Libm) (model : SdmLandmarkModel) (modelShape : Mat)
    (imgGray : Image) : Except FitError ImageOutcome :=
  match (optimize libm model modelShape imgGray).2 with
  | .error e => .error e
  | .ok result => .ok (.fitted result)

/-- The part `// fit the model` of the loop body, from the face boxes `faces` and the
landmarks found before: `Except.error` is an exception that leaves the loop. -/
def fitModel (libm : Libm) (model : SdmLandmarkModel) (lookupIsRuntimeError : Bool)
    (alignToFacebox : Bool) (imgGray : Image) (faces : List Rect)
    (alignmentLandmarks : LandmarkCollection) : Except FitError ImageOutcome :=
  let modelShape := model.getMeanShape
  if alignToFacebox then
    match faces[0]? with
    | none => .error .outOfRange
    | some face =>
      -- modelShape = modelFitter.alignRigid(modelShape, faces[0]); no try block
      match (alignRigidRect modelShape face).result with
      | .error e => .error e
      | .ok aligned => optimizeAndSave libm model aligned imgGray
  else
    -- try { modelShape = modelFitter.alignRigid(modelShape, alignmentLandmarks); }
    match (alignRigidLandmarks model modelShape alignmentLandmarks).result with
    | .error e =>
      -- catch (std::runtime_error& e) { appLogger.warn(e.what()); continue; }
      if caughtAsRuntimeError lookupIsRuntimeError e then .ok (.cannotAlign e) else .error e
    | .ok aligned => optimizeAndSave libm model aligned imgGray

/-- The body of `while (imageSource->next())` for one image. -/
def processImage (libm : Libm) (model : SdmLandmarkModel) (lookupIsRuntimeError : Bool)
    (useFaceDetector alignToFacebox : Bool) (input : ImageInput) :
    Except FitError ImageOutcome :=
  if useFaceDetector then
    if input.detectedFaces.isEmpty then
      .ok .noFace
    else
      fitModel libm model lookupIsRuntimeError alignToFacebox input.imgGray
        input.detectedFaces []
  else if alignToFacebox then
    match input.facebox with
    | none => .ok .noFace
    | some facebox =>
      fitModel libm model lookupIsRuntimeError alignToFacebox input.imgGray [facebox] []
  else if input.alignmentLandmarks.length = 0 then
    .ok .noFace
  else
    fitModel libm model lookupIsRuntimeError alignToFacebox input.imgGray []
      input.alignmentLandmarks

/-- The loop `while (imageSource->next())` over the images that are left: the
outcomes of the images processed, in order, and the exception that left the loop
and ended the run, if there was one. -/
def mainLoop (libm : Libm) (model : SdmLandmarkModel) (lookupIsRuntimeError : Bool)
    (useFaceDetector alignToFacebox : Bool) :
    List ImageInput → List ImageOutcome × Option FitError
  | [] => ([], none)
  | input :: rest =>
    match processImage libm model lookupIsRuntimeError useFaceDetector alignToFacebox
        input with
    | .error e => ([], some e)
    | .ok outcome =>
      let later := mainLoop libm model lookupIsRuntimeError useFaceDetector
        alignToFacebox rest
      (outcome :: later.1, later.2)

end detectLandmarks

/-! ### Inputs of the worked examples of the loop -/

/-- An extractor that always fails. -/
def failingExtractor : DescriptorExtractor :=
  ⟨fun _ _ _ => .error .extractionError⟩

/-- The model `cascadeModel` with `failingExtractor` as its extractor. -/
def failingModel : SdmLandmarkModel :=
  ⟨⟨1, 26, cascadeShape.data⟩,
    ["0", "1", "2", "3", "4", "5", "6", "7", "8", "9", "10", "11", "12"],
    [biasOnlyWeights], [failingExtractor]⟩

/-- A model with the four eye corners `37 = (0, 1)`, `40 = (2, 3)`, `43 = (10, 5)` and
`46 = (14, 7)`. -/
def eyeModel : SdmLandmarkModel :=
  ⟨⟨1, 8, [0, 2, 10, 14, 1, 3, 5, 7]⟩, ["37", "40", "43", "46"], [], []⟩

/-- A shape of 13 landmarks in which the midpoint of landmarks 8, 9 and the midpoint
of landmarks 11, 12 are both `(2, 4)`. -/
def zeroFaceShape : Mat :=
  ⟨26, 1, [10, 20, 30, 40, 50, 60, 70, 80, 1, 3, 50, 0, 4,
    10, 10, 10, 10, 20, 20, 20, 20, 2, 6, 40, 4, 4]⟩

/-- An image whose two landmarks `a` and `b` are both on the pixel `(7, 7)`. -/
def coincidentImage : detectLandmarks.ImageInput :=
  ⟨⟨0, 0, []⟩, [], none, [⟨"a", 7, 7, true⟩, ⟨"b", 7, 7, true⟩]⟩

/-- An image with the detected face `(0, 0, 10, 10)`. -/
def faceImage : detectLandmarks.ImageInput :=
  ⟨⟨0, 0, []⟩, [⟨0, 0, 10, 10⟩], none, []⟩

end superviseddescent

/-! ## The MUCT landmark file parser -/

namespace imageio

open superviseddescent

namespace MuctLandmarkFormatParser

/-- The fields of a line of characters between the separators `sep`; empty fields
are kept. -/
def splitChars (sep : Char) : List Char → List (List Char)
  | [] => [[]]
  | c :: cs =>
    if c = sep then [] :: splitChars sep cs
    else
      match splitChars sep cs with
      | [] => [[c]]
      | field :: fields => (c :: field) :: fields

/-- The call `boost::split(tokens, line, boost::is_any_of(","))`. -/
def split (line : String) : List String :=
  (splitChars ',' line.data).map String.mk

end MuctLandmarkFormatParser

end imageio

/-! # Properties -/

namespace superviseddescent

open SdmLandmarkModelFitting

/-! ## Auxiliary facts -/

theorem Mat.mapRowRange_halves (m : Mat) (f g : ℚ → ℚ) (hcols : m.cols = 1)
    (hlen : m.data.length = m.rows) :
    (m.mapRowRange 0 (m.rows / 2) f).mapRowRange (m.rows / 2) m.rows g
      = ⟨m.rows, 1, (m.data.take (m.rows / 2)).map f ++ (m.data.drop (m.rows / 2)).map g⟩ := by
  have hh : m.rows / 2 ≤ m.data.length := by omega
  have h1 : ((m.data.take (m.rows / 2)).map f).length = m.rows / 2 := by
    simp [List.length_take, hh]
  have hd : (m.data.drop (m.rows / 2)).length = m.rows - m.rows / 2 := by
    simp [hlen]
  have t1 : List.take (m.rows / 2)
      (List.map f (List.take (m.rows / 2) m.data) ++ List.drop (m.rows / 2) m.data)
      = List.map f (List.take (m.rows / 2) m.data) := by
    rw [List.take_append_of_le_length (by omega)]
    exact List.take_of_length_le (by omega)
  have t2 : List.drop (m.rows / 2)
      (List.map f (List.take (m.rows / 2) m.data) ++ List.drop (m.rows / 2) m.data)
      = List.drop (m.rows / 2) m.data := by
    rw [List.drop_append_of_le_length (by omega)]
    rw [List.drop_of_length_le (by omega)]; simp
  have t3 : List.drop (m.rows / 2 + (m.rows - m.rows / 2))
      (List.map f (List.take (m.rows / 2) m.data) ++ List.drop (m.rows / 2) m.data) = [] := by
    apply List.drop_of_length_le
    simp only [List.length_append, h1, hd]; omega
  have t4 : List.take (m.rows - m.rows / 2) (List.drop (m.rows / 2) m.data)
      = List.drop (m.rows / 2) m.data := List.take_of_length_le (by omega)
  simp only [Mat.mapRowRange, hcols, mul_one, Nat.sub_zero, zero_mul, List.take_zero,
    List.drop_zero, List.nil_append, zero_add, t1, t2, t3, t4, List.append_nil]

theorem Mat.length_of_column {m : Mat} (hcols : m.cols = 1) (hwf : m.WellFormed) :
    m.data.length = m.rows := by
  unfold Mat.WellFormed at hwf
  rw [hwf, hcols, mul_one]

theorem FloatVal.isnormal_iff (v : FloatVal) :
    v.isnormal = true ↔ ∃ q, q ≠ 0 ∧ v = .finite q := by
  cases v <;> simp [FloatVal.isnormal]

namespace SdmLandmarkModelFitting

/-! ### The choice of the scale -/

theorem chooseScale_x_only (a : ℚ) (sy : FloatVal) (ha : a ≠ 0) (hy : sy.isnormal = false) :
    chooseScale (.finite a) sy = .ok a := by
  unfold chooseScale
  have hx : (FloatVal.finite a).isnormal = true := by simp [FloatVal.isnormal, ha]
  simp [hx, hy, FloatVal.get]

theorem chooseScale_y_only (sx : FloatVal) (b : ℚ) (hx : sx.isnormal = false) (hb : b ≠ 0) :
    chooseScale sx (.finite b) = .ok b := by
  unfold chooseScale
  have hy : (FloatVal.finite b).isnormal = true := by simp [FloatVal.isnormal, hb]
  simp [hx, hy, FloatVal.get]

theorem chooseScale_both (a b : ℚ) (ha : a ≠ 0) (hb : b ≠ 0) :
    chooseScale (.finite a) (.finite b) = .ok ((a + b) / 2) := by
  unfold chooseScale
  have hx : (FloatVal.finite a).isnormal = true := by simp [FloatVal.isnormal, ha]
  have hy : (FloatVal.finite b).isnormal = true := by simp [FloatVal.isnormal, hb]
  simp [hx, hy, FloatVal.get]

theorem chooseScale_neither (sx sy : FloatVal) (hx : sx.isnormal = false)
    (hy : sy.isnormal = false) : chooseScale sx sy = .error .alignmentError := by
  unfold chooseScale
  simp [hx, hy]

theorem chooseScale_ok_of_normal (sx sy : FloatVal)
    (h : sx.isnormal = true ∨ sy.isnormal = true) : ∃ s, chooseScale sx sy = .ok s := by
  cases hx : sx.isnormal <;> cases hy : sy.isnormal
  · simp [hx, hy] at h
  · obtain ⟨b, hb, rfl⟩ := (FloatVal.isnormal_iff sy).1 hy
    exact ⟨b, chooseScale_y_only sx b hx hb⟩
  · obtain ⟨a, ha, rfl⟩ := (FloatVal.isnormal_iff sx).1 hx
    exact ⟨a, chooseScale_x_only a sy ha hy⟩
  · obtain ⟨a, ha, rfl⟩ := (FloatVal.isnormal_iff sx).1 hx
    obtain ⟨b, hb, rfl⟩ := (FloatVal.isnormal_iff sy).1 hy
    exact ⟨_, chooseScale_both a b ha hb⟩

/-! ### The transform and its application -/

theorem calculateMeanTranslation_scaled (s : ℚ) (ps : List Point2f)
    (landmarks : LandmarkCollection) :
    calculateMeanTranslation ((ps.map (fun p => p.x)).map (fun v => v * s))
        (landmarks.map (fun lm => lm.x))
      = (List.zipWith (fun lm p => lm.x - s * p.x) landmarks ps).sum / (landmarks.length : ℚ) ∧
    calculateMeanTranslation ((ps.map (fun p => p.y)).map (fun v => v * s))
        (landmarks.map (fun lm => lm.y))
      = (List.zipWith (fun lm p => lm.y - s * p.y) landmarks ps).sum
        / (landmarks.length : ℚ) := by
  simp only [calculateMeanTranslation, List.map_map, List.zipWith_map, List.length_map,
    Function.comp, mul_comm]
  trivial

theorem estimateSimilarity_ok {ps : List Point2f} {landmarks : LandmarkCollection}
    {tr : Similarity} (h : estimateSimilarity ps landmarks = .ok tr) :
    chooseScale (calculateScaleRatio (ps.map (fun p => p.x)) (landmarks.map (fun lm => lm.x)))
        (calculateScaleRatio (ps.map (fun p => p.y)) (landmarks.map (fun lm => lm.y)))
      = .ok tr.s ∧
    tr.tx = calculateMeanTranslation ((ps.map (fun p => p.x)).map (fun v => v * tr.s))
        (landmarks.map (fun lm => lm.x)) ∧
    tr.ty = calculateMeanTranslation ((ps.map (fun p => p.y)).map (fun v => v * tr.s))
        (landmarks.map (fun lm => lm.y)) := by
  unfold estimateSimilarity at h
  simp only [] at h
  split at h
  · exact absurd h (by simp)
  · rename_i s hs
    injection h with h
    subst h
    exact ⟨hs, rfl, rfl⟩

theorem estimateSimilarity_of_scale {ps : List Point2f} {landmarks : LandmarkCollection} {s : ℚ}
    (h : chooseScale
        (calculateScaleRatio (ps.map (fun p => p.x)) (landmarks.map (fun lm => lm.x)))
        (calculateScaleRatio (ps.map (fun p => p.y)) (landmarks.map (fun lm => lm.y)))
      = .ok s) :
    estimateSimilarity ps landmarks = .ok ⟨s,
      calculateMeanTranslation ((ps.map (fun p => p.x)).map (fun v => v * s))
        (landmarks.map (fun lm => lm.x)),
      calculateMeanTranslation ((ps.map (fun p => p.y)).map (fun v => v * s))
        (landmarks.map (fun lm => lm.y))⟩ := by
  unfold estimateSimilarity
  simp only [h]

theorem estimateSimilarity_of_neither {ps : List Point2f} {landmarks : LandmarkCollection}
    (hx : (calculateScaleRatio (ps.map (fun p => p.x))
      (landmarks.map (fun lm => lm.x))).isnormal = false)
    (hy : (calculateScaleRatio (ps.map (fun p => p.y))
      (landmarks.map (fun lm => lm.y))).isnormal = false) :
    estimateSimilarity ps landmarks = .error .alignmentError := by
  unfold estimateSimilarity
  simp only [chooseScale_neither _ _ hx hy]

theorem alignRigidLandmarks_ok {model : SdmLandmarkModel} {modelShape : Mat}
    {landmarks : LandmarkCollection} {out : Mat}
    (h : (alignRigidLandmarks model modelShape landmarks).result = .ok out) :
    modelShape.cols = 1 ∧ ∃ ps tr, modelPoints model landmarks = .ok ps ∧
      estimateSimilarity ps landmarks = .ok tr ∧
      alignRigidLandmarks model modelShape landmarks = ⟨out, .ok out⟩ ∧
      out = (modelShape.mapRowRange 0 (modelShape.rows / 2)
          (fun v => v * tr.s + tr.tx)).mapRowRange (modelShape.rows / 2) modelShape.rows
          (fun v => v * tr.s + tr.ty) := by
  unfold alignRigidLandmarks at h ⊢
  by_cases hc : modelShape.cols = 1
  · simp only [hc, ne_eq, not_true_eq_false, if_false] at h ⊢
    cases hp : modelPoints model landmarks with
    | error e => simp [hp] at h
    | ok ps =>
      cases ht : estimateSimilarity ps landmarks with
      | error e => simp [hp, ht] at h
      | ok tr =>
        simp only [hp, ht] at h ⊢
        injection h with h
        subst h
        exact ⟨trivial, ps, tr, rfl, ht, rfl, rfl⟩
  · simp [hc] at h

theorem alignRigidLandmarks_of_similarity {model : SdmLandmarkModel} {modelShape : Mat}
    {landmarks : LandmarkCollection} {ps : List Point2f} {tr : Similarity}
    (hcols : modelShape.cols = 1) (hwf : modelShape.WellFormed)
    (hres : modelPoints model landmarks = .ok ps)
    (htr : estimateSimilarity ps landmarks = .ok tr) :
    alignRigidLandmarks model modelShape landmarks =
      ⟨⟨modelShape.rows, 1,
          (modelShape.data.take (modelShape.rows / 2)).map (fun v => v * tr.s + tr.tx)
            ++ (modelShape.data.drop (modelShape.rows / 2)).map (fun v => v * tr.s + tr.ty)⟩,
        .ok ⟨modelShape.rows, 1,
          (modelShape.data.take (modelShape.rows / 2)).map (fun v => v * tr.s + tr.tx)
            ++ (modelShape.data.drop (modelShape.rows / 2)).map
              (fun v => v * tr.s + tr.ty)⟩⟩ := by
  unfold alignRigidLandmarks
  simp only [hcols, ne_eq, not_true_eq_false, if_false, hres, htr]
  rw [Mat.mapRowRange_halves _ _ _ hcols (Mat.length_of_column hcols hwf)]

theorem alignRigidLandmarks_of_error {model : SdmLandmarkModel} {modelShape : Mat}
    {landmarks : LandmarkCollection} {ps : List Point2f} {e : FitError}
    (hcols : modelShape.cols = 1)
    (hres : modelPoints model landmarks = .ok ps)
    (htr : estimateSimilarity ps landmarks = .error e) :
    alignRigidLandmarks model modelShape landmarks = ⟨modelShape, .error e⟩ := by
  unfold alignRigidLandmarks
  simp only [hcols, ne_eq, not_true_eq_false, if_false, hres, htr]

/-! ### The worked example: model points `(0,0)`, `(1,0)`, targets `(10,5)`, `(12,5)` -/

theorem example_ratio_x : calculateScaleRatio [0, 1] [10, 12] = .finite 2 := by
  norm_num [calculateScaleRatio, spread, FloatVal.div]

theorem example_ratio_y : calculateScaleRatio [0, 0] [5, 5] = .nan := by
  norm_num [calculateScaleRatio, spread, FloatVal.div]

theorem example_modelPoints :
    modelPoints exampleModel exampleLandmarks = .ok [⟨0, 0⟩, ⟨1, 0⟩] := by
  simp [modelPoints, modelPointOf, SdmLandmarkModel.getLandmarkAsPoint,
    SdmLandmarkModel.getNumLandmarks, exampleModel, exampleLandmarks, List.indexOf,
    List.findIdx_cons]

theorem example_similarity :
    estimateSimilarity [⟨0, 0⟩, ⟨1, 0⟩] exampleLandmarks = .ok ⟨2, 10, 5⟩ := by
  have hs : chooseScale
      (calculateScaleRatio (([⟨0, 0⟩, ⟨1, 0⟩] : List Point2f).map (fun p => p.x))
        (exampleLandmarks.map (fun lm => lm.x)))
      (calculateScaleRatio (([⟨0, 0⟩, ⟨1, 0⟩] : List Point2f).map (fun p => p.y))
        (exampleLandmarks.map (fun lm => lm.y)))
      = .ok 2 := by
    simp only [List.map, exampleLandmarks]
    rw [example_ratio_x, example_ratio_y]
    exact chooseScale_x_only 2 .nan (by norm_num) rfl
  rw [estimateSimilarity_of_scale hs]
  norm_num [calculateMeanTranslation, exampleLandmarks]

theorem example_aligned :
    alignRigidLandmarks exampleModel exampleShape exampleLandmarks
      = ⟨⟨4, 1, [10, 12, 5, 5]⟩, .ok ⟨4, 1, [10, 12, 5, 5]⟩⟩ := by
  rw [alignRigidLandmarks_of_similarity (by rfl) (by decide) example_modelPoints
    example_similarity]
  norm_num [exampleShape]

/-! ### Recovery of an injected scale and translation -/

theorem foldl_max_map (f : ℚ → ℚ) (hf : Monotone f) (xs : List ℚ) (x : ℚ) :
    (xs.map f).foldl max (f x) = f (xs.foldl max x) := by
  induction xs generalizing x with
  | nil => rfl
  | cons y ys ih =>
    simp only [List.map_cons, List.foldl_cons]
    rw [← hf.map_max, ih]

theorem foldl_min_map (f : ℚ → ℚ) (hf : Monotone f) (xs : List ℚ) (x : ℚ) :
    (xs.map f).foldl min (f x) = f (xs.foldl min x) := by
  induction xs generalizing x with
  | nil => rfl
  | cons y ys ih =>
    simp only [List.map_cons, List.foldl_cons]
    rw [← hf.map_min, ih]

theorem spread_affine (s t : ℚ) (hs : 0 ≤ s) (l : List ℚ) :
    spread (l.map (fun v => s * v + t)) = s * spread l := by
  have hf : Monotone (fun v : ℚ => s * v + t) := by
    intro a b hab
    have := mul_le_mul_of_nonneg_left hab hs
    simp only
    linarith
  cases l with
  | nil => simp [spread]
  | cons x xs =>
    simp only [List.map_cons, spread]
    rw [foldl_max_map _ hf, foldl_min_map _ hf]
    ring

theorem calculateScaleRatio_affine (s t : ℚ) (hs : 0 < s) (l : List ℚ) :
    calculateScaleRatio l (l.map (fun v => s * v + t))
      = if spread l = 0 then .nan else .finite s := by
  unfold calculateScaleRatio FloatVal.div
  rw [spread_affine s t hs.le]
  by_cases h : spread l = 0
  · simp [h]
  · simp only [h, if_false]
    congr 1
    field_simp

theorem targets_of_forall2 {landmarks : LandmarkCollection} {ps : List Point2f}
    {s0 tx0 ty0 : ℚ}
    (hT : List.Forall₂ (fun lm p => lm.x = s0 * p.x + tx0 ∧ lm.y = s0 * p.y + ty0)
      landmarks ps) :
    landmarks.map (fun lm => lm.x) = (ps.map (fun p => p.x)).map (fun v => s0 * v + tx0) ∧
    landmarks.map (fun lm => lm.y) = (ps.map (fun p => p.y)).map (fun v => s0 * v + ty0) ∧
    (List.zipWith (fun lm p => lm.x - s0 * p.x) landmarks ps).sum
      = (landmarks.length : ℚ) * tx0 ∧
    (List.zipWith (fun lm p => lm.y - s0 * p.y) landmarks ps).sum
      = (landmarks.length : ℚ) * ty0 := by
  induction hT with
  | nil => simp
  | cons h _ ih =>
    obtain ⟨hx, hy⟩ := h
    obtain ⟨i1, i2, i3, i4⟩ := ih
    refine ⟨?_, ?_, ?_, ?_⟩
    · simp only [List.map_cons, hx, i1]
    · simp only [List.map_cons, hy, i2]
    · simp only [List.zipWith_cons_cons, List.sum_cons, i3, hx, List.length_cons]
      push_cast; ring
    · simp only [List.zipWith_cons_cons, List.sum_cons, i4, hy, List.length_cons]
      push_cast; ring

theorem estimateSimilarity_recovers {ps : List Point2f} {landmarks : LandmarkCollection}
    {s0 tx0 ty0 : ℚ} (hs0 : 0 < s0) (hlen : 2 ≤ landmarks.length)
    (hT : List.Forall₂ (fun lm p => lm.x = s0 * p.x + tx0 ∧ lm.y = s0 * p.y + ty0)
      landmarks ps)
    (hspread : spread (ps.map (fun p => p.x)) ≠ 0 ∨ spread (ps.map (fun p => p.y)) ≠ 0) :
    estimateSimilarity ps landmarks = .ok ⟨s0, tx0, ty0⟩ := by
  obtain ⟨ex, ey, sumx, sumy⟩ := targets_of_forall2 hT
  have hne : s0 ≠ 0 := ne_of_gt hs0
  have hn : (landmarks.length : ℚ) ≠ 0 := by
    have : 0 < landmarks.length := by omega
    exact_mod_cast this.ne'
  have hs : chooseScale
      (calculateScaleRatio (ps.map (fun p => p.x)) (landmarks.map (fun lm => lm.x)))
      (calculateScaleRatio (ps.map (fun p => p.y)) (landmarks.map (fun lm => lm.y)))
      = .ok s0 := by
    rw [ex, ey, calculateScaleRatio_affine s0 tx0 hs0, calculateScaleRatio_affine s0 ty0 hs0]
    by_cases hx : spread (ps.map (fun p => p.x)) = 0
    · have hy : spread (ps.map (fun p => p.y)) ≠ 0 := by
        rcases hspread with h | h
        · exact absurd hx h
        · exact h
      simp only [hx, hy, if_true, if_false]
      exact chooseScale_y_only _ s0 rfl hne
    · by_cases hy : spread (ps.map (fun p => p.y)) = 0
      · simp only [hx, hy, if_true, if_false]
        exact chooseScale_x_only s0 _ hne rfl
      · simp only [hx, hy, if_false]
        rw [chooseScale_both s0 s0 hne hne]
        congr 1
        ring
  rw [estimateSimilarity_of_scale hs]
  obtain ⟨mx, my⟩ := calculateMeanTranslation_scaled s0 ps landmarks
  rw [mx, my, sumx, sumy]
  congr 2
  · field_simp
  · field_simp

/-! ## Rigid alignment to a face box -/

/-- Claim C1: for a single-column shape of length `2 * N` and any box, `alignRigid`
with a face box returns a shape of the same length whose first `N` entries are
`(v + 0.5) * width + x` and whose last `N` entries are `(v + 0.5) * height + y` of the
entries `v` of the input; the caller's matrix holds that same shape; the result is
given by the shape and the box alone; the point `(-0.4, -0.4)` in the box
`(100, 50, 200, 200)` goes to `(120, 70)`. -/
theorem alignRigidRect_spec (modelShape : Mat) (faceBox : Rect) (N : Nat)
    (hcols : modelShape.cols = 1) (hrows : modelShape.rows = 2 * N)
    (hlen : modelShape.data.length = 2 * N) :
    (∃ out : Mat,
      alignRigidRect modelShape faceBox = ⟨out, .ok out⟩ ∧
      out.rows = 2 * N ∧ out.cols = 1 ∧ out.data.length = 2 * N ∧
      out.data =
        (modelShape.data.take N).map
            (fun v => (v + 1 / 2) * (faceBox.width : ℚ) + (faceBox.x : ℚ))
          ++ (modelShape.data.drop N).map
            (fun v => (v + 1 / 2) * (faceBox.height : ℚ) + (faceBox.y : ℚ))) ∧
    (∀ (shape2 : Mat) (box2 : Rect), shape2 = modelShape → box2 = faceBox →
      alignRigidRect shape2 box2 = alignRigidRect modelShape faceBox) ∧
    alignRigidRect ⟨2, 1, [-2 / 5, -2 / 5]⟩ ⟨100, 50, 200, 200⟩
      = ⟨⟨2, 1, [120, 70]⟩, .ok ⟨2, 1, [120, 70]⟩⟩ := by
  refine ⟨?_, ?_, ?_⟩
  · have hN : modelShape.rows / 2 = N := by omega
    refine ⟨⟨2 * N, 1, _⟩, ?_, rfl, rfl, ?_, rfl⟩
    · simp only [alignRigidRect, hcols, ne_eq, not_true_eq_false, if_false]
      rw [Mat.mapRowRange_halves _ _ _ hcols (by omega), hN, hrows]
    · simp [hlen]; omega
  · rintro shape2 box2 rfl rfl
    rfl
  · norm_num [alignRigidRect, Mat.mapRowRange]

/-- The theorem `alignRigidRect_spec` at the mean point `(3, 4)` and the box
`(1, 2, 3, 4)`. -/
theorem alignRigidRect_spec_witness :
    (⟨2, 1, [3, 4]⟩ : Mat).cols = 1 ∧ (⟨2, 1, [3, 4]⟩ : Mat).rows = 2 * 1 ∧
    (⟨2, 1, [3, 4]⟩ : Mat).data.length = 2 * 1 ∧
    ∃ out : Mat,
      alignRigidRect ⟨2, 1, [3, 4]⟩ ⟨1, 2, 3, 4⟩ = ⟨out, .ok out⟩ ∧
      out.rows = 2 * 1 ∧ out.cols = 1 ∧ out.data.length = 2 * 1 ∧
      out.data =
        ((⟨2, 1, [3, 4]⟩ : Mat).data.take 1).map
            (fun v => (v + 1 / 2) * (((⟨1, 2, 3, 4⟩ : Rect).width : ℤ) : ℚ)
              + (((⟨1, 2, 3, 4⟩ : Rect).x : ℤ) : ℚ))
          ++ ((⟨2, 1, [3, 4]⟩ : Mat).data.drop 1).map
            (fun v => (v + 1 / 2) * (((⟨1, 2, 3, 4⟩ : Rect).height : ℤ) : ℚ)
              + (((⟨1, 2, 3, 4⟩ : Rect).y : ℤ) : ℚ)) :=
  ⟨rfl, rfl, rfl, (alignRigidRect_spec ⟨2, 1, [3, 4]⟩ ⟨1, 2, 3, 4⟩ 1 rfl rfl rfl).1⟩

/-! ## Rigid alignment to landmarks -/

/-- Claim C2: when `alignRigid` with a landmark collection returns a shape, there are
the model-space points `ps` of the correspondences and a transform `(s, tx, ty)`
with `s` the chosen scale such that every x entry `v` of the shape became
`s * v + tx` and every y entry `s * v + ty`, where `tx` is the mean of
`target x - s * model x` over the correspondences and `ty` the same for y (the
translation is taken from the scaled model points); for the model points `(0,0)`,
`(1,0)` and the targets `(10,5)`, `(12,5)` the transform is `s = 2`, `tx = 10`,
`ty = 5`. The helpers `calculateScaleRatio` and `calculateMeanTranslation` are
modelled from the spec. -/
theorem alignRigidLandmarks_scale_then_translate (model : SdmLandmarkModel)
    (modelShape : Mat) (landmarks : LandmarkCollection) (out : Mat)
    (hwf : modelShape.WellFormed)
    (h : (alignRigidLandmarks model modelShape landmarks).result = .ok out) :
    (∃ ps tr, modelPoints model landmarks = .ok ps ∧
      estimateSimilarity ps landmarks = .ok tr ∧
      chooseScale
          (calculateScaleRatio (ps.map (fun p => p.x)) (landmarks.map (fun lm => lm.x)))
          (calculateScaleRatio (ps.map (fun p => p.y)) (landmarks.map (fun lm => lm.y)))
        = .ok tr.s ∧
      tr.tx = (List.zipWith (fun lm p => lm.x - tr.s * p.x) landmarks ps).sum
        / (landmarks.length : ℚ) ∧
      tr.ty = (List.zipWith (fun lm p => lm.y - tr.s * p.y) landmarks ps).sum
        / (landmarks.length : ℚ) ∧
      out.rows = modelShape.rows ∧ out.cols = 1 ∧
      out.data = (modelShape.data.take (modelShape.rows / 2)).map (fun v => tr.s * v + tr.tx)
        ++ (modelShape.data.drop (modelShape.rows / 2)).map (fun v => tr.s * v + tr.ty)) ∧
    estimateSimilarity [⟨0, 0⟩, ⟨1, 0⟩] exampleLandmarks = .ok ⟨2, 10, 5⟩ := by
  constructor
  · obtain ⟨hc, ps, tr, hp, ht, -, hout⟩ := alignRigidLandmarks_ok h
    obtain ⟨hs, htx, hty⟩ := estimateSimilarity_ok ht
    rw [Mat.mapRowRange_halves _ _ _ hc (Mat.length_of_column hc hwf)] at hout
    refine ⟨ps, tr, hp, ht, hs, ?_, ?_, ?_, ?_, ?_⟩
    · rw [htx]; exact (calculateMeanTranslation_scaled tr.s ps landmarks).1
    · rw [hty]; exact (calculateMeanTranslation_scaled tr.s ps landmarks).2
    · rw [hout]
    · rw [hout]
    · rw [hout]
      simp only [mul_comm]
  · exact example_similarity

/-- The theorem `alignRigidLandmarks_scale_then_translate` at the worked example: the
mean `(0,0)`, `(1,0)` aligned to `(10,5)`, `(12,5)` is `(10,5)`, `(12,5)`. -/
theorem alignRigidLandmarks_scale_then_translate_witness :
    exampleShape.WellFormed ∧
    (alignRigidLandmarks exampleModel exampleShape exampleLandmarks).result
      = .ok ⟨4, 1, [10, 12, 5, 5]⟩ ∧
    ∃ ps tr, modelPoints exampleModel exampleLandmarks = .ok ps ∧
      estimateSimilarity ps exampleLandmarks = .ok tr ∧
      chooseScale
          (calculateScaleRatio (ps.map (fun p => p.x))
            (exampleLandmarks.map (fun lm => lm.x)))
          (calculateScaleRatio (ps.map (fun p => p.y))
            (exampleLandmarks.map (fun lm => lm.y)))
        = .ok tr.s ∧
      tr.tx = (List.zipWith (fun lm p => lm.x - tr.s * p.x) exampleLandmarks ps).sum
        / (exampleLandmarks.length : ℚ) ∧
      tr.ty = (List.zipWith (fun lm p => lm.y - tr.s * p.y) exampleLandmarks ps).sum
        / (exampleLandmarks.length : ℚ) ∧
      (⟨4, 1, [10, 12, 5, 5]⟩ : Mat).rows = exampleShape.rows ∧
      (⟨4, 1, [10, 12, 5, 5]⟩ : Mat).cols = 1 ∧
      (⟨4, 1, [10, 12, 5, 5]⟩ : Mat).data
        = (exampleShape.data.take (exampleShape.rows / 2)).map (fun v => tr.s * v + tr.tx)
          ++ (exampleShape.data.drop (exampleShape.rows / 2)).map
            (fun v => tr.s * v + tr.ty) :=
  ⟨by decide, by rw [example_aligned],
    (alignRigidLandmarks_scale_then_translate exampleModel exampleShape exampleLandmarks
      ⟨4, 1, [10, 12, 5, 5]⟩ (by decide) (by rw [example_aligned])).1⟩

/-- Claim C3: with `sx` and `sy` the two scale ratios of the correspondences: if `sx`
is normal and `sy` is not, the scale of the transform is `sx`; if `sy` is normal and
`sx` is not, it is `sy`; if both are normal it is `(sx + sy) / 2`; in each case that
one scale multiplies both coordinate halves of the returned shape. For the model
points `(0,0)`, `(1,0)` and the targets `(10,5)`, `(12,5)`: `sx = 2`, `sy` is not
normal and `s = 2`. The ratios are those of the spec-modelled
`calculateScaleRatio`. -/
theorem alignRigidLandmarks_scale_choice (model : SdmLandmarkModel) (modelShape : Mat)
    (landmarks : LandmarkCollection) (ps : List Point2f)
    (hcols : modelShape.cols = 1) (hwf : modelShape.WellFormed)
    (hres : modelPoints model landmarks = .ok ps) :
    (∀ a : ℚ,
      calculateScaleRatio (ps.map (fun p => p.x)) (landmarks.map (fun lm => lm.x))
        = .finite a → a ≠ 0 →
      (calculateScaleRatio (ps.map (fun p => p.y))
        (landmarks.map (fun lm => lm.y))).isnormal = false →
      ∃ tx ty, estimateSimilarity ps landmarks = .ok ⟨a, tx, ty⟩ ∧
        (alignRigidLandmarks model modelShape landmarks).result = .ok ⟨modelShape.rows, 1,
          (modelShape.data.take (modelShape.rows / 2)).map (fun v => v * a + tx)
            ++ (modelShape.data.drop (modelShape.rows / 2)).map (fun v => v * a + ty)⟩) ∧
    (∀ b : ℚ,
      (calculateScaleRatio (ps.map (fun p => p.x))
        (landmarks.map (fun lm => lm.x))).isnormal = false →
      calculateScaleRatio (ps.map (fun p => p.y)) (landmarks.map (fun lm => lm.y))
        = .finite b → b ≠ 0 →
      ∃ tx ty, estimateSimilarity ps landmarks = .ok ⟨b, tx, ty⟩ ∧
        (alignRigidLandmarks model modelShape landmarks).result = .ok ⟨modelShape.rows, 1,
          (modelShape.data.take (modelShape.rows / 2)).map (fun v => v * b + tx)
            ++ (modelShape.data.drop (modelShape.rows / 2)).map (fun v => v * b + ty)⟩) ∧
    (∀ a b : ℚ,
      calculateScaleRatio (ps.map (fun p => p.x)) (landmarks.map (fun lm => lm.x))
        = .finite a → a ≠ 0 →
      calculateScaleRatio (ps.map (fun p => p.y)) (landmarks.map (fun lm => lm.y))
        = .finite b → b ≠ 0 →
      ∃ tx ty, estimateSimilarity ps landmarks = .ok ⟨(a + b) / 2, tx, ty⟩ ∧
        (alignRigidLandmarks model modelShape landmarks).result = .ok ⟨modelShape.rows, 1,
          (modelShape.data.take (modelShape.rows / 2)).map (fun v => v * ((a + b) / 2) + tx)
            ++ (modelShape.data.drop (modelShape.rows / 2)).map
              (fun v => v * ((a + b) / 2) + ty)⟩) ∧
    (calculateScaleRatio [0, 1] [10, 12] = .finite 2 ∧
      (calculateScaleRatio [0, 0] [5, 5]).isnormal = false ∧
      estimateSimilarity [⟨0, 0⟩, ⟨1, 0⟩] exampleLandmarks = .ok ⟨2, 10, 5⟩) := by
  have key : ∀ s : ℚ,
      chooseScale
        (calculateScaleRatio (ps.map (fun p => p.x)) (landmarks.map (fun lm => lm.x)))
        (calculateScaleRatio (ps.map (fun p => p.y)) (landmarks.map (fun lm => lm.y)))
        = .ok s →
      ∃ tx ty, estimateSimilarity ps landmarks = .ok ⟨s, tx, ty⟩ ∧
        (alignRigidLandmarks model modelShape landmarks).result = .ok ⟨modelShape.rows, 1,
          (modelShape.data.take (modelShape.rows / 2)).map (fun v => v * s + tx)
            ++ (modelShape.data.drop (modelShape.rows / 2)).map (fun v => v * s + ty)⟩ := by
    intro s hs
    have htr := estimateSimilarity_of_scale hs
    exact ⟨_, _, htr, by rw [alignRigidLandmarks_of_similarity hcols hwf hres htr]⟩
  refine ⟨?_, ?_, ?_, example_ratio_x, ?_, example_similarity⟩
  · intro a hx ha hy
    apply key
    rw [hx]
    exact chooseScale_x_only a _ ha hy
  · intro b hx hy hb
    apply key
    rw [hy]
    exact chooseScale_y_only _ b hx hb
  · intro a b hx ha hy hb
    apply key
    rw [hx, hy]
    exact chooseScale_both a b ha hb
  · rw [example_ratio_y]
    rfl

/-- The theorem `alignRigidLandmarks_scale_choice` at the worked example, where only
the x ratio is normal: the scale is that ratio, `2`. -/
theorem alignRigidLandmarks_scale_choice_witness :
    exampleShape.cols = 1 ∧ exampleShape.WellFormed ∧
    modelPoints exampleModel exampleLandmarks = .ok [⟨0, 0⟩, ⟨1, 0⟩] ∧
    ∃ tx ty, estimateSimilarity [⟨0, 0⟩, ⟨1, 0⟩] exampleLandmarks = .ok ⟨2, tx, ty⟩ ∧
      (alignRigidLandmarks exampleModel exampleShape exampleLandmarks).result
        = .ok ⟨exampleShape.rows, 1,
          (exampleShape.data.take (exampleShape.rows / 2)).map (fun v => v * 2 + tx)
            ++ (exampleShape.data.drop (exampleShape.rows / 2)).map
              (fun v => v * 2 + ty)⟩ :=
  ⟨rfl, by decide, example_modelPoints,
    (alignRigidLandmarks_scale_choice exampleModel exampleShape exampleLandmarks
      [⟨0, 0⟩, ⟨1, 0⟩] rfl (by decide) example_modelPoints).1 2 example_ratio_x
      (by norm_num) (by
        show (calculateScaleRatio [0, 0] [5, 5]).isnormal = false
        rw [example_ratio_y]; rfl)⟩

/-- Claim C4: for a single-column shape and correspondences whose identifiers all
resolve in the model (to the points `ps`), `alignRigid` fails with `alignmentError`
if and only if neither the x ratio nor the y ratio is normal, and whenever at least
one of the two is normal it returns a shape. -/
theorem alignRigidLandmarks_alignmentError_iff (model : SdmLandmarkModel) (modelShape : Mat)
    (landmarks : LandmarkCollection) (ps : List Point2f)
    (hcols : modelShape.cols = 1) (hres : modelPoints model landmarks = .ok ps) :
    ((alignRigidLandmarks model modelShape landmarks).result = .error .alignmentError ↔
      ((calculateScaleRatio (ps.map (fun p => p.x))
          (landmarks.map (fun lm => lm.x))).isnormal = false ∧
        (calculateScaleRatio (ps.map (fun p => p.y))
          (landmarks.map (fun lm => lm.y))).isnormal = false)) ∧
    (((calculateScaleRatio (ps.map (fun p => p.x))
          (landmarks.map (fun lm => lm.x))).isnormal = true ∨
        (calculateScaleRatio (ps.map (fun p => p.y))
          (landmarks.map (fun lm => lm.y))).isnormal = true) →
      ∃ out, (alignRigidLandmarks model modelShape landmarks).result = .ok out) := by
  have key : ((calculateScaleRatio (ps.map (fun p => p.x))
          (landmarks.map (fun lm => lm.x))).isnormal = true ∨
        (calculateScaleRatio (ps.map (fun p => p.y))
          (landmarks.map (fun lm => lm.y))).isnormal = true) →
      ∃ out, (alignRigidLandmarks model modelShape landmarks).result = .ok out := by
    intro h
    obtain ⟨s, hs⟩ := chooseScale_ok_of_normal _ _ h
    have htr := estimateSimilarity_of_scale hs
    unfold alignRigidLandmarks
    simp only [hcols, ne_eq, not_true_eq_false, if_false, hres, htr]
    exact ⟨_, rfl⟩
  refine ⟨⟨?_, ?_⟩, key⟩
  · intro herr
    by_contra hn
    have hor : ((calculateScaleRatio (ps.map (fun p => p.x))
          (landmarks.map (fun lm => lm.x))).isnormal = true ∨
        (calculateScaleRatio (ps.map (fun p => p.y))
          (landmarks.map (fun lm => lm.y))).isnormal = true) := by
      by_contra hno
      apply hn
      constructor
      · cases hx : (calculateScaleRatio (ps.map (fun p => p.x))
          (landmarks.map (fun lm => lm.x))).isnormal
        · rfl
        · exact absurd (Or.inl hx) hno
      · cases hy : (calculateScaleRatio (ps.map (fun p => p.y))
          (landmarks.map (fun lm => lm.y))).isnormal
        · rfl
        · exact absurd (Or.inr hy) hno
    obtain ⟨out, hout⟩ := key hor
    rw [hout] at herr
    exact absurd herr (by simp)
  · rintro ⟨hx, hy⟩
    rw [alignRigidLandmarks_of_error hcols hres (estimateSimilarity_of_neither hx hy)]

/-- The theorem `alignRigidLandmarks_alignmentError_iff` at the worked example, whose
x ratio is normal: a shape is returned. -/
theorem alignRigidLandmarks_alignmentError_iff_witness :
    exampleShape.cols = 1 ∧
    modelPoints exampleModel exampleLandmarks = .ok [⟨0, 0⟩, ⟨1, 0⟩] ∧
    ∃ out, (alignRigidLandmarks exampleModel exampleShape exampleLandmarks).result
      = .ok out :=
  ⟨rfl, example_modelPoints,
    (alignRigidLandmarks_alignmentError_iff exampleModel exampleShape exampleLandmarks
      [⟨0, 0⟩, ⟨1, 0⟩] rfl example_modelPoints).2
      (Or.inl (by
        show (calculateScaleRatio [0, 1] [10, 12]).isnormal = true
        rw [example_ratio_x]; rfl))⟩

/-- Claim C5: when the two correspondences resolve to the same model-space point and
have the same target x and the same target y, `alignRigid` on a single-column shape
fails with `alignmentError` and the caller's matrix is the input shape, entry for
entry. The degenerate ratios are those of the spec-modelled
`calculateScaleRatio`. -/
theorem alignRigidLandmarks_coincident (model : SdmLandmarkModel) (modelShape : Mat)
    (l1 l2 : Landmark) (p1 p2 : Point2f)
    (hcols : modelShape.cols = 1)
    (hres : modelPoints model [l1, l2] = .ok [p1, p2])
    (hp : p1 = p2) (hx : l1.x = l2.x) (hy : l1.y = l2.y) :
    (alignRigidLandmarks model modelShape [l1, l2]).result = .error .alignmentError ∧
    (alignRigidLandmarks model modelShape [l1, l2]).buffer = modelShape := by
  subst hp
  have hs : ∀ a : ℚ, spread [a, a] = 0 := fun a => by simp [spread]
  have herr : estimateSimilarity [p1, p1] [l1, l2] = .error .alignmentError := by
    apply estimateSimilarity_of_neither
    · simp only [List.map, calculateScaleRatio, hx, hs]
      rfl
    · simp only [List.map, calculateScaleRatio, hy, hs]
      rfl
  rw [alignRigidLandmarks_of_error hcols hres herr]
  exact ⟨rfl, rfl⟩

theorem coincident_modelPoints :
    modelPoints coincidentModel [⟨"a", 7, 7, true⟩, ⟨"b", 7, 7, true⟩]
      = .ok [⟨3, 4⟩, ⟨3, 4⟩] := by
  simp [modelPoints, modelPointOf, SdmLandmarkModel.getLandmarkAsPoint,
    SdmLandmarkModel.getNumLandmarks, coincidentModel, List.indexOf, List.findIdx_cons]

/-- The theorem `alignRigidLandmarks_coincident` for the two landmarks of
`coincidentModel`, both at `(3, 4)` in the mean and both sent to the pixel `(7, 7)`. -/
theorem alignRigidLandmarks_coincident_witness :
    exampleShape.cols = 1 ∧
    modelPoints coincidentModel [⟨"a", 7, 7, true⟩, ⟨"b", 7, 7, true⟩]
      = .ok [⟨3, 4⟩, ⟨3, 4⟩] ∧
    (alignRigidLandmarks coincidentModel exampleShape
      [⟨"a", 7, 7, true⟩, ⟨"b", 7, 7, true⟩]).result = .error .alignmentError ∧
    (alignRigidLandmarks coincidentModel exampleShape
      [⟨"a", 7, 7, true⟩, ⟨"b", 7, 7, true⟩]).buffer = exampleShape :=
  ⟨rfl, coincident_modelPoints,
    alignRigidLandmarks_coincident coincidentModel exampleShape ⟨"a", 7, 7, true⟩
      ⟨"b", 7, 7, true⟩ ⟨3, 4⟩ ⟨3, 4⟩ rfl coincident_modelPoints rfl rfl rfl⟩

/-- Claim C6: for at least two correspondences whose targets are exactly
`s0 * modelPoint + (tx0, ty0)` with `s0 > 0`, and whose model points have a non-zero
spread on at least one axis, the transform of `alignRigid` is `s = s0`, `tx = tx0`,
`ty = ty0`, and the returned shape is `s0 * v + tx0` on every x entry and
`s0 * v + ty0` on every y entry of the input shape. The spread is the range of the
spec-modelled `calculateScaleRatio`. -/
theorem alignRigidLandmarks_recovers (model : SdmLandmarkModel) (modelShape : Mat)
    (landmarks : LandmarkCollection) (ps : List Point2f) (s0 tx0 ty0 : ℚ)
    (hcols : modelShape.cols = 1) (hwf : modelShape.WellFormed)
    (hres : modelPoints model landmarks = .ok ps)
    (hs0 : 0 < s0) (hlen : 2 ≤ landmarks.length)
    (hT : List.Forall₂ (fun lm p => lm.x = s0 * p.x + tx0 ∧ lm.y = s0 * p.y + ty0)
      landmarks ps)
    (hspread : spread (ps.map (fun p => p.x)) ≠ 0 ∨ spread (ps.map (fun p => p.y)) ≠ 0) :
    estimateSimilarity ps landmarks = .ok ⟨s0, tx0, ty0⟩ ∧
    (alignRigidLandmarks model modelShape landmarks).result = .ok ⟨modelShape.rows, 1,
      (modelShape.data.take (modelShape.rows / 2)).map (fun v => s0 * v + tx0)
        ++ (modelShape.data.drop (modelShape.rows / 2)).map (fun v => s0 * v + ty0)⟩ := by
  have htr := estimateSimilarity_recovers hs0 hlen hT hspread
  refine ⟨htr, ?_⟩
  rw [alignRigidLandmarks_of_similarity hcols hwf hres htr]
  simp only [mul_comm]

/-- The theorem `alignRigidLandmarks_recovers` at the worked example, whose targets
are `2 * modelPoint + (10, 5)`. -/
theorem alignRigidLandmarks_recovers_witness :
    exampleShape.cols = 1 ∧ exampleShape.WellFormed ∧
    modelPoints exampleModel exampleLandmarks = .ok [⟨0, 0⟩, ⟨1, 0⟩] ∧
    (0 : ℚ) < 2 ∧ 2 ≤ exampleLandmarks.length ∧
    estimateSimilarity [⟨0, 0⟩, ⟨1, 0⟩] exampleLandmarks = .ok ⟨2, 10, 5⟩ ∧
    (alignRigidLandmarks exampleModel exampleShape exampleLandmarks).result
      = .ok ⟨exampleShape.rows, 1,
        (exampleShape.data.take (exampleShape.rows / 2)).map (fun v => 2 * v + 10)
          ++ (exampleShape.data.drop (exampleShape.rows / 2)).map (fun v => 2 * v + 5)⟩ :=
  ⟨rfl, by decide, example_modelPoints, by norm_num, by decide,
    alignRigidLandmarks_recovers exampleModel exampleShape exampleLandmarks
      [⟨0, 0⟩, ⟨1, 0⟩] 2 10 5 rfl (by decide) example_modelPoints (by norm_num) (by decide)
      (List.Forall₂.cons ⟨by norm_num, by norm_num⟩
        (List.Forall₂.cons ⟨by norm_num, by norm_num⟩ List.Forall₂.nil))
      (Or.inl (by norm_num [spread]))⟩

/-! ### Rounding and the window size -/

theorem stdRound_mono {α : Type} [LinearOrderedField α] [FloorRing α] {x y : α}
    (h : x ≤ y) : stdRound x ≤ stdRound y := by
  unfold stdRound
  by_cases hx : 0 ≤ x
  · have hy : 0 ≤ y := le_trans hx h
    simp only [hx, hy, if_true]
    exact Int.floor_le_floor (by linarith)
  · by_cases hy : 0 ≤ y
    · simp only [hx, hy, if_true, if_false]
      have h1 : ⌈x - 1 / 2⌉ ≤ 0 := by
        rw [Int.ceil_le]
        push_neg at hx
        have : (0 : α) < 1 / 2 := by norm_num
        simp only [Int.cast_zero]
        linarith
      have h2 : 0 ≤ ⌊y + 1 / 2⌋ := by
        rw [Int.le_floor]
        have : (0 : α) < 1 / 2 := by norm_num
        simp only [Int.cast_zero]
        linarith
      exact le_trans h1 h2
    · simp only [hx, hy, if_false]
      exact Int.ceil_le_ceil (by linarith)

theorem stdRound_nonneg {α : Type} [LinearOrderedField α] [FloorRing α] {x : α}
    (h : 0 ≤ x) : 0 ≤ stdRound x := by
  unfold stdRound
  simp only [h, if_true]
  rw [Int.le_floor]
  have : (0 : α) < 1 / 2 := by norm_num
  simp only [Int.cast_zero]
  linarith

/-- The result of `stdRound` is a nearest integer, and when `x` is halfway between
two integers it is the one of larger magnitude. -/
theorem stdRound_nearest {α : Type} [LinearOrderedField α] [FloorRing α] (x : α) :
    |((stdRound x : ℤ) : α) - x| ≤ 1 / 2 ∧
    (|((stdRound x : ℤ) : α) - x| = 1 / 2 → |x| < |((stdRound x : ℤ) : α)|) := by
  unfold stdRound
  by_cases hx : 0 ≤ x
  · simp only [hx, if_true]
    have h1 : ((⌊x + 1 / 2⌋ : ℤ) : α) ≤ x + 1 / 2 := Int.floor_le _
    have h2 : x + 1 / 2 < ((⌊x + 1 / 2⌋ : ℤ) : α) + 1 := Int.lt_floor_add_one _
    constructor
    · rw [abs_le]; constructor <;> linarith
    · intro he
      have hpos : ((⌊x + 1 / 2⌋ : ℤ) : α) - x = 1 / 2 := by
        rcases abs_eq (by norm_num : (0 : α) ≤ 1 / 2) |>.1 he with h | h
        · exact h
        · linarith
      rw [abs_of_nonneg hx, abs_of_nonneg (by linarith)]
      linarith
  · simp only [hx, if_false]
    push_neg at hx
    have h1 : x - 1 / 2 ≤ ((⌈x - 1 / 2⌉ : ℤ) : α) := Int.le_ceil _
    have h2 : ((⌈x - 1 / 2⌉ : ℤ) : α) < x - 1 / 2 + 1 := Int.ceil_lt_add_one _
    constructor
    · rw [abs_le]; constructor <;> linarith
    · intro he
      have hneg : ((⌈x - 1 / 2⌉ : ℤ) : α) - x = -(1 / 2) := by
        rcases abs_eq (by norm_num : (0 : α) ≤ 1 / 2) |>.1 he with h | h
        · linarith
        · exact h
      rw [abs_of_neg hx, abs_of_neg (by linarith)]
      linarith

/-- While `w + 3` fits `int`, the conversion and the `int` arithmetic of the window
size are exact. -/
theorem windowSizeHalfi_exact {w : ℤ} (h0 : 0 ≤ w) (h1 : w ≤ 2147483644) :
    windowSizeHalfi w = w + 3 - w % 3 := by
  unfold windowSizeHalfi castInt wrapInt INT_MIN INT_MAX NUM_CELL
  rw [if_pos ⟨by omega, by omega⟩, Int.tmod_eq_emod h0 (by norm_num)]
  omega

/-- A rounded value above `INT_MAX` is converted to `INT_MIN`, from which the window
size `-2147483643` results. -/
theorem windowSizeHalfi_above {w : ℤ} (h : 2147483647 < w) :
    windowSizeHalfi w = -2147483643 := by
  unfold windowSizeHalfi castInt wrapInt INT_MIN INT_MAX NUM_CELL
  rw [if_neg (by omega)]
  decide

theorem windowSizeHalfi_mono {a b : ℤ} (ha : 0 ≤ a) (h : a ≤ b) (hb : b ≤ 2147483644) :
    windowSizeHalfi a ≤ windowSizeHalfi b := by
  rw [windowSizeHalfi_exact ha (by omega), windowSizeHalfi_exact (by omega) hb]
  omega

theorem windowSizeHalf_eq {α : Type} [LinearOrderedField α] [FloorRing α] (exp : ℤ → α)
    (faceSize : α) (d K : Nat) :
    windowSizeHalf exp faceSize d K
      = stdRound ((faceSize / 4) * 1 / (1 + exp (((d : ℤ) + 1) - (K : ℤ)))) := by
  unfold windowSizeHalf
  simp only []
  congr 1
  rw [div_div, mul_one_div, mul_one]
  norm_num

theorem windowSizeHalf_antitone_aux {α : Type} [LinearOrderedField α] [FloorRing α]
    (exp : ℤ → α) (hmono : Monotone exp) (hpos : ∀ n, 0 ≤ exp n) (faceSize : α)
    (hf : 0 ≤ faceSize) (K d1 d2 : Nat) (h12 : d1 ≤ d2) :
    0 ≤ windowSizeHalf exp faceSize d2 K ∧
    windowSizeHalf exp faceSize d2 K ≤ windowSizeHalf exp faceSize d1 K := by
  have he : exp (((d1 : ℤ) + 1) - (K : ℤ)) ≤ exp (((d2 : ℤ) + 1) - (K : ℤ)) := by
    apply hmono
    have : (d1 : ℤ) ≤ (d2 : ℤ) := by exact_mod_cast h12
    linarith
  have hp1 : (0 : α) < 1 + exp (((d1 : ℤ) + 1) - (K : ℤ)) := by
    have := hpos (((d1 : ℤ) + 1) - (K : ℤ)); linarith
  have hp2 : (0 : α) < 1 + exp (((d2 : ℤ) + 1) - (K : ℤ)) := by
    have := hpos (((d2 : ℤ) + 1) - (K : ℤ)); linarith
  have hq : (0 : α) ≤ faceSize / 2 / 2 := by positivity
  unfold windowSizeHalf
  simp only []
  constructor
  · apply stdRound_nonneg
    exact mul_nonneg hq (by positivity)
  · apply stdRound_mono
    apply mul_le_mul_of_nonneg_left _ hq
    exact one_div_le_one_div_of_le hp1 (by linarith)

theorem stdRound_intCast {α : Type} [LinearOrderedField α] [FloorRing α] (n : ℤ) :
    stdRound ((n : ℤ) : α) = n := by
  unfold stdRound
  have hhalf : (0 : α) < 1 / 2 := by norm_num
  by_cases h : (0 : α) ≤ (n : α)
  · rw [if_pos h, Int.floor_eq_iff]
    constructor <;> linarith
  · rw [if_neg h, Int.ceil_eq_iff]
    constructor <;> linarith

/-- The rounded `windowSizeHalf` is at most `faceSize / 4` rounded, so a face size of
at most `4 * 2147483644` keeps it, and the window size, inside `int`. -/
theorem windowSizeHalf_fits {α : Type} [LinearOrderedField α] [FloorRing α]
    (exp : ℤ → α) (hpos : ∀ n, 0 ≤ exp n) (faceSize : α) (hf : 0 ≤ faceSize)
    (hbound : faceSize ≤ 8589934576) (d K : Nat) :
    windowSizeHalf exp faceSize d K ≤ 2147483644 := by
  have he := hpos (((d : ℤ) + 1) - (K : ℤ))
  have hq : (0 : α) ≤ faceSize / 2 / 2 := by positivity
  have hone : 1 / (1 + exp (((d : ℤ) + 1) - (K : ℤ))) ≤ (1 : α) := by
    rw [div_le_one (by linarith)]
    linarith
  have hle : faceSize / 2 / 2 * (1 / (1 + exp (((d : ℤ) + 1) - (K : ℤ))))
      ≤ ((2147483644 : ℤ) : α) := by
    calc faceSize / 2 / 2 * (1 / (1 + exp (((d : ℤ) + 1) - (K : ℤ))))
        ≤ faceSize / 2 / 2 * 1 := mul_le_mul_of_nonneg_left hone hq
      _ = faceSize / 4 := by ring
      _ ≤ 8589934576 / 4 := by linarith
      _ = ((2147483644 : ℤ) : α) := by norm_num
  have := stdRound_mono hle
  rw [stdRound_intCast] at this
  unfold windowSizeHalf
  exact this

/-! ### One stage of the cascade: what is read and what is handed to the extractor -/

theorem atFloat_ok (m : Mat) {i : Nat} (h : i < m.data.length) :
    m.atFloat i = .ok (m.data.getD i 0) := by
  unfold Mat.atFloat
  simp [List.getElem?_eq_getElem h, List.getD_eq_getElem?_getD]

theorem collectPoints_ok (modelShape : Mat) (N : Nat) (l : List Nat)
    (h : ∀ i ∈ l, i + N < modelShape.data.length) :
    collectPoints modelShape N l
      = .ok (l.map (fun i => ⟨modelShape.data.getD i 0, modelShape.data.getD (i + N) 0⟩)) := by
  induction l with
  | nil => rfl
  | cons i rest ih =>
    have hi : i + N < modelShape.data.length := h i (List.mem_cons_self _ _)
    have hi0 : i < modelShape.data.length := by omega
    have hrest := ih (fun j hj => h j (List.mem_cons_of_mem _ hj))
    simp only [collectPoints, atFloat_ok _ hi, atFloat_ok _ hi0, hrest, bind,
      Except.bind, pure, Except.pure, List.map_cons]

theorem dynamicFaceSizeDistance_ok (libm : Libm) (modelShape : Mat) (N : Nat)
    (h : 12 + N < modelShape.data.length) :
    dynamicFaceSizeDistance libm modelShape N = .ok (libm.sqrt
      (((modelShape.data.getD 8 0 + modelShape.data.getD 9 0) / 2
          - (modelShape.data.getD 11 0 + modelShape.data.getD 12 0) / 2) ^ 2
        + ((modelShape.data.getD (8 + N) 0 + modelShape.data.getD (9 + N) 0) / 2
          - (modelShape.data.getD (11 + N) 0 + modelShape.data.getD (12 + N) 0) / 2) ^ 2)) := by
  have a8 := atFloat_ok modelShape (i := 8) (by omega)
  have a9 := atFloat_ok modelShape (i := 9) (by omega)
  have a11 := atFloat_ok modelShape (i := 11) (by omega)
  have a12 := atFloat_ok modelShape (i := 12) (by omega)
  have b8 := atFloat_ok modelShape (i := 8 + N) (by omega)
  have b9 := atFloat_ok modelShape (i := 9 + N) (by omega)
  have b11 := atFloat_ok modelShape (i := 11 + N) (by omega)
  have b12 := atFloat_ok modelShape (i := 12 + N) (by omega)
  simp only [dynamicFaceSizeDistance, a8, a9, a11, a12, b8, b9, b11, b12, bind, Except.bind,
    pure, Except.pure]

theorem stageInput_ok (libm : Libm) (model : SdmLandmarkModel) (d : Nat) (modelShape : Mat)
    (hN : 13 ≤ model.getNumLandmarks)
    (hlen : modelShape.data.length = 2 * model.getNumLandmarks) :
    stageInput libm model d modelShape = .ok
      ((List.range model.getNumLandmarks).map (fun i =>
          ⟨modelShape.data.getD i 0, modelShape.data.getD (i + model.getNumLandmarks) 0⟩),
        libm.sqrt
          (((modelShape.data.getD 8 0 + modelShape.data.getD 9 0) / 2
              - (modelShape.data.getD 11 0 + modelShape.data.getD 12 0) / 2) ^ 2
            + ((modelShape.data.getD (8 + model.getNumLandmarks) 0
                  + modelShape.data.getD (9 + model.getNumLandmarks) 0) / 2
              - (modelShape.data.getD (11 + model.getNumLandmarks) 0
                  + modelShape.data.getD (12 + model.getNumLandmarks) 0) / 2) ^ 2),
        some (windowSizeHalfi (windowSizeHalf libm.exp
          (libm.sqrt
            (((modelShape.data.getD 8 0 + modelShape.data.getD 9 0) / 2
                - (modelShape.data.getD 11 0 + modelShape.data.getD 12 0) / 2) ^ 2
              + ((modelShape.data.getD (8 + model.getNumLandmarks) 0
                    + modelShape.data.getD (9 + model.getNumLandmarks) 0) / 2
                - (modelShape.data.getD (11 + model.getNumLandmarks) 0
                    + modelShape.data.getD (12 + model.getNumLandmarks) 0) / 2) ^ 2))
          d model.getNumCascadeSteps))) := by
  have hp := collectPoints_ok modelShape model.getNumLandmarks
    (List.range model.getNumLandmarks) (by
      intro i hi
      rw [List.mem_range] at hi
      omega)
  have hf := dynamicFaceSizeDistance_ok libm modelShape model.getNumLandmarks (by omega)
  simp only [stageInput, hp, hf, adaptive, if_true, bind, Except.bind, pure, Except.pure]

/-- Claim C8: at cascade step `d` of a `K`-stage cascade, on a shape with the `2 * N`
coordinates of `N >= 13` landmarks, the stage computes `faceSize` as the square root
(of the C library) of the squared distance between the midpoint of landmarks 8, 9
and the midpoint of landmarks 11, 12 of the current shape, and the rounded
`windowSizeHalf` is `round((faceSize / 4) * 1 / (1 + exp((d + 1) - K)))`, where
`round` gives a nearest integer and on a tie the one away from zero; the extractor
argument is derived from that value; at the last step `d = K - 1`, as `exp(0) = 1`,
the rounded value is `round(faceSize / 8)`. -/
theorem stageInput_faceSize_windowSizeHalf (libm : Libm) (model : SdmLandmarkModel)
    (d : Nat) (modelShape : Mat) (hN : 13 ≤ model.getNumLandmarks)
    (hlen : modelShape.data.length = 2 * model.getNumLandmarks) :
    ∃ points faceSize,
      stageInput libm model d modelShape = .ok (points, faceSize,
        some (windowSizeHalfi
          (windowSizeHalf libm.exp faceSize d model.getNumCascadeSteps))) ∧
      dynamicFaceSizeDistance libm modelShape model.getNumLandmarks = .ok faceSize ∧
      faceSize = libm.sqrt
        (((modelShape.data.getD 8 0 + modelShape.data.getD 9 0) / 2
            - (modelShape.data.getD 11 0 + modelShape.data.getD 12 0) / 2) ^ 2
          + ((modelShape.data.getD (8 + model.getNumLandmarks) 0
                + modelShape.data.getD (9 + model.getNumLandmarks) 0) / 2
            - (modelShape.data.getD (11 + model.getNumLandmarks) 0
                + modelShape.data.getD (12 + model.getNumLandmarks) 0) / 2) ^ 2) ∧
      windowSizeHalf libm.exp faceSize d model.getNumCascadeSteps
        = stdRound ((faceSize / 4) * 1
          / (1 + libm.exp (((d : ℤ) + 1) - (model.getNumCascadeSteps : ℤ)))) ∧
      (∀ x : ℚ, |((stdRound x : ℤ) : ℚ) - x| ≤ 1 / 2 ∧
        (|((stdRound x : ℤ) : ℚ) - x| = 1 / 2 → |x| < |((stdRound x : ℤ) : ℚ)|)) ∧
      (libm.exp 0 = 1 → d + 1 = model.getNumCascadeSteps →
        windowSizeHalf libm.exp faceSize d model.getNumCascadeSteps
          = stdRound (faceSize / 8)) := by
  refine ⟨_, _, stageInput_ok libm model d modelShape hN hlen,
    dynamicFaceSizeDistance_ok libm modelShape model.getNumLandmarks (by omega), rfl,
    windowSizeHalf_eq _ _ _ _, fun x => stdRound_nearest x, ?_⟩
  intro h0 hd
  rw [windowSizeHalf_eq]
  have hz : ((d : ℤ) + 1) - (model.getNumCascadeSteps : ℤ) = 0 := by
    rw [← hd]; push_cast; ring
  rw [hz, h0]
  congr 1
  ring

/-! ### Matrix facts used by the regression step -/

theorem filterMap_getElem?_range (l : List ℚ) :
    (List.range l.length).filterMap (fun i => l[i]?) = l := by
  induction l with
  | nil => rfl
  | cons a l ih =>
    rw [List.length_cons, List.range_succ_eq_map, List.filterMap_cons]
    simp only [List.getElem?_cons_zero, List.filterMap_map, Function.comp_def,
      List.getElem?_cons_succ]
    rw [ih]

theorem flatMap_getElem?_range (l : List ℚ) :
    (List.range l.length).flatMap (fun j => (l[j]?).toList) = l := by
  induction l with
  | nil => rfl
  | cons a l ih =>
    rw [List.length_cons, List.range_succ_eq_map, List.flatMap_cons]
    simp only [List.getElem?_cons_zero, Option.toList, List.flatMap_map,
      List.getElem?_cons_succ, List.singleton_append, List.cons.injEq, true_and]
    exact ih

/-- The transpose of a column vector has the same elements. -/
theorem t_column (n : Nat) (d : List ℚ) (h : d.length = n) :
    (⟨n, 1, d⟩ : Mat).t = ⟨1, n, d⟩ := by
  subst h
  have r1 : List.range 1 = [0] := rfl
  simp only [Mat.t, Mat.col, r1, List.flatMap_cons, List.flatMap_nil,
    List.append_nil, mul_one, add_zero, filterMap_getElem?_range]

/-- The transpose of a row vector has the same elements. -/
theorem t_row (n : Nat) (d : List ℚ) (h : d.length = n) :
    (⟨1, n, d⟩ : Mat).t = ⟨n, 1, d⟩ := by
  subst h
  have r1 : List.range 1 = [0] := rfl
  have hfun : (fun j => [0].filterMap (fun i => d[i * d.length + j]?))
      = fun j => (d[j]?).toList := by
    funext j
    simp only [List.filterMap_cons, zero_mul, zero_add, List.filterMap_nil]
    cases d[j]? <;> rfl
  simp only [Mat.t, Mat.col, r1, hfun, flatMap_getElem?_range]

theorem dot_map_range (f : List ℚ) (D : Nat) (g : Nat → ℚ) (h : f.length = D) :
    Mat.dot f ((List.range D).map g) = ∑ i in Finset.range D, f.getD i 0 * g i := by
  induction f generalizing D g with
  | nil =>
    subst h
    simp [Mat.dot]
  | cons a f ih =>
    subst h
    rw [List.length_cons, List.range_succ_eq_map, Finset.sum_range_succ']
    have := ih f.length (fun i => g (i + 1)) rfl
    simp only [Mat.dot, List.map_cons, List.map_map, List.zipWith_cons_cons, List.sum_cons,
      List.getD_cons_zero, List.getD_cons_succ] at this ⊢
    rw [add_comm]
    congr 1

theorem zipWith_eq_map_range (f : ℚ → ℚ → ℚ) (n : Nat) (l1 l2 : List ℚ)
    (h1 : l1.length = n) (h2 : l2.length = n) :
    List.zipWith f l1 l2 = (List.range n).map (fun j => f (l1.getD j 0) (l2.getD j 0)) := by
  induction l1 generalizing l2 n with
  | nil =>
    subst h1
    simp
  | cons a l1 ih =>
    cases l2 with
    | nil =>
      subst h1
      simp at h2
    | cons b l2 =>
      subst h1
      rw [List.length_cons, List.range_succ_eq_map]
      simp only [List.zipWith_cons_cons, List.map_cons, List.getD_cons_zero, List.map_map,
        Function.comp_def, List.getD_cons_succ]
      rw [ih l1.length l2 rfl (by simpa using h2)]

theorem getD_map_range (n : Nat) (g : Nat → ℚ) {j : Nat} (hj : j < n) :
    ((List.range n).map g).getD j 0 = g j := by
  rw [List.getD_eq_getElem?_getD, List.getElem?_map, List.getElem?_range hj]
  rfl

theorem take_drop_eq_map_range (l : List ℚ) (k n : Nat) (h : k + n ≤ l.length) :
    (l.drop k).take n = (List.range n).map (fun j => l.getD (k + j) 0) := by
  apply List.ext_getElem?
  intro j
  by_cases hj : j < n
  · rw [List.getElem?_take_of_lt hj, List.getElem?_drop, List.getElem?_map,
      List.getElem?_range hj]
    have : k + j < l.length := by omega
    simp [List.getElem?_eq_getElem this, List.getD_eq_getElem?_getD]
  · have h1 : ((l.drop k).take n).length ≤ j := by
      simp only [List.length_take, List.length_drop]; omega
    have h2 : ((List.range n).map (fun j => l.getD (k + j) 0)).length ≤ j := by
      simp only [List.length_map, List.length_range]; omega
    rw [List.getElem?_eq_none h1, List.getElem?_eq_none h2]

theorem col_eq_map_range (m : Mat) {j : Nat} (hj : j < m.cols)
    (hlen : m.data.length = m.rows * m.cols) :
    m.col j = (List.range m.rows).map (fun i => m.data.getD (i * m.cols + j) 0) := by
  unfold Mat.col
  rw [← List.filterMap_eq_map]
  apply List.filterMap_congr
  intro i hi
  rw [List.mem_range] at hi
  have : i * m.cols + j < m.data.length := by
    rw [hlen]
    calc i * m.cols + j < i * m.cols + m.cols := by omega
      _ = (i + 1) * m.cols := by ring
      _ ≤ m.rows * m.cols := Nat.mul_le_mul_right _ hi
  simp [List.getElem?_eq_getElem this, List.getD_eq_getElem?_getD]

theorem reshape_features (F : Mat) (N : Nat) (hN : 0 < N) (hrows : F.rows = N)
    (hcols : 0 < F.cols) :
    F.reshape (F.cols * N) = .ok ⟨F.cols * N, 1, F.data⟩ := by
  unfold Mat.reshape
  have h0 : F.cols * N ≠ 0 := Nat.mul_ne_zero hcols.ne' hN.ne'
  by_cases h : F.cols * N = F.rows
  · have hc : F.cols = 1 := by
      rw [hrows] at h
      exact Nat.eq_of_mul_eq_mul_right hN (by rw [h, one_mul])
    simp only [h, or_true, if_true]
    congr 1
    cases F
    simp only at hc
    subst hc
    rfl
  · have hmod : (F.rows * F.cols) % (F.cols * N) = 0 := by
      rw [hrows, Nat.mul_comm N F.cols, Nat.mod_self]
    have hdiv : F.rows * F.cols / (F.cols * N) = 1 := by
      rw [hrows, Nat.mul_comm N F.cols]
      exact Nat.div_self (Nat.pos_of_ne_zero h0)
    have hnlt : ¬ F.rows * F.cols < F.cols * N := by
      rw [hrows, Nat.mul_comm N F.cols]
      exact Nat.lt_irrefl _
    simp only [h0, h, or_self, if_false, hnlt, hmod, ne_eq, not_true_eq_false, hdiv]

theorem mul_row_vector (f : List ℚ) (D : Nat) (B : Mat) (hf : f.length = D)
    (hB : B.rows = D) (hlen : B.data.length = B.rows * B.cols) :
    (⟨1, D, f⟩ : Mat).mul B = .ok ⟨1, B.cols, (List.range B.cols).map (fun j =>
      ∑ i in Finset.range D, f.getD i 0 * B.data.getD (i * B.cols + j) 0)⟩ := by
  unfold Mat.mul
  have r1 : List.range 1 = [0] := rfl
  have hrow : ((⟨1, D, f⟩ : Mat).row 0).data = f := by
    simp only [Mat.row, Mat.rowRange, zero_mul, List.drop_zero, zero_add, Nat.sub_zero,
      one_mul]
    exact List.take_of_length_le (by omega)
  simp only [hB, ne_eq, not_true_eq_false, if_false, r1, List.flatMap_cons, List.flatMap_nil,
    List.append_nil, hrow]
  congr 2
  apply List.map_congr_left
  intro j hj
  rw [List.mem_range] at hj
  rw [col_eq_map_range B hj hlen, hB, dot_map_range f D _ hf]

theorem stageUpdate_ok (model : SdmLandmarkModel) (d : Nat) (modelShape : Mat) (faceSize : ℚ)
    (F W : Mat) (N D : Nat)
    (hNdef : model.getNumLandmarks = N) (hNpos : 0 < N)
    (hW : model.regressorData[d]? = some W)
    (hWrows : W.rows = D + 1) (hWcols : W.cols = 2 * N) (hWwf : W.WellFormed)
    (hFrows : F.rows = N) (hFcols : F.cols * N = D) (hFpos : 0 < F.cols)
    (hFwf : F.WellFormed)
    (hSrows : modelShape.rows = 2 * N) (hScols : modelShape.cols = 1)
    (hSlen : modelShape.data.length = 2 * N) :
    stageUpdate model d modelShape faceSize F = .ok ⟨2 * N, 1,
      (List.range (2 * N)).map (fun j => modelShape.data.getD j 0
        + (∑ i in Finset.range D, F.data.getD i 0 * W.data.getD (i * (2 * N) + j) 0
          + W.data.getD (D * (2 * N) + j) 0) * faceSize)⟩ := by
  have hFlen : F.data.length = D := by
    have := hFwf
    unfold Mat.WellFormed at this
    rw [this, hFrows, Nat.mul_comm, hFcols]
  have hWlen : W.data.length = (D + 1) * (2 * N) := by
    have := hWwf
    unfold Mat.WellFormed at this
    rw [this, hWrows, hWcols]
  -- the feature row vector
  have h1 := reshape_features F N hNpos hFrows hFpos
  rw [hFcols] at h1
  have h2 := t_column D F.data hFlen
  -- the weight rows
  have hB : W.rowRange 0 (W.rows - 1) = ⟨D, 2 * N, W.data.take (D * (2 * N))⟩ := by
    simp only [Mat.rowRange, hWrows, hWcols, Nat.add_sub_cancel, Nat.sub_zero, zero_mul,
      List.drop_zero]
  have hBlen : (W.data.take (D * (2 * N))).length = D * (2 * N) := by
    rw [List.length_take, hWlen]
    apply Nat.min_eq_left
    apply Nat.mul_le_mul_right
    omega
  have h3 := mul_row_vector F.data D ⟨D, 2 * N, W.data.take (D * (2 * N))⟩ hFlen rfl hBlen
  simp only at h3
  have h3' : (List.range (2 * N)).map (fun j => ∑ i in Finset.range D,
        F.data.getD i 0 * (W.data.take (D * (2 * N))).getD (i * (2 * N) + j) 0)
      = (List.range (2 * N)).map (fun j => ∑ i in Finset.range D,
        F.data.getD i 0 * W.data.getD (i * (2 * N) + j) 0) := by
    apply List.map_congr_left
    intro j hj
    rw [List.mem_range] at hj
    apply Finset.sum_congr rfl
    intro i hi
    rw [Finset.mem_range] at hi
    have hlt : i * (2 * N) + j < D * (2 * N) := by
      calc i * (2 * N) + j < i * (2 * N) + 2 * N := by omega
        _ = (i + 1) * (2 * N) := by ring
        _ ≤ D * (2 * N) := Nat.mul_le_mul_right _ hi
    congr 1
    rw [List.getD_eq_getElem?_getD, List.getD_eq_getElem?_getD, List.getElem?_take_of_lt hlt]
  rw [h3'] at h3
  -- the bias row
  have hbias : W.row (W.rows - 1) = ⟨1, 2 * N,
      (List.range (2 * N)).map (fun j => W.data.getD (D * (2 * N) + j) 0)⟩ := by
    simp only [Mat.row, Mat.rowRange, hWrows, hWcols, Nat.add_sub_cancel, Nat.add_sub_cancel_left,
      one_mul]
    rw [take_drop_eq_map_range W.data (D * (2 * N)) (2 * N) (by rw [hWlen]; ring_nf; omega)]
  rw [hWrows] at hB hbias
  simp only [stageUpdate, hNdef, hFcols, h1, hW, hWrows, bind, Except.bind, pure, Except.pure,
    h2, Nat.succ_ne_zero, if_false, hB, h3, adaptive, if_true, hbias]
  simp only [Mat.add, ne_eq, not_true_eq_false, or_self, if_false]
  rw [zipWith_eq_map_range _ (2 * N) _ _ (by simp) (by simp)]
  rw [t_row (2 * N) _ (by simp)]
  simp only [Mat.scale, hSrows, hScols, ne_eq, not_true_eq_false, or_self, if_false]
  rw [zipWith_eq_map_range _ (2 * N) _ _ hSlen (by simp)]
  congr 2
  apply List.map_congr_left
  intro j hj
  rw [List.mem_range] at hj
  rw [List.getD_eq_getElem?_getD (List.map _ _), List.getElem?_map, List.getElem?_map,
    List.getElem?_range hj]
  simp only [Option.map_some', Option.getD_some, getD_map_range _ _ hj]

theorem cascadeStage_ok (libm : Libm) (model : SdmLandmarkModel) (image : Image) (d : Nat)
    (modelShape : Mat) (ext : DescriptorExtractor) (F W : Mat) (N D : Nat)
    (points : List Point2f) (faceSize : ℚ) (window : Option ℤ)
    (hin : stageInput libm model d modelShape = .ok (points, faceSize, window))
    (hext : model.descriptorExtractors[d]? = some ext)
    (hF : ext.getDescriptors image points window = .ok F)
    (hNdef : model.getNumLandmarks = N) (hNpos : 0 < N)
    (hW : model.regressorData[d]? = some W)
    (hWrows : W.rows = D + 1) (hWcols : W.cols = 2 * N) (hWwf : W.WellFormed)
    (hFrows : F.rows = N) (hFcols : F.cols * N = D) (hFpos : 0 < F.cols)
    (hFwf : F.WellFormed)
    (hSrows : modelShape.rows = 2 * N) (hScols : modelShape.cols = 1)
    (hSlen : modelShape.data.length = 2 * N) :
    cascadeStage libm model image d modelShape = ([⟨d, points, window⟩], .ok ⟨2 * N, 1,
      (List.range (2 * N)).map (fun j => modelShape.data.getD j 0
        + (∑ i in Finset.range D, F.data.getD i 0 * W.data.getD (i * (2 * N) + j) 0
          + W.data.getD (D * (2 * N) + j) 0) * faceSize)⟩) := by
  unfold cascadeStage
  simp only [hin, hext, hF]
  rw [stageUpdate_ok model d modelShape faceSize F W N D hNdef hNpos hW hWrows hWcols hWwf
    hFrows hFcols hFpos hFwf hSrows hScols hSlen]

/-- Claim C7: for a one-stage model with `N >= 13` landmarks and the
`(D + 1) x 2N` weight matrix `W`, and a shape with `2 * N` coordinates, the stage
hands the points of the shape and a window to the extractor, and whenever the
extractor returns for them `D > 0` features `f` (one row for each landmark),
`optimize` returns the shape whose entry `j` is
`shape[j] + (sum over i < D of f[i] * W[i][j] + W[D][j]) * faceSize`, where
`faceSize` is the face size of the input shape; if all rows of `W` but the bias row
`W[D]` are zero, entry `j` is `shape[j] + W[D][j] * faceSize` whatever the features
are. -/
theorem optimize_one_stage (libm : Libm) (model : SdmLandmarkModel) (modelShape : Mat)
    (image : Image) (W : Mat) (ext : DescriptorExtractor) (N D : Nat)
    (hstage : model.regressorData = [W]) (hextr : model.descriptorExtractors = [ext])
    (hNdef : model.getNumLandmarks = N) (h13 : 13 ≤ N)
    (hSrows : modelShape.rows = 2 * N) (hScols : modelShape.cols = 1)
    (hSlen : modelShape.data.length = 2 * N)
    (hWrows : W.rows = D + 1) (hWcols : W.cols = 2 * N) (hWwf : W.WellFormed) :
    ∃ points faceSize window,
      stageInput libm model 0 modelShape = .ok (points, faceSize, window) ∧
      dynamicFaceSizeDistance libm modelShape N = .ok faceSize ∧
      ∀ F : Mat, ext.getDescriptors image points window = .ok F →
        F.rows = N → 0 < F.cols → F.cols * N = D → F.WellFormed →
        (optimize libm model modelShape image).1 = [⟨0, points, window⟩] ∧
        (optimize libm model modelShape image).2 = .ok ⟨2 * N, 1,
          (List.range (2 * N)).map (fun j => modelShape.data.getD j 0
            + (∑ i in Finset.range D, F.data.getD i 0 * W.data.getD (i * (2 * N) + j) 0
              + W.data.getD (D * (2 * N) + j) 0) * faceSize)⟩ ∧
        ((∀ i j, i < D → j < 2 * N → W.data.getD (i * (2 * N) + j) 0 = 0) →
          (optimize libm model modelShape image).2 = .ok ⟨2 * N, 1,
            (List.range (2 * N)).map (fun j => modelShape.data.getD j 0
              + W.data.getD (D * (2 * N) + j) 0 * faceSize)⟩) := by
  subst hNdef
  have hin := stageInput_ok libm model 0 modelShape h13 hSlen
  refine ⟨_, _, _, hin, dynamicFaceSizeDistance_ok libm modelShape _ (by omega), ?_⟩
  intro F hF hFrows hFpos hFcols hFwf
  have hK : model.getNumCascadeSteps = 1 := by
    simp [SdmLandmarkModel.getNumCascadeSteps, hstage]
  have hst := cascadeStage_ok libm model image 0 modelShape ext F W model.getNumLandmarks D
    _ _ _ hin (by rw [hextr]; rfl) hF rfl (by omega) (by rw [hstage]; rfl) hWrows hWcols hWwf
    hFrows hFcols hFpos hFwf hSrows hScols hSlen
  have hopt : optimize libm model modelShape image
      = cascadeStage libm model image 0 modelShape := by
    unfold optimize
    rw [hK]
    simp only [optimizeFrom, hst, List.append_nil]
  rw [hopt, hst]
  refine ⟨rfl, rfl, ?_⟩
  intro hz
  simp only
  congr 2
  apply List.map_congr_left
  intro j hj
  rw [List.mem_range] at hj
  rw [Finset.sum_eq_zero (fun i hi => by
    rw [hz i j (Finset.mem_range.1 hi) hj, mul_zero]), zero_add]

/-- The theorem `optimize_one_stage` at `cascadeModel` and `cascadeShape`: the
bias row `1 / 2` shifts every coordinate by `faceSize / 2`. -/
theorem optimize_one_stage_witness :
    cascadeModel.regressorData = [biasOnlyWeights] ∧
    cascadeModel.descriptorExtractors = [constantExtractor] ∧
    cascadeModel.getNumLandmarks = 13 ∧ 13 ≤ 13 ∧
    cascadeShape.rows = 2 * 13 ∧ cascadeShape.cols = 1 ∧
    cascadeShape.data.length = 2 * 13 ∧
    biasOnlyWeights.rows = 13 + 1 ∧ biasOnlyWeights.cols = 2 * 13 ∧
    biasOnlyWeights.WellFormed ∧
    ∃ faceSize, dynamicFaceSizeDistance exampleLibm cascadeShape 13 = .ok faceSize ∧
      (optimize exampleLibm cascadeModel cascadeShape ⟨0, 0, []⟩).2 = .ok ⟨2 * 13, 1,
        (List.range (2 * 13)).map (fun j => cascadeShape.data.getD j 0
          + biasOnlyWeights.data.getD (13 * (2 * 13) + j) 0 * faceSize)⟩ := by
  have hwf : biasOnlyWeights.WellFormed := by
    unfold Mat.WellFormed biasOnlyWeights
    rw [List.length_append, List.length_replicate, List.length_replicate]
    rfl
  refine ⟨rfl, rfl, rfl, le_refl _, rfl, rfl, rfl, rfl, rfl, hwf, ?_⟩
  obtain ⟨points, faceSize, window, -, hfs, hall⟩ :=
    optimize_one_stage exampleLibm cascadeModel cascadeShape ⟨0, 0, []⟩ biasOnlyWeights
      constantExtractor 13 13 rfl rfl rfl (le_refl _) rfl rfl rfl rfl rfl hwf
  refine ⟨faceSize, hfs, ?_⟩
  refine (hall ⟨13, 1, List.replicate 13 1⟩ rfl rfl (by decide) rfl
    (by unfold Mat.WellFormed; rw [List.length_replicate]; rfl)).2.2 ?_
  intro i j hi hj
  have hlt : i * (2 * 13) + j < 13 * 26 := by omega
  unfold biasOnlyWeights
  rw [List.getD_eq_getElem?_getD,
    List.getElem?_append_left (by rw [List.length_replicate]; exact hlt),
    List.getElem?_replicate, if_pos hlt]
  rfl

/-- The theorem `stageInput_faceSize_windowSizeHalf` at the first step of
`cascadeModel` on `cascadeShape`. -/
theorem stageInput_faceSize_windowSizeHalf_witness :
    13 ≤ cascadeModel.getNumLandmarks ∧
    cascadeShape.data.length = 2 * cascadeModel.getNumLandmarks ∧
    ∃ points faceSize,
      stageInput exampleLibm cascadeModel 0 cascadeShape = .ok (points, faceSize,
        some (windowSizeHalfi
          (windowSizeHalf exampleLibm.exp faceSize 0 cascadeModel.getNumCascadeSteps))) ∧
      dynamicFaceSizeDistance exampleLibm cascadeShape cascadeModel.getNumLandmarks
        = .ok faceSize := by
  have h13 : 13 ≤ cascadeModel.getNumLandmarks := by decide
  have hlen : cascadeShape.data.length = 2 * cascadeModel.getNumLandmarks := by decide
  obtain ⟨points, faceSize, h1, h2, -⟩ :=
    stageInput_faceSize_windowSizeHalf exampleLibm cascadeModel 0 cascadeShape h13 hlen
  exact ⟨h13, hlen, points, faceSize, h1, h2⟩

theorem cascadeStage_calls (libm : Libm) (model : SdmLandmarkModel) (image : Image) (d : Nat)
    (modelShape : Mat) (ext : DescriptorExtractor)
    (hN : 13 ≤ model.getNumLandmarks)
    (hlen : modelShape.data.length = 2 * model.getNumLandmarks)
    (hext : model.descriptorExtractors[d]? = some ext) :
    ∃ points faceSize,
      dynamicFaceSizeDistance libm modelShape model.getNumLandmarks = .ok faceSize ∧
      (cascadeStage libm model image d modelShape).1 = [⟨d, points,
        some (windowSizeHalfi
          (windowSizeHalf libm.exp faceSize d model.getNumCascadeSteps))⟩] := by
  refine ⟨(List.range model.getNumLandmarks).map (fun i =>
      ⟨modelShape.data.getD i 0, modelShape.data.getD (i + model.getNumLandmarks) 0⟩), _,
    dynamicFaceSizeDistance_ok libm modelShape _ (by omega), ?_⟩
  unfold cascadeStage
  simp only [stageInput_ok libm model d modelShape hN hlen, hext]

/-- Claim C9, refuted as stated: for `windowSizeHalf = 3` the extractor gets `6`,
although `3` itself is a multiple of 3 that is greater than or equal to `3`; so the
value is not always the smallest multiple of 3 greater than or equal to `w`. -/
theorem windowSizeHalfi_not_smallest_multiple_ge :
    windowSizeHalfi 3 = 6 ∧ windowSizeHalfi 0 = 3 ∧
    ¬ (∀ w : ℤ, 0 ≤ w →
      ((3 : ℤ) ∣ windowSizeHalfi w ∧ w ≤ windowSizeHalfi w ∧
        ∀ m : ℤ, (3 : ℤ) ∣ m → w ≤ m → windowSizeHalfi w ≤ m)) := by
  refine ⟨by decide, by decide, ?_⟩
  intro h
  have h3 := (h 3 (by norm_num)).2.2 3 (dvd_refl 3) (le_refl 3)
  have : windowSizeHalfi 3 = 6 := by decide
  rw [this] at h3
  exact absurd h3 (by norm_num)

/-- Claim C9, amended: for every rounded `windowSizeHalf = w` with
`0 <= w <= 2147483644` (so that `w + 3` is a value of the 32-bit `int`), the window
size handed to the extractor, `w + 3 - (w % 3)`, is `3 * (w / 3) + 3`, the smallest
multiple of 3 that is strictly greater than `w`: it is `w` rounded up to a multiple
of 3 when `w` is not one, and `w + 3` when `w` is one; it is itself a value of
`int`. Every stage hands the extractor the value so derived from its rounded
`windowSizeHalf`. -/
theorem windowSizeHalfi_smallest_multiple_gt (w : ℤ) (hw : 0 ≤ w) (hfit : w ≤ 2147483644) :
    windowSizeHalfi w = 3 * (w / 3) + 3 ∧ windowSizeHalfi w ≤ INT_MAX ∧
    (3 : ℤ) ∣ windowSizeHalfi w ∧ w < windowSizeHalfi w ∧
    (∀ m : ℤ, (3 : ℤ) ∣ m → w < m → windowSizeHalfi w ≤ m) ∧
    (¬ (3 : ℤ) ∣ w → ∀ m : ℤ, (3 : ℤ) ∣ m → w ≤ m → windowSizeHalfi w ≤ m) ∧
    ((3 : ℤ) ∣ w → windowSizeHalfi w = w + 3) ∧
    (∀ (libm : Libm) (model : SdmLandmarkModel) (image : Image) (d : Nat) (modelShape : Mat)
        (ext : DescriptorExtractor), 13 ≤ model.getNumLandmarks →
      modelShape.data.length = 2 * model.getNumLandmarks →
      model.descriptorExtractors[d]? = some ext →
      ∃ points faceSize,
        dynamicFaceSizeDistance libm modelShape model.getNumLandmarks = .ok faceSize ∧
        (cascadeStage libm model image d modelShape).1 = [⟨d, points,
          some (windowSizeHalfi
            (windowSizeHalf libm.exp faceSize d model.getNumCascadeSteps))⟩]) := by
  have he : windowSizeHalfi w = w + 3 - w % 3 := windowSizeHalfi_exact hw hfit
  refine ⟨by rw [he]; omega, by rw [he]; unfold INT_MAX; omega, by rw [he]; omega,
    by rw [he]; omega, ?_, ?_, ?_, ?_⟩
  · intro m hm hlt
    rw [he]; omega
  · intro hnd m hm hle
    rw [he]; omega
  · intro hd
    rw [he]; omega
  · intro libm model image d modelShape ext hN hlen hext
    exact cascadeStage_calls libm model image d modelShape ext hN hlen hext

/-- The theorem `windowSizeHalfi_smallest_multiple_gt` at `w = 3`: the window is
`6 = 3 + 3`. -/
theorem windowSizeHalfi_smallest_multiple_gt_witness :
    (0 : ℤ) ≤ 3 ∧ (3 : ℤ) ≤ 2147483644 ∧
    windowSizeHalfi 3 = 3 * (3 / 3) + 3 ∧ (3 : ℤ) ∣ windowSizeHalfi 3 ∧
    (3 : ℤ) < windowSizeHalfi 3 :=
  ⟨by norm_num, by norm_num,
    (windowSizeHalfi_smallest_multiple_gt 3 (by norm_num) (by norm_num)).1,
    (windowSizeHalfi_smallest_multiple_gt 3 (by norm_num) (by norm_num)).2.2.1,
    (windowSizeHalfi_smallest_multiple_gt 3 (by norm_num) (by norm_num)).2.2.2.1⟩

/-- Claim C10, refuted as stated: for the face size `12884901888 = 3 * 2 ^ 32` and a
cascade of `K = 2` stages the rounded `windowSizeHalf` falls from stage 0 to stage 1
(to `1610612736`), but the window size handed to the extractor rises: the rounded
value of stage 0 is above `INT_MAX`, its conversion to `int` yields `INT_MIN` and the
window `-2147483643`, while stage 1 gets `1610612739`. This is so with the real
exponential function and with the exponential `2 ^ n` of `exampleLibm` (where the
rounded value of stage 0 is `2147483648`). -/
theorem window_rises_for_large_face :
    windowSizeHalf (fun n : ℤ => Real.exp n) (12884901888 : ℝ) 1 2 = 1610612736 ∧
    INT_MAX < windowSizeHalf (fun n : ℤ => Real.exp n) (12884901888 : ℝ) 0 2 ∧
    windowSizeHalfi (windowSizeHalf (fun n : ℤ => Real.exp n) (12884901888 : ℝ) 0 2)
      = -2147483643 ∧
    windowSizeHalfi (windowSizeHalf (fun n : ℤ => Real.exp n) (12884901888 : ℝ) 1 2)
      = 1610612739 ∧
    windowSizeHalf exampleLibm.exp (12884901888 : ℚ) 0 2 = 2147483648 ∧
    windowSizeHalf exampleLibm.exp (12884901888 : ℚ) 1 2 = 1610612736 ∧
    windowSizeHalfi (windowSizeHalf exampleLibm.exp (12884901888 : ℚ) 0 2) = -2147483643 ∧
    windowSizeHalfi (windowSizeHalf exampleLibm.exp (12884901888 : ℚ) 1 2) = 1610612739 ∧
    ¬ (∀ (faceSize : ℝ) (K d1 d2 : Nat), 0 ≤ faceSize → 1 ≤ K → d1 ≤ d2 → d2 < K →
      windowSizeHalfi (windowSizeHalf (fun n : ℤ => Real.exp n) faceSize d2 K)
        ≤ windowSizeHalfi (windowSizeHalf (fun n : ℤ => Real.exp n) faceSize d1 K)) := by
  have hr1 : windowSizeHalf (fun n : ℤ => Real.exp n) (12884901888 : ℝ) 1 2 = 1610612736 := by
    unfold windowSizeHalf
    have h0 : (((1 : ℕ) : ℤ) + 1 - ((2 : ℕ) : ℤ)) = 0 := by norm_num
    simp only [h0, Int.cast_zero, Real.exp_zero]
    have : (12884901888 : ℝ) / 2 / 2 * (1 / (1 + 1)) = ((1610612736 : ℤ) : ℝ) := by norm_num
    rw [this, stdRound_intCast]
  have hr0 : INT_MAX < windowSizeHalf (fun n : ℤ => Real.exp n) (12884901888 : ℝ) 0 2 := by
    unfold windowSizeHalf INT_MAX
    have h0 : (((0 : ℕ) : ℤ) + 1 - ((2 : ℕ) : ℤ)) = -1 := by norm_num
    simp only [h0]
    have hexp : Real.exp (((-1 : ℤ) : ℝ)) ≤ 1 / 2 := by
      have h2 : (2 : ℝ) ≤ Real.exp 1 := by
        have := Real.add_one_le_exp (1 : ℝ)
        linarith
      have : Real.exp (((-1 : ℤ) : ℝ)) = (Real.exp 1)⁻¹ := by
        rw [← Real.exp_neg]
        norm_num
      rw [this, inv_le_comm₀ (Real.exp_pos 1) (by norm_num)]
      norm_num
      exact h2
    have hpos := Real.exp_pos (((-1 : ℤ) : ℝ))
    have hle : ((2147483648 : ℤ) : ℝ)
        ≤ (12884901888 : ℝ) / 2 / 2 * (1 / (1 + Real.exp (((-1 : ℤ) : ℝ)))) := by
      rw [mul_one_div, le_div_iff₀ (by linarith)]
      push_cast
      nlinarith
    have := stdRound_mono hle
    rw [stdRound_intCast] at this
    omega
  have hq0 : windowSizeHalf exampleLibm.exp (12884901888 : ℚ) 0 2 = 2147483648 := by
    unfold windowSizeHalf
    have : (12884901888 : ℚ) / 2 / 2
        * (1 / (1 + exampleLibm.exp (((0 : ℕ) : ℤ) + 1 - ((2 : ℕ) : ℤ))))
        = ((2147483648 : ℤ) : ℚ) := by
      simp only [exampleLibm]
      norm_num
    simp only [this, stdRound_intCast]
  have hq1 : windowSizeHalf exampleLibm.exp (12884901888 : ℚ) 1 2 = 1610612736 := by
    unfold windowSizeHalf
    have : (12884901888 : ℚ) / 2 / 2
        * (1 / (1 + exampleLibm.exp (((1 : ℕ) : ℤ) + 1 - ((2 : ℕ) : ℤ))))
        = ((1610612736 : ℤ) : ℚ) := by
      simp only [exampleLibm]
      norm_num
    simp only [this, stdRound_intCast]
  have hw0 := windowSizeHalfi_above (show (2147483647 : ℤ) < _ from hr0)
  have hw1 : windowSizeHalfi 1610612736 = 1610612739 := by decide
  refine ⟨hr1, hr0, hw0, by rw [hr1, hw1], hq0, hq1, by rw [hq0]; decide, by rw [hq1, hw1], ?_⟩
  intro h
  have := h 12884901888 2 0 1 (by norm_num) (by norm_num) (by norm_num) (by norm_num)
  rw [hw0, hr1, hw1] at this
  exact absurd this (by norm_num)

/-- Claim C10, amended: for a face size `faceSize >= 0` and an exponential that is
non-negative and non-decreasing (as `exp` is), the rounded `windowSizeHalf` of a
later cascade step is at most that of an earlier one; if moreover
`faceSize <= 8589934576` (four times `INT_MAX - 3`, so that every rounded value and
its window fit the 32-bit `int`), the window size handed to the extractor after the
adjustment to the cell granularity 3 is at most that of the earlier step as well.
This holds for any two steps `d1 <= d2`, in particular for the steps `0 .. K - 1` of
a cascade with `K >= 1` stages. The number type is any ordered field with a floor:
the rationals of the embedding or the reals. -/
theorem windowSizeHalf_nonincreasing {α : Type} [LinearOrderedField α] [FloorRing α]
    (exp : ℤ → α) (hmono : Monotone exp) (hpos : ∀ n, 0 ≤ exp n) (faceSize : α)
    (hf : 0 ≤ faceSize) (K d1 d2 : Nat) (h12 : d1 ≤ d2) :
    windowSizeHalf exp faceSize d2 K ≤ windowSizeHalf exp faceSize d1 K ∧
    (faceSize ≤ 8589934576 →
      windowSizeHalf exp faceSize d1 K ≤ INT_MAX - 3 ∧
      windowSizeHalfi (windowSizeHalf exp faceSize d2 K)
        ≤ windowSizeHalfi (windowSizeHalf exp faceSize d1 K)) := by
  obtain ⟨h0, hle⟩ := windowSizeHalf_antitone_aux exp hmono hpos faceSize hf K d1 d2 h12
  refine ⟨hle, fun hbound => ?_⟩
  have hfit := windowSizeHalf_fits exp hpos faceSize hf hbound d1 K
  exact ⟨by unfold INT_MAX; omega, windowSizeHalfi_mono h0 hle hfit⟩

theorem exampleLibm_exp_mono : Monotone exampleLibm.exp := by
  intro a b hab
  exact zpow_le_zpow_right₀ (by norm_num) hab

theorem exampleLibm_exp_nonneg (n : ℤ) : 0 ≤ exampleLibm.exp n :=
  zpow_nonneg (by norm_num) n

/-- The theorem `windowSizeHalf_nonincreasing` for the face size `40`, the two steps
of a two-stage cascade and the exponential of `exampleLibm`. -/
theorem windowSizeHalf_nonincreasing_witness :
    Monotone exampleLibm.exp ∧ (∀ n, 0 ≤ exampleLibm.exp n) ∧ (0 : ℚ) ≤ 40 ∧ 0 ≤ 1 ∧
    (40 : ℚ) ≤ 8589934576 ∧
    windowSizeHalf exampleLibm.exp (40 : ℚ) 1 2 ≤ windowSizeHalf exampleLibm.exp (40 : ℚ) 0 2 ∧
    windowSizeHalfi (windowSizeHalf exampleLibm.exp (40 : ℚ) 1 2)
      ≤ windowSizeHalfi (windowSizeHalf exampleLibm.exp (40 : ℚ) 0 2) :=
  ⟨exampleLibm_exp_mono, exampleLibm_exp_nonneg, by norm_num, by norm_num, by norm_num,
    (windowSizeHalf_nonincreasing exampleLibm.exp exampleLibm_exp_mono exampleLibm_exp_nonneg
      40 (by norm_num) 2 0 1 (by norm_num)).1,
    ((windowSizeHalf_nonincreasing exampleLibm.exp exampleLibm_exp_mono exampleLibm_exp_nonneg
      40 (by norm_num) 2 0 1 (by norm_num)).2 (by norm_num)).2⟩

/-- The window sizes do not increase with the cascade step when they are computed on
the reals with the real exponential function, for face sizes up to `8589934576`. -/
theorem real_exp_window_antitone (faceSize : ℝ) (hf : 0 ≤ faceSize)
    (hbound : faceSize ≤ 8589934576) (K d1 d2 : Nat) (h12 : d1 ≤ d2) :
    windowSizeHalf (fun n : ℤ => Real.exp n) faceSize d2 K
      ≤ windowSizeHalf (fun n : ℤ => Real.exp n) faceSize d1 K ∧
    windowSizeHalfi (windowSizeHalf (fun n : ℤ => Real.exp n) faceSize d2 K)
      ≤ windowSizeHalfi (windowSizeHalf (fun n : ℤ => Real.exp n) faceSize d1 K) := by
  have hmono : Monotone (fun n : ℤ => Real.exp n) := by
    intro a b hab
    exact Real.exp_le_exp.2 (by exact_mod_cast hab)
  obtain ⟨h0, hle⟩ := windowSizeHalf_antitone_aux (fun n : ℤ => Real.exp n) hmono
    (fun n => (Real.exp_pos _).le) faceSize hf K d1 d2 h12
  exact ⟨hle, windowSizeHalfi_mono h0 hle
    (windowSizeHalf_fits _ (fun n => (Real.exp_pos _).le) faceSize hf hbound d1 K)⟩

/-! ### Reads of one stage -/

theorem atFloat_error (m : Mat) {i : Nat} (h : m.data.length ≤ i) :
    m.atFloat i = .error .outOfRange := by
  unfold Mat.atFloat
  rw [List.getElem?_eq_none h]

theorem atFloat_cases (m : Mat) (i : Nat) :
    (∃ v, m.atFloat i = .ok v) ∨ m.atFloat i = .error .outOfRange := by
  unfold Mat.atFloat
  cases m.data[i]? with
  | none => exact Or.inr rfl
  | some v => exact Or.inl ⟨v, rfl⟩

theorem dynamicFaceSizeDistance_error (libm : Libm) (modelShape : Mat) (N : Nat)
    (h : modelShape.data.length ≤ 12 + N) :
    dynamicFaceSizeDistance libm modelShape N = .error .outOfRange := by
  have hlast := atFloat_error modelShape h
  unfold dynamicFaceSizeDistance
  rcases atFloat_cases modelShape 8 with ⟨v1, h1⟩ | h1 <;>
    simp only [h1, bind, Except.bind]
  rcases atFloat_cases modelShape (8 + N) with ⟨v2, h2⟩ | h2 <;>
    simp only [h2, bind, Except.bind]
  rcases atFloat_cases modelShape 9 with ⟨v3, h3⟩ | h3 <;>
    simp only [h3, bind, Except.bind]
  rcases atFloat_cases modelShape (9 + N) with ⟨v4, h4⟩ | h4 <;>
    simp only [h4, bind, Except.bind]
  rcases atFloat_cases modelShape 11 with ⟨v5, h5⟩ | h5 <;>
    simp only [h5, bind, Except.bind]
  rcases atFloat_cases modelShape (11 + N) with ⟨v6, h6⟩ | h6 <;>
    simp only [h6, bind, Except.bind]
  rcases atFloat_cases modelShape 12 with ⟨v7, h7⟩ | h7 <;>
    simp only [h7, bind, Except.bind]
  simp only [hlast]

theorem stageInput_error (libm : Libm) (model : SdmLandmarkModel) (d : Nat) (modelShape : Mat)
    (hN : model.getNumLandmarks ≤ 12)
    (hlen : modelShape.data.length = 2 * model.getNumLandmarks) :
    stageInput libm model d modelShape = .error .outOfRange := by
  have hp := collectPoints_ok modelShape model.getNumLandmarks
    (List.range model.getNumLandmarks) (by
      intro i hi
      rw [List.mem_range] at hi
      omega)
  have hf := dynamicFaceSizeDistance_error libm modelShape model.getNumLandmarks (by omega)
  simp only [stageInput, hp, hf, adaptive, if_true, bind, Except.bind]

/-- Claim C18: for a model with `N` landmarks and a shape with `2 * N` coordinates,
the point reads `i` and `i + N` (`i < N`) of a stage are always inside the shape,
the eight anchor reads `8, 9, 11, 12` and `8 + N, 9 + N, 11 + N, 12 + N` are all
inside it exactly when `N >= 13`, and so the reads of the stage all succeed exactly
when `N >= 13`; for `N <= 12` the read at `12 + N` is outside the shape and the
stage stops there at the latest. -/
theorem stage_reads_inside_iff (libm : Libm) (model : SdmLandmarkModel) (d : Nat)
    (modelShape : Mat) (hlen : modelShape.data.length = 2 * model.getNumLandmarks) :
    (∀ i, i < model.getNumLandmarks →
      (∃ v, modelShape.atFloat i = .ok v) ∧
      (∃ v, modelShape.atFloat (i + model.getNumLandmarks) = .ok v)) ∧
    ((∀ i ∈ [8, 9, 11, 12, 8 + model.getNumLandmarks, 9 + model.getNumLandmarks,
        11 + model.getNumLandmarks, 12 + model.getNumLandmarks],
        ∃ v, modelShape.atFloat i = .ok v) ↔ 13 ≤ model.getNumLandmarks) ∧
    ((∃ r, stageInput libm model d modelShape = .ok r) ↔ 13 ≤ model.getNumLandmarks) ∧
    (model.getNumLandmarks ≤ 12 →
      modelShape.atFloat (12 + model.getNumLandmarks) = .error .outOfRange ∧
      stageInput libm model d modelShape = .error .outOfRange) := by
  refine ⟨?_, ⟨?_, ?_⟩, ⟨?_, ?_⟩, ?_⟩
  · intro i hi
    exact ⟨⟨_, atFloat_ok modelShape (by omega)⟩, ⟨_, atFloat_ok modelShape (by omega)⟩⟩
  · intro h
    by_contra hn
    obtain ⟨v, hv⟩ := h (12 + model.getNumLandmarks) (by simp)
    rw [atFloat_error modelShape (by omega)] at hv
    exact absurd hv (by simp)
  · intro h13 i hi
    simp only [List.mem_cons, List.mem_singleton, List.not_mem_nil, or_false] at hi
    exact ⟨_, atFloat_ok modelShape (by omega)⟩
  · rintro ⟨r, hr⟩
    by_contra hn
    rw [stageInput_error libm model d modelShape (by omega) hlen] at hr
    exact absurd hr (by simp)
  · intro h13
    exact ⟨_, stageInput_ok libm model d modelShape h13 hlen⟩
  · intro h12
    exact ⟨atFloat_error modelShape (by omega),
      stageInput_error libm model d modelShape h12 hlen⟩

/-- The theorem `stage_reads_inside_iff` at `cascadeModel` (13 landmarks) and
`cascadeShape` (26 coordinates): the reads of the first stage succeed. -/
theorem stage_reads_inside_iff_witness :
    cascadeShape.data.length = 2 * cascadeModel.getNumLandmarks ∧
    ((∃ r, stageInput exampleLibm cascadeModel 0 cascadeShape = .ok r)
      ↔ 13 ≤ cascadeModel.getNumLandmarks) ∧
    ∃ r, stageInput exampleLibm cascadeModel 0 cascadeShape = .ok r :=
  ⟨by decide,
    (stage_reads_inside_iff exampleLibm cascadeModel 0 cascadeShape (by decide)).2.2.1,
    (stage_reads_inside_iff exampleLibm cascadeModel 0 cascadeShape (by decide)).2.2.1.2
      (by decide)⟩

/-! ### The box alignment and the column check -/

/-- Claim C13: `alignRigid` with a face box fails with `invalidShape` if and only if
the column count of the shape is not 1: for every shape with another column count
and every box it fails (and leaves the caller's matrix as it was), and for every
single-column shape and every box it returns a shape. -/
theorem alignRigidRect_invalidShape_iff (modelShape : Mat) (faceBox : Rect) :
    ((alignRigidRect modelShape faceBox).result = .error .invalidShape
      ↔ modelShape.cols ≠ 1) ∧
    ((∃ e, (alignRigidRect modelShape faceBox).result = .error e) ↔ modelShape.cols ≠ 1) ∧
    (modelShape.cols ≠ 1 → alignRigidRect modelShape faceBox
      = ⟨modelShape, .error .invalidShape⟩) ∧
    (modelShape.cols = 1 → ∃ out, alignRigidRect modelShape faceBox = ⟨out, .ok out⟩) := by
  by_cases h : modelShape.cols = 1
  · have hok : ∃ out, alignRigidRect modelShape faceBox = ⟨out, .ok out⟩ := by
      unfold alignRigidRect
      simp only [h, ne_eq, not_true_eq_false, if_false]
      exact ⟨_, rfl⟩
    obtain ⟨out, hout⟩ := hok
    refine ⟨?_, ?_, ?_, ?_⟩
    · rw [hout]; simp [h]
    · rw [hout]; simp [h]
    · intro hn; exact absurd h hn
    · intro _; exact ⟨out, hout⟩
  · have herr : alignRigidRect modelShape faceBox = ⟨modelShape, .error .invalidShape⟩ := by
      unfold alignRigidRect
      simp only [ne_eq, h, not_false_eq_true, if_true]
    refine ⟨?_, ?_, ?_, ?_⟩
    · rw [herr]; simp [h]
    · rw [herr]; simp [h]
    · intro _; exact herr
    · intro h1; exact absurd h1 h

/-! ### Bounds of the window handed to the extractor -/

theorem sqrt_faceSize_nonneg (libm : Libm) (hsqrt : ∀ q, 0 ≤ libm.sqrt q) (modelShape : Mat)
    (N : Nat) (faceSize : ℚ)
    (h : dynamicFaceSizeDistance libm modelShape N = .ok faceSize) : 0 ≤ faceSize := by
  by_cases hlen : 12 + N < modelShape.data.length
  · rw [dynamicFaceSizeDistance_ok libm modelShape N hlen] at h
    injection h with h
    rw [← h]
    exact hsqrt _
  · rw [dynamicFaceSizeDistance_error libm modelShape N (by omega)] at h
    exact absurd h (by simp)

/-! ### The loop over the stages -/

theorem stageInput_inv {libm : Libm} {model : SdmLandmarkModel} {d : Nat} {modelShape : Mat}
    {points : List Point2f} {faceSize : ℚ} {window : Option ℤ}
    (h : stageInput libm model d modelShape = .ok (points, faceSize, window)) :
    dynamicFaceSizeDistance libm modelShape model.getNumLandmarks = .ok faceSize ∧
    window = some (windowSizeHalfi
      (windowSizeHalf libm.exp faceSize d model.getNumCascadeSteps)) := by
  unfold stageInput at h
  cases hp : collectPoints modelShape model.getNumLandmarks
      (List.range model.getNumLandmarks) with
  | error e => simp [hp, bind, Except.bind] at h
  | ok ps =>
    cases hf : dynamicFaceSizeDistance libm modelShape model.getNumLandmarks with
    | error e => simp [hp, hf, adaptive, bind, Except.bind] at h
    | ok f =>
      simp only [hp, hf, adaptive, if_true, bind, Except.bind, pure, Except.pure,
        Except.ok.injEq, Prod.mk.injEq] at h
      obtain ⟨-, h2, h3⟩ := h
      subst h2
      exact ⟨rfl, h3.symm⟩

theorem cascadeStage_calls_inv {libm : Libm} {model : SdmLandmarkModel} {image : Image}
    {d : Nat} {modelShape : Mat} {c : ExtractorCall}
    (h : c ∈ (cascadeStage libm model image d modelShape).1) :
    c.cascadeStep = d ∧ ∃ faceSize,
      dynamicFaceSizeDistance libm modelShape model.getNumLandmarks = .ok faceSize ∧
      c.windowSizeHalf = some (windowSizeHalfi
        (windowSizeHalf libm.exp faceSize d model.getNumCascadeSteps)) := by
  unfold cascadeStage at h
  cases hin : stageInput libm model d modelShape with
  | error e => simp [hin] at h
  | ok r =>
    obtain ⟨points, faceSize, window⟩ := r
    obtain ⟨hf, hw⟩ := stageInput_inv hin
    cases hext : model.descriptorExtractors[d]? with
    | none => simp [hin, hext] at h
    | some ext =>
      simp only [hin, hext, List.mem_singleton] at h
      subst h
      exact ⟨rfl, faceSize, hf, hw⟩

theorem optimizeFrom_error {libm : Libm} {model : SdmLandmarkModel} {image : Image}
    {stepsLeft d : Nat} {modelShape : Mat} {calls : List ExtractorCall} {e : FitError}
    (h : cascadeStage libm model image d modelShape = (calls, .error e)) :
    optimizeFrom libm model image (stepsLeft + 1) d modelShape = (calls, .error e) := by
  simp only [optimizeFrom, h]

theorem optimizeFrom_ok {libm : Libm} {model : SdmLandmarkModel} {image : Image}
    {stepsLeft d : Nat} {modelShape next : Mat} {calls : List ExtractorCall}
    (h : cascadeStage libm model image d modelShape = (calls, .ok next)) :
    optimizeFrom libm model image (stepsLeft + 1) d modelShape
      = (calls ++ (optimizeFrom libm model image stepsLeft (d + 1) next).1,
        (optimizeFrom libm model image stepsLeft (d + 1) next).2) := by
  simp only [optimizeFrom, h]

theorem cascadeStage_result_cases (libm : Libm) (model : SdmLandmarkModel) (image : Image)
    (d : Nat) (modelShape : Mat) :
    (∃ calls e, cascadeStage libm model image d modelShape = (calls, .error e)) ∨
    (∃ calls next, cascadeStage libm model image d modelShape = (calls, .ok next)) := by
  rcases h : cascadeStage libm model image d modelShape with ⟨calls, e | next⟩
  · exact Or.inl ⟨calls, e, rfl⟩
  · exact Or.inr ⟨calls, next, rfl⟩

theorem optimizeFrom_calls_inv {libm : Libm} {model : SdmLandmarkModel} {image : Image}
    (stepsLeft : Nat) (d : Nat) (modelShape : Mat) {c : ExtractorCall}
    (h : c ∈ (optimizeFrom libm model image stepsLeft d modelShape).1) :
    d ≤ c.cascadeStep ∧ c.cascadeStep < d + stepsLeft ∧
    ∃ shape, c ∈ (cascadeStage libm model image c.cascadeStep shape).1 := by
  induction stepsLeft generalizing d modelShape with
  | zero => simp [optimizeFrom] at h
  | succ n ih =>
    rcases cascadeStage_result_cases libm model image d modelShape with
      ⟨calls, e, hst⟩ | ⟨calls, next, hst⟩
    · rw [optimizeFrom_error hst] at h
      have hc : c ∈ (cascadeStage libm model image d modelShape).1 := by rw [hst]; exact h
      have hd := (cascadeStage_calls_inv hc).1
      exact ⟨by omega, by omega, modelShape, by rw [hd]; exact hc⟩
    · rw [optimizeFrom_ok hst] at h
      rcases List.mem_append.1 h with h1 | h2
      · have hc : c ∈ (cascadeStage libm model image d modelShape).1 := by rw [hst]; exact h1
        have hd := (cascadeStage_calls_inv hc).1
        exact ⟨by omega, by omega, modelShape, by rw [hd]; exact hc⟩
      · obtain ⟨i1, i2, i3⟩ := ih (d + 1) next h2
        exact ⟨by omega, by omega, i3⟩

theorem optimizeFrom_append {libm : Libm} {model : SdmLandmarkModel} {image : Image}
    (a b : Nat) (d : Nat) (modelShape reached : Mat) (calls : List ExtractorCall)
    (h : optimizeFrom libm model image a d modelShape = (calls, .ok reached)) :
    optimizeFrom libm model image (a + b) d modelShape
      = (calls ++ (optimizeFrom libm model image b (d + a) reached).1,
        (optimizeFrom libm model image b (d + a) reached).2) := by
  induction a generalizing d modelShape calls with
  | zero =>
    simp only [optimizeFrom, Prod.mk.injEq, Except.ok.injEq] at h
    obtain ⟨h1, h2⟩ := h
    subst h1 h2
    simp
  | succ n ih =>
    rcases cascadeStage_result_cases libm model image d modelShape with
      ⟨c1, e, hst⟩ | ⟨c1, next, hst⟩
    · rw [optimizeFrom_error hst] at h
      simp at h
    · rw [optimizeFrom_ok hst] at h
      simp only [Prod.mk.injEq] at h
      obtain ⟨h1, h2⟩ := h
      have hrest : optimizeFrom libm model image n (d + 1) next
          = ((optimizeFrom libm model image n (d + 1) next).1, .ok reached) := by
        rw [← h2]
      have := ih (d + 1) next _ hrest
      rw [show n + 1 + b = (n + b) + 1 by omega, optimizeFrom_ok hst, this, ← h1]
      rw [show d + 1 + n = d + (n + 1) by omega]
      simp only [List.append_assoc]

theorem stageUpdate_mismatch (model : SdmLandmarkModel) (d : Nat) (modelShape : Mat)
    (faceSize : ℚ) (F W : Mat) (hNpos : 0 < model.getNumLandmarks)
    (hW : model.regressorData[d]? = some W)
    (hFrows : F.rows = model.getNumLandmarks) (hFpos : 0 < F.cols)
    (hFwf : F.WellFormed)
    (hne : F.cols * model.getNumLandmarks + 1 ≠ W.rows) :
    stageUpdate model d modelShape faceSize F = .error .extractionError := by
  have h1 := reshape_features F model.getNumLandmarks hNpos hFrows hFpos
  have hlen : F.data.length = F.cols * model.getNumLandmarks := by
    have := hFwf
    unfold Mat.WellFormed at this
    rw [this, hFrows, Nat.mul_comm]
  have h2 := t_column (F.cols * model.getNumLandmarks) F.data hlen
  by_cases h0 : W.rows = 0
  · simp only [stageUpdate, h1, hW, h0, bind, Except.bind, pure, Except.pure, if_true]
  · have hmul : (⟨1, F.cols * model.getNumLandmarks, F.data⟩ : Mat).mul
        (W.rowRange 0 (W.rows - 1)) = .error .extractionError := by
      unfold Mat.mul
      have : F.cols * model.getNumLandmarks ≠ (W.rowRange 0 (W.rows - 1)).rows := by
        simp only [Mat.rowRange, Nat.sub_zero]
        omega
      simp only [ne_eq, this, not_false_eq_true, if_true]
    simp only [stageUpdate, h1, hW, h0, bind, Except.bind, pure, Except.pure, if_false, h2,
      hmul]

/-- Claim C11: let the stages `0 .. k - 1` of a `K`-stage cascade (`k < K`) have run
and reached the shape `reached`. If the extractor of stage `k` fails with an error
`e`, `optimize` returns `e`; if it returns features (one row for each landmark)
whose number does not match the rows of the stage's weight matrix less the bias
row, `optimize` returns `extractionError`. In both cases the result is the error
and no shape, the last extractor call made is that of stage `k`, and no call of the
run belongs to a stage after `k`. -/
theorem optimize_stops_at_failing_stage (libm : Libm) (model : SdmLandmarkModel)
    (modelShape : Mat) (image : Image) (k : Nat) (callsBefore : List ExtractorCall)
    (reached : Mat) (points : List Point2f) (faceSize : ℚ) (window : Option ℤ)
    (ext : DescriptorExtractor)
    (hk : k < model.getNumCascadeSteps)
    (hbefore : optimizeFrom libm model image k 0 modelShape = (callsBefore, .ok reached))
    (hin : stageInput libm model k reached = .ok (points, faceSize, window))
    (hext : model.descriptorExtractors[k]? = some ext) :
    (∀ e, ext.getDescriptors image points window = .error e →
      optimize libm model modelShape image
        = (callsBefore ++ [⟨k, points, window⟩], .error e)) ∧
    (∀ F W, ext.getDescriptors image points window = .ok F →
      model.regressorData[k]? = some W →
      0 < model.getNumLandmarks → F.rows = model.getNumLandmarks → 0 < F.cols →
      F.WellFormed → F.cols * model.getNumLandmarks + 1 ≠ W.rows →
      optimize libm model modelShape image
        = (callsBefore ++ [⟨k, points, window⟩], .error .extractionError)) ∧
    (∀ c ∈ callsBefore ++ [⟨k, points, window⟩], c.cascadeStep ≤ k) := by
  have hsplit : model.getNumCascadeSteps = k + ((model.getNumCascadeSteps - k - 1) + 1) := by
    omega
  have hrun : ∀ e, cascadeStage libm model image k reached
        = ([⟨k, points, window⟩], .error e) →
      optimize libm model modelShape image
        = (callsBefore ++ [⟨k, points, window⟩], .error e) := by
    intro e hst
    unfold optimize
    rw [hsplit, optimizeFrom_append k _ 0 modelShape reached callsBefore hbefore,
      Nat.zero_add, optimizeFrom_error hst]
  refine ⟨?_, ?_, ?_⟩
  · intro e he
    apply hrun
    unfold cascadeStage
    simp only [hin, hext, he]
  · intro F W hF hW hNpos hFrows hFpos hFwf hne
    apply hrun
    unfold cascadeStage
    simp only [hin, hext, hF]
    rw [stageUpdate_mismatch model k reached faceSize F W hNpos hW hFrows hFpos hFwf hne]
  · intro c hc
    rcases List.mem_append.1 hc with h1 | h2
    · have hmem : c ∈ (optimizeFrom libm model image k 0 modelShape).1 := by
        rw [hbefore]; exact h1
      have := (optimizeFrom_calls_inv k 0 modelShape hmem).2.1
      omega
    · rw [List.mem_singleton] at h2
      rw [h2]

/-- The theorem `optimize_stops_at_failing_stage` at the first stage of
`failingModel`, whose extractor fails: `optimize` returns the extractor's error after
its one call. -/
theorem optimize_stops_at_failing_stage_witness :
    0 < failingModel.getNumCascadeSteps ∧
    optimizeFrom exampleLibm failingModel ⟨0, 0, []⟩ 0 0 cascadeShape = ([], .ok cascadeShape) ∧
    failingModel.descriptorExtractors[0]? = some failingExtractor ∧
    ∃ points faceSize window,
      stageInput exampleLibm failingModel 0 cascadeShape = .ok (points, faceSize, window) ∧
      optimize exampleLibm failingModel cascadeShape ⟨0, 0, []⟩
        = ([] ++ [⟨0, points, window⟩], .error .extractionError) := by
  have hin := stageInput_ok exampleLibm failingModel 0 cascadeShape (by decide) (by decide)
  exact ⟨by decide, rfl, rfl, _, _, _, hin,
    (optimize_stops_at_failing_stage exampleLibm failingModel cascadeShape ⟨0, 0, []⟩ 0 []
      cascadeShape _ _ _ failingExtractor (by decide) rfl hin rfl).1 .extractionError rfl⟩

/-! ### The adaptive mode is the only mode -/

theorem exampleLibm_sqrt_1600 : exampleLibm.sqrt 1600 = 40 := by
  have h : Nat.sqrt (40 * 40) = 40 := Nat.sqrt_eq 40
  have h2 : (Int.toNat 1600).sqrt = 40 := by
    rw [show Int.toNat 1600 = 40 * 40 by decide, h]
  simp only [exampleLibm]
  norm_num
  rw [h2]
  norm_num

theorem example_faceSize : dynamicFaceSizeDistance exampleLibm cascadeShape 13 = .ok 40 := by
  rw [dynamicFaceSizeDistance_ok exampleLibm cascadeShape 13 (by decide)]
  have : (((cascadeShape.data.getD 8 0 + cascadeShape.data.getD 9 0) / 2
        - (cascadeShape.data.getD 11 0 + cascadeShape.data.getD 12 0) / 2) ^ 2
      + ((cascadeShape.data.getD (8 + 13) 0 + cascadeShape.data.getD (9 + 13) 0) / 2
        - (cascadeShape.data.getD (11 + 13) 0 + cascadeShape.data.getD (12 + 13) 0) / 2) ^ 2)
      = 1600 := by
    norm_num [cascadeShape]
  rw [this, exampleLibm_sqrt_1600]

theorem one_stage_run (libm : Libm) (model : SdmLandmarkModel) (modelShape : Mat)
    (image : Image) (W F : Mat) (ext : DescriptorExtractor) (N D : Nat)
    (points : List Point2f) (faceSize : ℚ) (window : Option ℤ)
    (hstage : model.regressorData = [W]) (hextr : model.descriptorExtractors = [ext])
    (hNdef : model.getNumLandmarks = N) (hNpos : 0 < N)
    (hSrows : modelShape.rows = 2 * N) (hScols : modelShape.cols = 1)
    (hSlen : modelShape.data.length = 2 * N)
    (hWrows : W.rows = D + 1) (hWcols : W.cols = 2 * N) (hWwf : W.WellFormed)
    (hin : stageInput libm model 0 modelShape = .ok (points, faceSize, window))
    (hF : ext.getDescriptors image points window = .ok F)
    (hFrows : F.rows = N) (hFpos : 0 < F.cols) (hFcols : F.cols * N = D)
    (hFwf : F.WellFormed) :
    optimize libm model modelShape image = ([⟨0, points, window⟩], .ok ⟨2 * N, 1,
      (List.range (2 * N)).map (fun j => modelShape.data.getD j 0
        + (∑ i in Finset.range D, F.data.getD i 0 * W.data.getD (i * (2 * N) + j) 0
          + W.data.getD (D * (2 * N) + j) 0) * faceSize)⟩) := by
  have hK : model.getNumCascadeSteps = 1 := by
    simp [SdmLandmarkModel.getNumCascadeSteps, hstage]
  have hst := cascadeStage_ok libm model image 0 modelShape ext F W N D
    points faceSize window hin (by rw [hextr]; rfl) hF hNdef hNpos (by rw [hstage]; rfl)
    hWrows hWcols hWwf hFrows hFcols hFpos hFwf hSrows hScols hSlen
  unfold optimize
  rw [hK]
  simp only [optimizeFrom, hst, List.append_nil]

theorem biasOnlyWeights_wellFormed : biasOnlyWeights.WellFormed := by
  unfold Mat.WellFormed biasOnlyWeights
  rw [List.length_append, List.length_replicate, List.length_replicate]
  rfl

theorem biasOnlyWeights_weight {i j : Nat} (hi : i < 13) (hj : j < 26) :
    biasOnlyWeights.data.getD (i * (2 * 13) + j) 0 = 0 := by
  have hlt : i * (2 * 13) + j < 13 * 26 := by omega
  unfold biasOnlyWeights
  rw [List.getD_eq_getElem?_getD,
    List.getElem?_append_left (by rw [List.length_replicate]; exact hlt),
    List.getElem?_replicate, if_pos hlt]
  rfl

theorem biasOnlyWeights_bias {j : Nat} (hj : j < 26) :
    biasOnlyWeights.data.getD (13 * (2 * 13) + j) 0 = 1 / 2 := by
  unfold biasOnlyWeights
  rw [List.getD_eq_getElem?_getD,
    List.getElem?_append_right (by rw [List.length_replicate]; omega),
    List.length_replicate, List.getElem?_replicate,
    if_pos (by omega)]
  rfl

theorem example_window : windowSizeHalfi (windowSizeHalf exampleLibm.exp (40 : ℚ) 0 1) = 6 := by
  have h : windowSizeHalf exampleLibm.exp (40 : ℚ) 0 1 = 5 := by
    unfold windowSizeHalf stdRound
    simp only [exampleLibm]
    norm_num
  rw [h]
  decide

/-- The run of `optimize` on `cascadeModel` and `cascadeShape`: one extractor call
with the window `6`, and every coordinate moved by `1 / 2 * 40`. -/
theorem example_run :
    optimize exampleLibm cascadeModel cascadeShape ⟨0, 0, []⟩
      = ([⟨0, (List.range 13).map (fun i =>
            ⟨cascadeShape.data.getD i 0, cascadeShape.data.getD (i + 13) 0⟩), some 6⟩],
        .ok ⟨26, 1, (List.range 26).map (fun j => cascadeShape.data.getD j 0 + 1 / 2 * 40)⟩) := by
  have hin := stageInput_ok exampleLibm cascadeModel 0 cascadeShape (by decide) (by decide)
  have hfs := (stageInput_inv hin).1
  rw [show cascadeModel.getNumLandmarks = 13 from rfl] at hfs hin
  rw [example_faceSize] at hfs
  injection hfs with hfs
  rw [← hfs] at hin
  rw [show cascadeModel.getNumCascadeSteps = 1 from rfl, example_window] at hin
  rw [one_stage_run exampleLibm cascadeModel cascadeShape ⟨0, 0, []⟩ biasOnlyWeights
    ⟨13, 1, List.replicate 13 1⟩ constantExtractor 13 13 _ _ _ rfl rfl rfl (by decide) rfl rfl
    rfl rfl rfl biasOnlyWeights_wellFormed hin rfl rfl (by decide) rfl
    (by unfold Mat.WellFormed; rw [List.length_replicate]; rfl)]
  congr 3
  apply List.map_congr_left
  intro j hj
  rw [List.mem_range] at hj
  rw [Finset.sum_eq_zero (fun i hi => by
    rw [biasOnlyWeights_weight (Finset.mem_range.1 hi) hj, mul_zero]), zero_add,
    biasOnlyWeights_bias hj]

/-- Claim C14, refuted as stated: `optimize` has no non-adaptive mode to run in. On
`cascadeModel`, a one-stage model whose weight rows are zero and whose bias row is
`1 / 2`, the one extractor call carries the window size `6` (it is not a call
without a window), and every coordinate is moved by `1 / 2 * 40`, the bias times
the face size `40`, not by the bias `1 / 2`. -/
theorem optimize_not_nonadaptive :
    adaptive = true ∧
    (optimize exampleLibm cascadeModel cascadeShape ⟨0, 0, []⟩).1.map
      (fun c => c.windowSizeHalf) = [some 6] ∧
    (optimize exampleLibm cascadeModel cascadeShape ⟨0, 0, []⟩).2
      = .ok ⟨26, 1, (List.range 26).map (fun j => cascadeShape.data.getD j 0 + 1 / 2 * 40)⟩ ∧
    (optimize exampleLibm cascadeModel cascadeShape ⟨0, 0, []⟩).2
      ≠ .ok ⟨26, 1, (List.range 26).map (fun j => cascadeShape.data.getD j 0 + 1 / 2)⟩ ∧
    ¬ (∀ c ∈ (optimize exampleLibm cascadeModel cascadeShape ⟨0, 0, []⟩).1,
      c.windowSizeHalf = none) := by
  refine ⟨rfl, by rw [example_run]; rfl, by rw [example_run], ?_, ?_⟩
  · rw [example_run]
    intro h
    simp only [Except.ok.injEq, Mat.mk.injEq, true_and] at h
    have h0 := congrArg (fun l => l.getD 0 0) h
    norm_num [cascadeShape, List.range_succ_eq_map] at h0
  · rw [example_run]
    intro h
    have := h _ (List.mem_singleton_self _)
    exact absurd this (by simp)

/-- What a stage update that succeeds has computed: the regression output
`deltaShape` from the features and the weights of the stage, and the sum of the shape
and `deltaShape` transposed and multiplied by the face size. -/
theorem stageUpdate_inv {model : SdmLandmarkModel} {d : Nat} {modelShape next : Mat}
    {faceSize : ℚ} {F : Mat} (h : stageUpdate model d modelShape faceSize F = .ok next) :
    ∃ reshaped W product deltaShape : Mat,
      F.reshape (F.cols * model.getNumLandmarks) = .ok reshaped ∧
      model.regressorData[d]? = some W ∧
      reshaped.t.mul (W.rowRange 0 (W.rows - 1)) = .ok product ∧
      product.add (W.row (W.rows - 1)) = .ok deltaShape ∧
      modelShape.add (deltaShape.t.scale faceSize) = .ok next := by
  unfold stageUpdate at h
  cases hr : F.reshape (F.cols * model.getNumLandmarks) with
  | error e => simp [hr, bind, Except.bind] at h
  | ok reshaped =>
    cases hW : model.regressorData[d]? with
    | none => simp [hr, hW, bind, Except.bind] at h
    | some W =>
      by_cases h0 : W.rows = 0
      · simp [hr, hW, h0, bind, Except.bind, pure, Except.pure] at h
      · cases hp : reshaped.t.mul (W.rowRange 0 (W.rows - 1)) with
        | error e => simp [hr, hW, h0, hp, bind, Except.bind, pure, Except.pure] at h
        | ok product =>
          cases hd : product.add (W.row (W.rows - 1)) with
          | error e => simp [hr, hW, h0, hp, hd, bind, Except.bind, pure, Except.pure] at h
          | ok deltaShape =>
            simp only [hr, hW, h0, hp, hd, bind, Except.bind, pure, Except.pure, if_false,
              adaptive, if_true] at h
            exact ⟨reshaped, W, product, deltaShape, rfl, rfl, hp, hd, h⟩

theorem add_ok_data {a b c : Mat} (h : a.add b = .ok c) :
    c.data = List.zipWith (fun x y => x + y) a.data b.data := by
  unfold Mat.add at h
  split at h
  · exact absurd h (by simp)
  · injection h with h
    rw [← h]

/-- What a stage that succeeds has done: one extractor call with the points, and the
update of the shape from the features returned. -/
theorem cascadeStage_ok_inv {libm : Libm} {model : SdmLandmarkModel} {image : Image}
    {d : Nat} {modelShape next : Mat} {calls : List ExtractorCall}
    (h : cascadeStage libm model image d modelShape = (calls, .ok next)) :
    ∃ (points : List Point2f) (faceSize : ℚ) (window : Option ℤ) (ext : DescriptorExtractor)
        (F : Mat),
      stageInput libm model d modelShape = .ok (points, faceSize, window) ∧
      model.descriptorExtractors[d]? = some ext ∧
      calls = [⟨d, points, window⟩] ∧
      ext.getDescriptors image points window = .ok F ∧
      stageUpdate model d modelShape faceSize F = .ok next := by
  unfold cascadeStage at h
  cases hin : stageInput libm model d modelShape with
  | error e => simp [hin] at h
  | ok r =>
    obtain ⟨points, faceSize, window⟩ := r
    cases hext : model.descriptorExtractors[d]? with
    | none => simp [hin, hext] at h
    | some ext =>
      cases hF : ext.getDescriptors image points window with
      | error e => simp [hin, hext, hF] at h
      | ok F =>
        simp only [hin, hext, hF, Prod.mk.injEq] at h
        exact ⟨points, faceSize, window, ext, F, rfl, rfl, h.1.symm, hF, h.2⟩

/-- Claim C14, amended: `optimize` always runs in the adaptive mode (the test that
selects it is the constant `true`, the other branch is never taken). Every extractor
call of every run carries a window-size argument. Every update of every run is
scaled by the face size: when the stages before stage `k` have produced the shape
`reached` and stage `k` succeeds on it, the stage has made one extractor call with
the window size derived from the face size of `reached`, has computed the
regression output `deltaShape` from the features and the weights of the stage, and
its new shape is `reached + deltaShape.t() * faceSize`, from which the run goes on;
with weights of matching sizes, entry `j` of the new shape is
`reached[j] + (sum over i < D of f[i] * W[i][j] + W[D][j]) * faceSize`. A one-stage
model whose weight rows are all zero except the bias row moves entry `j` of the
shape by `bias[j] * faceSize`, the face size being that of the input shape. -/
theorem optimize_always_adaptive (libm : Libm) (model : SdmLandmarkModel) (modelShape : Mat)
    (image : Image) :
    adaptive = true ∧
    (∀ c ∈ (optimize libm model modelShape image).1, ∃ z : ℤ, c.windowSizeHalf = some z) ∧
    (∀ (k : Nat) (callsBefore calls : List ExtractorCall) (reached next : Mat),
      k < model.getNumCascadeSteps →
      optimizeFrom libm model image k 0 modelShape = (callsBefore, .ok reached) →
      cascadeStage libm model image k reached = (calls, .ok next) →
      optimize libm model modelShape image
        = (callsBefore ++ calls ++ (optimizeFrom libm model image
              (model.getNumCascadeSteps - (k + 1)) (k + 1) next).1,
            (optimizeFrom libm model image
              (model.getNumCascadeSteps - (k + 1)) (k + 1) next).2) ∧
      ∃ (points : List Point2f) (faceSize : ℚ) (ext : DescriptorExtractor)
          (F reshaped W product deltaShape : Mat),
        dynamicFaceSizeDistance libm reached model.getNumLandmarks = .ok faceSize ∧
        calls = [⟨k, points, some (windowSizeHalfi
          (windowSizeHalf libm.exp faceSize k model.getNumCascadeSteps))⟩] ∧
        model.descriptorExtractors[k]? = some ext ∧
        ext.getDescriptors image points (some (windowSizeHalfi
          (windowSizeHalf libm.exp faceSize k model.getNumCascadeSteps))) = .ok F ∧
        F.reshape (F.cols * model.getNumLandmarks) = .ok reshaped ∧
        model.regressorData[k]? = some W ∧
        reshaped.t.mul (W.rowRange 0 (W.rows - 1)) = .ok product ∧
        product.add (W.row (W.rows - 1)) = .ok deltaShape ∧
        reached.add (deltaShape.t.scale faceSize) = .ok next ∧
        next.data = List.zipWith (fun x y => x + y) reached.data
          (deltaShape.t.data.map (fun v => v * faceSize)) ∧
        (∀ N D : Nat, model.getNumLandmarks = N → 0 < N →
          reached.rows = 2 * N → reached.cols = 1 → reached.data.length = 2 * N →
          W.rows = D + 1 → W.cols = 2 * N → W.WellFormed →
          F.rows = N → 0 < F.cols → F.cols * N = D → F.WellFormed →
          next = ⟨2 * N, 1, (List.range (2 * N)).map (fun j => reached.data.getD j 0
            + (∑ i in Finset.range D, F.data.getD i 0 * W.data.getD (i * (2 * N) + j) 0
              + W.data.getD (D * (2 * N) + j) 0) * faceSize)⟩)) ∧
    (∀ (W F : Mat) (ext : DescriptorExtractor) (N D : Nat) (points : List Point2f)
        (faceSize : ℚ) (window : Option ℤ),
      model.regressorData = [W] → model.descriptorExtractors = [ext] →
      model.getNumLandmarks = N → 0 < N →
      modelShape.rows = 2 * N → modelShape.cols = 1 → modelShape.data.length = 2 * N →
      W.rows = D + 1 → W.cols = 2 * N → W.WellFormed →
      stageInput libm model 0 modelShape = .ok (points, faceSize, window) →
      ext.getDescriptors image points window = .ok F →
      F.rows = N → 0 < F.cols → F.cols * N = D → F.WellFormed →
      (∀ i j, i < D → j < 2 * N → W.data.getD (i * (2 * N) + j) 0 = 0) →
      dynamicFaceSizeDistance libm modelShape N = .ok faceSize ∧
      (optimize libm model modelShape image).2 = .ok ⟨2 * N, 1,
        (List.range (2 * N)).map (fun j => modelShape.data.getD j 0
          + W.data.getD (D * (2 * N) + j) 0 * faceSize)⟩) := by
  refine ⟨rfl, ?_, ?_, ?_⟩
  · intro c hc
    unfold optimize at hc
    obtain ⟨-, -, shape, hmem⟩ := optimizeFrom_calls_inv _ _ _ hc
    obtain ⟨-, faceSize, -, hw⟩ := cascadeStage_calls_inv hmem
    exact ⟨_, hw⟩
  · intro k callsBefore calls reached next hk hbefore hst
    constructor
    · unfold optimize
      have hsplit : model.getNumCascadeSteps
          = k + ((model.getNumCascadeSteps - (k + 1)) + 1) := by omega
      rw [hsplit, optimizeFrom_append k _ 0 modelShape reached callsBefore hbefore,
        Nat.zero_add, optimizeFrom_ok hst, ← hsplit, List.append_assoc]
    · obtain ⟨points, faceSize, window, ext, F, hin, hext, hcalls, hF, hup⟩ :=
        cascadeStage_ok_inv hst
      obtain ⟨hfs, hwin⟩ := stageInput_inv hin
      obtain ⟨reshaped, W, product, deltaShape, hr, hW, hp, hd, hadd⟩ := stageUpdate_inv hup
      subst hwin
      refine ⟨points, faceSize, ext, F, reshaped, W, product, deltaShape, hfs, hcalls, hext,
        hF, hr, hW, hp, hd, hadd, ?_, ?_⟩
      · rw [add_ok_data hadd]
        rfl
      · intro N D hNdef hNpos hSrows hScols hSlen hWrows hWcols hWwf hFrows hFpos hFcols hFwf
        have := stageUpdate_ok model k reached faceSize F W N D hNdef hNpos hW hWrows hWcols
          hWwf hFrows hFcols hFpos hFwf hSrows hScols hSlen
        rw [hup] at this
        injection this
  · intro W F ext N D points faceSize window hstage hextr hNdef hNpos hSrows hScols hSlen
      hWrows hWcols hWwf hin hF hFrows hFpos hFcols hFwf hz
    refine ⟨by rw [← hNdef]; exact (stageInput_inv hin).1, ?_⟩
    rw [one_stage_run libm model modelShape image W F ext N D points faceSize window hstage
      hextr hNdef hNpos hSrows hScols hSlen hWrows hWcols hWwf hin hF hFrows hFpos hFcols
      hFwf]
    simp only
    congr 2
    apply List.map_congr_left
    intro j hj
    rw [List.mem_range] at hj
    rw [Finset.sum_eq_zero (fun i hi => by
      rw [hz i j (Finset.mem_range.1 hi) hj, mul_zero]), zero_add]

theorem shifted_faceSize : dynamicFaceSizeDistance exampleLibm shiftedShape 13 = .ok 40 := by
  rw [dynamicFaceSizeDistance_ok exampleLibm shiftedShape 13 (by decide)]
  have : (((shiftedShape.data.getD 8 0 + shiftedShape.data.getD 9 0) / 2
        - (shiftedShape.data.getD 11 0 + shiftedShape.data.getD 12 0) / 2) ^ 2
      + ((shiftedShape.data.getD (8 + 13) 0 + shiftedShape.data.getD (9 + 13) 0) / 2
        - (shiftedShape.data.getD (11 + 13) 0 + shiftedShape.data.getD (12 + 13) 0) / 2) ^ 2)
      = 1600 := by
    norm_num [shiftedShape]
  rw [this, exampleLibm_sqrt_1600]

theorem twoStage_windows :
    windowSizeHalfi (windowSizeHalf exampleLibm.exp (40 : ℚ) 0 2) = 9 ∧
    windowSizeHalfi (windowSizeHalf exampleLibm.exp (40 : ℚ) 1 2) = 6 := by
  have h0 : windowSizeHalf exampleLibm.exp (40 : ℚ) 0 2 = 7 := by
    unfold windowSizeHalf stdRound
    simp only [exampleLibm]
    norm_num
  have h1 : windowSizeHalf exampleLibm.exp (40 : ℚ) 1 2 = 5 := by
    unfold windowSizeHalf stdRound
    simp only [exampleLibm]
    norm_num
  rw [h0, h1]
  exact ⟨by decide, by decide⟩

/-- A stage of `twoStageModel` on a shape of face size `40` moves every coordinate by
`1 / 2 * 40`. -/
theorem twoStage_stage (d : Nat) (hd : d < 2) (shape : Mat) (window : ℤ)
    (hrows : shape.rows = 26) (hcols : shape.cols = 1) (hlen : shape.data.length = 26)
    (hfs : dynamicFaceSizeDistance exampleLibm shape 13 = .ok 40)
    (hwin : windowSizeHalfi (windowSizeHalf exampleLibm.exp (40 : ℚ) d 2) = window) :
    cascadeStage exampleLibm twoStageModel ⟨0, 0, []⟩ d shape
      = ([⟨d, (List.range 13).map (fun i =>
            ⟨shape.data.getD i 0, shape.data.getD (i + 13) 0⟩), some window⟩],
        .ok ⟨26, 1, (List.range 26).map (fun j => shape.data.getD j 0 + 1 / 2 * 40)⟩) := by
  have hin := stageInput_ok exampleLibm twoStageModel d shape (by decide) (by rw [hlen]; rfl)
  have hfs2 := (stageInput_inv hin).1
  rw [show twoStageModel.getNumLandmarks = 13 from rfl] at hfs2 hin
  rw [hfs] at hfs2
  injection hfs2 with hfs2
  rw [← hfs2, show twoStageModel.getNumCascadeSteps = 2 from rfl, hwin] at hin
  have hW : twoStageModel.regressorData[d]? = some biasOnlyWeights := by
    interval_cases d <;> rfl
  have hext : twoStageModel.descriptorExtractors[d]? = some constantExtractor := by
    interval_cases d <;> rfl
  rw [cascadeStage_ok exampleLibm twoStageModel ⟨0, 0, []⟩ d shape constantExtractor
    ⟨13, 1, List.replicate 13 1⟩ biasOnlyWeights 13 13 _ _ _ hin hext rfl rfl (by decide) hW
    rfl rfl biasOnlyWeights_wellFormed rfl rfl (by decide)
    (by unfold Mat.WellFormed; rw [List.length_replicate]; rfl) hrows hcols hlen]
  congr 3
  apply List.map_congr_left
  intro j hj
  rw [List.mem_range] at hj
  rw [Finset.sum_eq_zero (fun i hi => by
    rw [biasOnlyWeights_weight (Finset.mem_range.1 hi) hj, mul_zero]), zero_add,
    biasOnlyWeights_bias hj]

theorem twoStage_stage0 :
    cascadeStage exampleLibm twoStageModel ⟨0, 0, []⟩ 0 cascadeShape
      = ([⟨0, (List.range 13).map (fun i =>
            ⟨cascadeShape.data.getD i 0, cascadeShape.data.getD (i + 13) 0⟩), some 9⟩],
        .ok shiftedShape) := by
  rw [twoStage_stage 0 (by decide) cascadeShape 9 rfl rfl rfl example_faceSize
    twoStage_windows.1]
  congr 2
  norm_num [cascadeShape, shiftedShape, List.range_succ_eq_map]

theorem twoStage_stage1 :
    cascadeStage exampleLibm twoStageModel ⟨0, 0, []⟩ 1 shiftedShape
      = ([⟨1, (List.range 13).map (fun i =>
            ⟨shiftedShape.data.getD i 0, shiftedShape.data.getD (i + 13) 0⟩), some 6⟩],
        .ok twiceShiftedShape) := by
  rw [twoStage_stage 1 (by decide) shiftedShape 6 rfl rfl rfl shifted_faceSize
    twoStage_windows.2]
  congr 2
  norm_num [shiftedShape, twiceShiftedShape, List.range_succ_eq_map]

/-- The theorem `optimize_always_adaptive` at the second stage of `twoStageModel` on
`cascadeShape`: the first stage has moved every coordinate by `1 / 2 * 40` and was
called with the window `9`; the second stage is called with the window `6` and adds
`deltaShape.t() * 40` to the shape it finds, so that `optimize` returns the input with
every coordinate moved by `40`. -/
theorem optimize_always_adaptive_witness :
    adaptive = true ∧ 1 < twoStageModel.getNumCascadeSteps ∧
    optimizeFrom exampleLibm twoStageModel ⟨0, 0, []⟩ 1 0 cascadeShape
      = ([⟨0, (List.range 13).map (fun i =>
            ⟨cascadeShape.data.getD i 0, cascadeShape.data.getD (i + 13) 0⟩), some 9⟩],
        .ok shiftedShape) ∧
    cascadeStage exampleLibm twoStageModel ⟨0, 0, []⟩ 1 shiftedShape
      = ([⟨1, (List.range 13).map (fun i =>
            ⟨shiftedShape.data.getD i 0, shiftedShape.data.getD (i + 13) 0⟩), some 6⟩],
        .ok twiceShiftedShape) ∧
    optimize exampleLibm twoStageModel cascadeShape ⟨0, 0, []⟩
      = ([⟨0, (List.range 13).map (fun i =>
            ⟨cascadeShape.data.getD i 0, cascadeShape.data.getD (i + 13) 0⟩), some 9⟩,
          ⟨1, (List.range 13).map (fun i =>
            ⟨shiftedShape.data.getD i 0, shiftedShape.data.getD (i + 13) 0⟩), some 6⟩],
        .ok twiceShiftedShape) ∧
    dynamicFaceSizeDistance exampleLibm shiftedShape 13 = .ok 40 ∧
    ∃ deltaShape : Mat,
      shiftedShape.add (deltaShape.t.scale 40) = .ok twiceShiftedShape ∧
      twiceShiftedShape.data = List.zipWith (fun x y => x + y) shiftedShape.data
        (deltaShape.t.data.map (fun v => v * 40)) := by
  have hbefore : optimizeFrom exampleLibm twoStageModel ⟨0, 0, []⟩ 1 0 cascadeShape
      = ([⟨0, (List.range 13).map (fun i =>
            ⟨cascadeShape.data.getD i 0, cascadeShape.data.getD (i + 13) 0⟩), some 9⟩],
        .ok shiftedShape) := by
    rw [optimizeFrom_ok twoStage_stage0]
    rfl
  obtain ⟨hrun, points, faceSize, ext, F, reshaped, W, product, deltaShape, hfs, -, -, -, -,
      -, -, -, hadd, hdata, -⟩ :=
    (optimize_always_adaptive exampleLibm twoStageModel cascadeShape ⟨0, 0, []⟩).2.2.1
      1 _ _ shiftedShape twiceShiftedShape (by decide) hbefore twoStage_stage1
  rw [show twoStageModel.getNumLandmarks = 13 from rfl, shifted_faceSize] at hfs
  injection hfs with hfs
  subst hfs
  refine ⟨rfl, by decide, hbefore, twoStage_stage1, ?_, shifted_faceSize, deltaShape, hadd,
    hdata⟩
  rw [hrun]
  rfl

/-! ### A face of size zero -/

theorem map_getD_range (l : List ℚ) (n : Nat) (h : l.length = n) :
    (List.range n).map (fun j => l.getD j 0) = l := by
  subst h
  induction l with
  | nil => rfl
  | cons a l ih =>
    rw [List.length_cons, List.range_succ_eq_map]
    simp only [List.map_cons, List.getD_cons_zero, List.map_map, Function.comp_def,
      List.getD_cons_succ]
    rw [ih]

theorem windowSizeHalf_zero {α : Type} [LinearOrderedField α] [FloorRing α] (exp : ℤ → α)
    (d K : Nat) : windowSizeHalf exp (0 : α) d K = 0 := by
  unfold windowSizeHalf stdRound
  simp only [zero_div, zero_mul, le_refl, if_true, zero_add]
  rw [Int.floor_eq_iff]
  norm_num

theorem windowSizeHalf_nonneg {α : Type} [LinearOrderedField α] [FloorRing α] (exp : ℤ → α)
    (hpos : ∀ n, 0 ≤ exp n) (faceSize : α) (hf : 0 ≤ faceSize) (d K : Nat) :
    0 ≤ windowSizeHalf exp faceSize d K := by
  have hp : (0 : α) < 1 + exp (((d : ℤ) + 1) - (K : ℤ)) := by
    have := hpos (((d : ℤ) + 1) - (K : ℤ)); linarith
  have hq : (0 : α) ≤ faceSize / 2 / 2 := by positivity
  unfold windowSizeHalf
  simp only []
  apply stdRound_nonneg
  exact mul_nonneg hq (by positivity)

theorem cascadeStage_zero_faceSize (libm : Libm) (hsqrt : libm.sqrt 0 = 0)
    (model : SdmLandmarkModel) (image : Image) (k : Nat) (modelShape : Mat) (N : Nat)
    (hNdef : model.getNumLandmarks = N) (h13 : 13 ≤ N)
    (hSrows : modelShape.rows = 2 * N) (hScols : modelShape.cols = 1)
    (hSlen : modelShape.data.length = 2 * N)
    (hmidx : (modelShape.data.getD 8 0 + modelShape.data.getD 9 0) / 2
      = (modelShape.data.getD 11 0 + modelShape.data.getD 12 0) / 2)
    (hmidy : (modelShape.data.getD (8 + N) 0 + modelShape.data.getD (9 + N) 0) / 2
      = (modelShape.data.getD (11 + N) 0 + modelShape.data.getD (12 + N) 0) / 2)
    (hstage : ∃ W ext, model.regressorData[k]? = some W ∧
      model.descriptorExtractors[k]? = some ext ∧ W.cols = 2 * N ∧ W.WellFormed ∧
      ∀ pts w, ∃ F, ext.getDescriptors image pts w = .ok F ∧ F.rows = N ∧ 0 < F.cols ∧
        F.cols * N + 1 = W.rows ∧ F.WellFormed) :
    ∃ points, cascadeStage libm model image k modelShape
      = ([⟨k, points, some 3⟩], .ok modelShape) := by
  subst hNdef
  obtain ⟨W, ext, hW, hext, hWcols, hWwf, hall⟩ := hstage
  have hin := stageInput_ok libm model k modelShape h13 hSlen
  have hzero : ((modelShape.data.getD 8 0 + modelShape.data.getD 9 0) / 2
        - (modelShape.data.getD 11 0 + modelShape.data.getD 12 0) / 2) ^ 2
      + ((modelShape.data.getD (8 + model.getNumLandmarks) 0
            + modelShape.data.getD (9 + model.getNumLandmarks) 0) / 2
        - (modelShape.data.getD (11 + model.getNumLandmarks) 0
            + modelShape.data.getD (12 + model.getNumLandmarks) 0) / 2) ^ 2 = 0 := by
    rw [hmidx, hmidy]
    ring
  rw [hzero, hsqrt, windowSizeHalf_zero, show windowSizeHalfi 0 = 3 by decide] at hin
  obtain ⟨F, hF, hFrows, hFpos, hFcols, hFwf⟩ := hall
    ((List.range model.getNumLandmarks).map (fun i =>
      ⟨modelShape.data.getD i 0, modelShape.data.getD (i + model.getNumLandmarks) 0⟩))
    (some 3)
  refine ⟨(List.range model.getNumLandmarks).map (fun i =>
      ⟨modelShape.data.getD i 0, modelShape.data.getD (i + model.getNumLandmarks) 0⟩), ?_⟩
  rw [cascadeStage_ok libm model image k modelShape ext F W model.getNumLandmarks
    (F.cols * model.getNumLandmarks) _ 0 _ hin hext hF rfl (by omega) hW hFcols.symm hWcols
    hWwf hFrows rfl hFpos hFwf hSrows hScols hSlen]
  simp only [mul_zero, add_zero]
  rw [map_getD_range _ _ hSlen, ← hSrows, ← hScols]

theorem optimizeFrom_zero_faceSize (libm : Libm) (hsqrt : libm.sqrt 0 = 0)
    (model : SdmLandmarkModel) (image : Image) (modelShape : Mat) (N : Nat)
    (hNdef : model.getNumLandmarks = N) (h13 : 13 ≤ N)
    (hSrows : modelShape.rows = 2 * N) (hScols : modelShape.cols = 1)
    (hSlen : modelShape.data.length = 2 * N)
    (hmidx : (modelShape.data.getD 8 0 + modelShape.data.getD 9 0) / 2
      = (modelShape.data.getD 11 0 + modelShape.data.getD 12 0) / 2)
    (hmidy : (modelShape.data.getD (8 + N) 0 + modelShape.data.getD (9 + N) 0) / 2
      = (modelShape.data.getD (11 + N) 0 + modelShape.data.getD (12 + N) 0) / 2)
    (hstages : ∀ k, k < model.getNumCascadeSteps →
      ∃ W ext, model.regressorData[k]? = some W ∧
        model.descriptorExtractors[k]? = some ext ∧ W.cols = 2 * N ∧ W.WellFormed ∧
        ∀ pts w, ∃ F, ext.getDescriptors image pts w = .ok F ∧ F.rows = N ∧ 0 < F.cols ∧
          F.cols * N + 1 = W.rows ∧ F.WellFormed)
    (stepsLeft d : Nat) (hd : d + stepsLeft ≤ model.getNumCascadeSteps) :
    (optimizeFrom libm model image stepsLeft d modelShape).2 = .ok modelShape ∧
    (optimizeFrom libm model image stepsLeft d modelShape).1.map (fun c => c.cascadeStep)
      = (List.range stepsLeft).map (fun i => d + i) ∧
    ∀ c ∈ (optimizeFrom libm model image stepsLeft d modelShape).1,
      c.windowSizeHalf = some 3 := by
  induction stepsLeft generalizing d with
  | zero => simp [optimizeFrom]
  | succ n ih =>
    obtain ⟨points, hst⟩ := cascadeStage_zero_faceSize libm hsqrt model image d modelShape N
      hNdef h13 hSrows hScols hSlen hmidx hmidy (hstages d (by omega))
    obtain ⟨i1, i2, i3⟩ := ih (d + 1) (by omega)
    rw [optimizeFrom_ok hst]
    refine ⟨i1, ?_, ?_⟩
    · rw [List.range_succ_eq_map]
      simp only [List.singleton_append, List.map_cons, i2, List.map_map, Function.comp_def,
        add_zero, List.cons.injEq, true_and]
      apply List.map_congr_left
      intro i _
      omega
    · intro c hc
      rcases List.mem_append.1 hc with h1 | h2
      · rw [List.mem_singleton] at h1
        rw [h1]
      · exact i3 c h2

/-- Claim C16: if in the input shape (the `2 * N` coordinates of `N >= 13` landmarks)
the midpoint of landmarks 8 and 9 equals the midpoint of landmarks 11 and 12, then,
the square root of zero being zero, for a cascade of any number of stages with any
weight values (of matching sizes) and whatever features the extractors return,
`optimize` returns the input shape with every coordinate unchanged, makes one
extractor call for each stage `0 .. K - 1`, and every call carries the window
size 3. -/
theorem optimize_zero_faceSize (libm : Libm) (hsqrt : libm.sqrt 0 = 0)
    (model : SdmLandmarkModel) (image : Image) (modelShape : Mat) (N : Nat)
    (hNdef : model.getNumLandmarks = N) (h13 : 13 ≤ N)
    (hSrows : modelShape.rows = 2 * N) (hScols : modelShape.cols = 1)
    (hSlen : modelShape.data.length = 2 * N)
    (hmidx : (modelShape.data.getD 8 0 + modelShape.data.getD 9 0) / 2
      = (modelShape.data.getD 11 0 + modelShape.data.getD 12 0) / 2)
    (hmidy : (modelShape.data.getD (8 + N) 0 + modelShape.data.getD (9 + N) 0) / 2
      = (modelShape.data.getD (11 + N) 0 + modelShape.data.getD (12 + N) 0) / 2)
    (hstages : ∀ k, k < model.getNumCascadeSteps →
      ∃ W ext, model.regressorData[k]? = some W ∧
        model.descriptorExtractors[k]? = some ext ∧ W.cols = 2 * N ∧ W.WellFormed ∧
        ∀ pts w, ∃ F, ext.getDescriptors image pts w = .ok F ∧ F.rows = N ∧ 0 < F.cols ∧
          F.cols * N + 1 = W.rows ∧ F.WellFormed) :
    dynamicFaceSizeDistance libm modelShape N = .ok 0 ∧
    (optimize libm model modelShape image).2 = .ok modelShape ∧
    (optimize libm model modelShape image).1.map (fun c => c.cascadeStep)
      = List.range model.getNumCascadeSteps ∧
    ∀ c ∈ (optimize libm model modelShape image).1, c.windowSizeHalf = some 3 := by
  obtain ⟨i1, i2, i3⟩ := optimizeFrom_zero_faceSize libm hsqrt model image modelShape N
    hNdef h13 hSrows hScols hSlen hmidx hmidy hstages model.getNumCascadeSteps 0 (by omega)
  refine ⟨?_, i1, ?_, i3⟩
  · rw [dynamicFaceSizeDistance_ok libm modelShape N (by omega), hmidx, hmidy]
    simp only [sub_self, ne_eq, OfNat.ofNat_ne_zero, not_false_eq_true, zero_pow, add_zero,
      hsqrt]
  · unfold optimize
    rw [i2]
    simp

/-! ### Bounds of the window handed to the extractor, continued -/

/-- Every extractor call of the loop is made by the stage of its step on the shape
that the stages before it have produced. -/
theorem optimizeFrom_calls_reached {libm : Libm} {model : SdmLandmarkModel} {image : Image}
    (stepsLeft : Nat) (d : Nat) (modelShape : Mat) {c : ExtractorCall}
    (h : c ∈ (optimizeFrom libm model image stepsLeft d modelShape).1) :
    ∃ (k : Nat) (calls : List ExtractorCall) (reached : Mat), k < stepsLeft ∧
      c.cascadeStep = d + k ∧
      optimizeFrom libm model image k d modelShape = (calls, .ok reached) ∧
      c ∈ (cascadeStage libm model image (d + k) reached).1 := by
  induction stepsLeft generalizing d modelShape with
  | zero => simp [optimizeFrom] at h
  | succ n ih =>
    have here : c ∈ (cascadeStage libm model image d modelShape).1 →
        ∃ (k : Nat) (calls : List ExtractorCall) (reached : Mat), k < n + 1 ∧
          c.cascadeStep = d + k ∧
          optimizeFrom libm model image k d modelShape = (calls, .ok reached) ∧
          c ∈ (cascadeStage libm model image (d + k) reached).1 := by
      intro hc
      exact ⟨0, [], modelShape, by omega, by rw [(cascadeStage_calls_inv hc).1]; rfl, rfl, hc⟩
    rcases cascadeStage_result_cases libm model image d modelShape with
      ⟨calls, e, hst⟩ | ⟨calls, next, hst⟩
    · rw [optimizeFrom_error hst] at h
      exact here (by rw [hst]; exact h)
    · rw [optimizeFrom_ok hst] at h
      rcases List.mem_append.1 h with h1 | h2
      · exact here (by rw [hst]; exact h1)
      · obtain ⟨k, calls2, reached, hk, hstep, hrun, hmem⟩ := ih (d + 1) next h2
        refine ⟨k + 1, calls ++ calls2, reached, by omega, by omega, ?_, ?_⟩
        · rw [optimizeFrom_ok hst, hrun]
        · rw [show d + (k + 1) = d + 1 + k by omega]
          exact hmem

theorem optimizeFrom_one_calls (libm : Libm) (model : SdmLandmarkModel) (image : Image)
    (d : Nat) (modelShape : Mat) :
    (optimizeFrom libm model image 1 d modelShape).1
      = (cascadeStage libm model image d modelShape).1 := by
  rcases cascadeStage_result_cases libm model image d modelShape with
    ⟨calls, e, hst⟩ | ⟨calls, next, hst⟩
  · rw [optimizeFrom_error hst, hst]
  · rw [optimizeFrom_ok hst, hst]
    simp [optimizeFrom]

theorem exampleLibm_sqrt_large :
    exampleLibm.sqrt 4722366482869645213696 = 68719476736 := by
  have h : Nat.sqrt (68719476736 * 68719476736) = 68719476736 := Nat.sqrt_eq 68719476736
  have h2 : (Int.toNat 4722366482869645213696).sqrt = 68719476736 := by
    rw [show Int.toNat 4722366482869645213696 = 68719476736 * 68719476736 by decide, h]
  simp only [exampleLibm]
  norm_num
  rw [h2]
  norm_num

theorem largeFace_faceSize :
    dynamicFaceSizeDistance exampleLibm largeFaceShape 13 = .ok 68719476736 := by
  rw [dynamicFaceSizeDistance_ok exampleLibm largeFaceShape 13 (by decide)]
  have : (((largeFaceShape.data.getD 8 0 + largeFaceShape.data.getD 9 0) / 2
        - (largeFaceShape.data.getD 11 0 + largeFaceShape.data.getD 12 0) / 2) ^ 2
      + ((largeFaceShape.data.getD (8 + 13) 0 + largeFaceShape.data.getD (9 + 13) 0) / 2
        - (largeFaceShape.data.getD (11 + 13) 0 + largeFaceShape.data.getD (12 + 13) 0) / 2) ^ 2)
      = 4722366482869645213696 := by
    norm_num [largeFaceShape]
  rw [this, exampleLibm_sqrt_large]

theorem largeFace_windowSizeHalf :
    windowSizeHalf exampleLibm.exp (68719476736 : ℚ) 0 1 = 8589934592 := by
  unfold windowSizeHalf
  have : (68719476736 : ℚ) / 2 / 2
      * (1 / (1 + exampleLibm.exp (((0 : ℕ) : ℤ) + 1 - ((1 : ℕ) : ℤ))))
      = ((8589934592 : ℤ) : ℚ) := by
    simp only [exampleLibm]
    norm_num
  simp only [this, stdRound_intCast]

/-- Claim C17, refuted as stated: the rounded `windowSizeHalf = 8589934592 = 2 ^ 33`
is not negative, yet it is not a value of the 32-bit `int`; its conversion yields
`INT_MIN`, and the window size computed from it is `-2147483643`, which is neither
greater than `w` nor at least 3. The run of `optimize` on `cascadeModel` (one stage)
and `largeFaceShape`, whose face size is `68719476736 = 2 ^ 36`, hands this window
to the extractor. -/
theorem window_negative_for_large_face :
    windowSizeHalfi 8589934592 = -2147483643 ∧
    dynamicFaceSizeDistance exampleLibm largeFaceShape 13 = .ok 68719476736 ∧
    windowSizeHalf exampleLibm.exp (68719476736 : ℚ) 0 1 = 8589934592 ∧
    (optimize exampleLibm cascadeModel largeFaceShape ⟨0, 0, []⟩).1.map
      (fun c => c.windowSizeHalf) = [some (-2147483643)] ∧
    ¬ (∀ w : ℤ, 0 ≤ w →
      ((3 : ℤ) ∣ windowSizeHalfi w ∧ w < windowSizeHalfi w ∧ windowSizeHalfi w ≤ w + 3 ∧
        windowSizeHalfi w ≠ 0 ∧ 3 ≤ windowSizeHalfi w)) ∧
    ¬ (∀ c ∈ (optimize exampleLibm cascadeModel largeFaceShape ⟨0, 0, []⟩).1,
      ∃ z : ℤ, c.windowSizeHalf = some z ∧ 3 ≤ z) := by
  have hw : windowSizeHalfi 8589934592 = -2147483643 :=
    windowSizeHalfi_above (by norm_num)
  have hrun : (optimize exampleLibm cascadeModel largeFaceShape ⟨0, 0, []⟩).1.map
      (fun c => c.windowSizeHalf) = [some (-2147483643)] := by
    obtain ⟨points, faceSize, hfs, hcalls⟩ := cascadeStage_calls exampleLibm cascadeModel
      ⟨0, 0, []⟩ 0 largeFaceShape constantExtractor (by decide) (by decide) rfl
    rw [show cascadeModel.getNumLandmarks = 13 from rfl, largeFace_faceSize] at hfs
    injection hfs with hfs
    rw [← hfs, show cascadeModel.getNumCascadeSteps = 1 from rfl, largeFace_windowSizeHalf,
      hw] at hcalls
    unfold optimize
    rw [show cascadeModel.getNumCascadeSteps = 1 from rfl, optimizeFrom_one_calls, hcalls]
    rfl
  refine ⟨hw, largeFace_faceSize, largeFace_windowSizeHalf, hrun, ?_, ?_⟩
  · intro h
    have := (h 8589934592 (by norm_num)).2.2.2.2
    rw [hw] at this
    exact absurd this (by norm_num)
  · intro h
    obtain ⟨points, faceSize, hfs, hcalls⟩ := cascadeStage_calls exampleLibm cascadeModel
      ⟨0, 0, []⟩ 0 largeFaceShape constantExtractor (by decide) (by decide) rfl
    rw [show cascadeModel.getNumLandmarks = 13 from rfl, largeFace_faceSize] at hfs
    injection hfs with hfs
    rw [← hfs, show cascadeModel.getNumCascadeSteps = 1 from rfl, largeFace_windowSizeHalf,
      hw] at hcalls
    unfold optimize at h
    rw [show cascadeModel.getNumCascadeSteps = 1 from rfl, optimizeFrom_one_calls, hcalls] at h
    obtain ⟨z, hz, h3⟩ := h _ (List.mem_singleton_self _)
    simp only [Option.some.injEq] at hz
    omega

/-- Claim C17, amended: for every integer `w` with `0 <= w <= 2147483644` (so that
`w + 3` is a value of the 32-bit `int`), the window size `w + 3 - (w % 3)` that
`optimize` computes is a multiple of 3, strictly greater than `w` and at most
`w + 3`, hence not 0 and at least 3. Every extractor call of a run is made at its
stage on the shape the earlier stages have produced; as the rounded
`windowSizeHalf` of a stage is not negative (the square root and the exponential are
not), the window size of the call is a multiple of 3 that is at least 3 whenever the
face size of that shape is at most `8589934576`, four times `2147483644`. -/
theorem windowSizeHalfi_bounds (w : ℤ) (hw : 0 ≤ w) (hfit : w ≤ 2147483644) :
    windowSizeHalfi w = w + 3 - w % 3 ∧
    (3 : ℤ) ∣ windowSizeHalfi w ∧ w < windowSizeHalfi w ∧ windowSizeHalfi w ≤ w + 3 ∧
    windowSizeHalfi w ≠ 0 ∧ 3 ≤ windowSizeHalfi w ∧
    (∀ (libm : Libm) (model : SdmLandmarkModel) (modelShape : Mat) (image : Image),
      (∀ q, 0 ≤ libm.sqrt q) → (∀ n, 0 ≤ libm.exp n) →
      ∀ c ∈ (optimize libm model modelShape image).1,
        ∃ (calls : List ExtractorCall) (reached : Mat) (faceSize : ℚ),
          optimizeFrom libm model image c.cascadeStep 0 modelShape = (calls, .ok reached) ∧
          dynamicFaceSizeDistance libm reached model.getNumLandmarks = .ok faceSize ∧
          c.windowSizeHalf = some (windowSizeHalfi
            (windowSizeHalf libm.exp faceSize c.cascadeStep model.getNumCascadeSteps)) ∧
          (faceSize ≤ 8589934576 →
            ∃ z : ℤ, c.windowSizeHalf = some z ∧ (3 : ℤ) ∣ z ∧ 3 ≤ z ∧ z ≠ 0 ∧
              z ≤ INT_MAX)) := by
  have he := windowSizeHalfi_exact hw hfit
  refine ⟨he, by rw [he]; omega, by rw [he]; omega, by rw [he]; omega, by rw [he]; omega,
    by rw [he]; omega, ?_⟩
  intro libm model modelShape image hsqrt hexp c hc
  unfold optimize at hc
  obtain ⟨k, calls, reached, -, hstep, hrun, hmem⟩ := optimizeFrom_calls_reached _ _ _ hc
  rw [zero_add] at hstep hmem
  obtain ⟨-, faceSize, hfs, hwin⟩ := cascadeStage_calls_inv hmem
  rw [← hstep] at hrun hwin
  refine ⟨calls, reached, faceSize, hrun, hfs, hwin, fun hbound => ?_⟩
  have hf := sqrt_faceSize_nonneg libm hsqrt reached _ faceSize hfs
  have h0 := windowSizeHalf_nonneg libm.exp hexp faceSize hf c.cascadeStep
    model.getNumCascadeSteps
  have h1 := windowSizeHalf_fits libm.exp hexp faceSize hf hbound c.cascadeStep
    model.getNumCascadeSteps
  have hz := windowSizeHalfi_exact h0 h1
  refine ⟨_, hwin, by rw [hz]; omega, by rw [hz]; omega, by rw [hz]; omega,
    by rw [hz]; unfold INT_MAX; omega⟩

/-- The theorem `windowSizeHalfi_bounds` at `w = 7`: the window size is `9`. -/
theorem windowSizeHalfi_bounds_witness :
    (0 : ℤ) ≤ 7 ∧ (7 : ℤ) ≤ 2147483644 ∧
    windowSizeHalfi 7 = 7 + 3 - 7 % 3 ∧ (3 : ℤ) ∣ windowSizeHalfi 7 ∧
    (7 : ℤ) < windowSizeHalfi 7 ∧ windowSizeHalfi 7 ≤ 7 + 3 :=
  ⟨by norm_num, by norm_num, (windowSizeHalfi_bounds 7 (by norm_num) (by norm_num)).1,
    (windowSizeHalfi_bounds 7 (by norm_num) (by norm_num)).2.1,
    (windowSizeHalfi_bounds 7 (by norm_num) (by norm_num)).2.2.1,
    (windowSizeHalfi_bounds 7 (by norm_num) (by norm_num)).2.2.2.1⟩

/-- The theorem `alignRigidRect_invalidShape_iff` at a `2 x 2` matrix (an error, the
matrix untouched) and at the single-column `exampleShape` (a shape). -/
theorem alignRigidRect_invalidShape_iff_witness :
    (⟨2, 2, [1, 2, 3, 4]⟩ : Mat).cols ≠ 1 ∧
    alignRigidRect ⟨2, 2, [1, 2, 3, 4]⟩ ⟨0, 0, 1, 1⟩
      = ⟨⟨2, 2, [1, 2, 3, 4]⟩, .error .invalidShape⟩ ∧
    exampleShape.cols = 1 ∧
    ∃ out, alignRigidRect exampleShape ⟨0, 0, 1, 1⟩ = ⟨out, .ok out⟩ :=
  ⟨by decide,
    (alignRigidRect_invalidShape_iff ⟨2, 2, [1, 2, 3, 4]⟩ ⟨0, 0, 1, 1⟩).2.2.1 (by decide),
    rfl, (alignRigidRect_invalidShape_iff exampleShape ⟨0, 0, 1, 1⟩).2.2.2 rfl⟩

theorem exampleLibm_sqrt_zero : exampleLibm.sqrt 0 = 0 := by
  norm_num [exampleLibm]

theorem cascadeModel_stages (image : Image) :
    ∀ k, k < cascadeModel.getNumCascadeSteps →
      ∃ W ext, cascadeModel.regressorData[k]? = some W ∧
        cascadeModel.descriptorExtractors[k]? = some ext ∧ W.cols = 2 * 13 ∧ W.WellFormed ∧
        ∀ pts w, ∃ F, ext.getDescriptors image pts w = .ok F ∧ F.rows = 13 ∧ 0 < F.cols ∧
          F.cols * 13 + 1 = W.rows ∧ F.WellFormed := by
  intro k hk
  have hk0 : k = 0 := by
    have : cascadeModel.getNumCascadeSteps = 1 := rfl
    omega
  subst hk0
  refine ⟨biasOnlyWeights, constantExtractor, rfl, rfl, rfl, biasOnlyWeights_wellFormed, ?_⟩
  intro pts w
  exact ⟨⟨13, 1, List.replicate 13 1⟩, rfl, rfl, by decide, rfl,
    by unfold Mat.WellFormed; rw [List.length_replicate]; rfl⟩

/-- The theorem `optimize_zero_faceSize` at `cascadeModel` and `zeroFaceShape`: the
shape comes back unchanged and the one extractor call carries the window 3. -/
theorem optimize_zero_faceSize_witness :
    exampleLibm.sqrt 0 = 0 ∧ cascadeModel.getNumLandmarks = 13 ∧
    zeroFaceShape.rows = 2 * 13 ∧ zeroFaceShape.cols = 1 ∧
    zeroFaceShape.data.length = 2 * 13 ∧
    dynamicFaceSizeDistance exampleLibm zeroFaceShape 13 = .ok 0 ∧
    (optimize exampleLibm cascadeModel zeroFaceShape ⟨0, 0, []⟩).2 = .ok zeroFaceShape ∧
    (optimize exampleLibm cascadeModel zeroFaceShape ⟨0, 0, []⟩).1.map
      (fun c => c.cascadeStep) = List.range cascadeModel.getNumCascadeSteps ∧
    ∀ c ∈ (optimize exampleLibm cascadeModel zeroFaceShape ⟨0, 0, []⟩).1,
      c.windowSizeHalf = some 3 :=
  ⟨exampleLibm_sqrt_zero, rfl, rfl, rfl, rfl,
    optimize_zero_faceSize exampleLibm exampleLibm_sqrt_zero cascadeModel ⟨0, 0, []⟩
      zeroFaceShape 13 rfl (le_refl 13) rfl rfl rfl (by norm_num [zeroFaceShape])
      (by norm_num [zeroFaceShape]) (cascadeModel_stages ⟨0, 0, []⟩)⟩

/-! ### The correspondences and their model-space points -/

theorem modelPoints_forall2 {model : SdmLandmarkModel} {landmarks : LandmarkCollection}
    {ps : List Point2f} (h : modelPoints model landmarks = .ok ps) :
    List.Forall₂ (fun lm p => modelPointOf model lm = .ok p) landmarks ps := by
  induction landmarks generalizing ps with
  | nil =>
    simp only [modelPoints, Except.ok.injEq] at h
    subst h
    exact List.Forall₂.nil
  | cons lm rest ih =>
    unfold modelPoints at h
    cases hp : modelPointOf model lm with
    | error e => simp [hp] at h
    | ok p =>
      cases hr : modelPoints model rest with
      | error e => simp [hp, hr] at h
      | ok qs =>
        simp only [hp, hr, Except.ok.injEq] at h
        subst h
        exact List.Forall₂.cons hp (ih hr)

theorem modelPoints_length {model : SdmLandmarkModel} {landmarks : LandmarkCollection}
    {ps : List Point2f} (h : modelPoints model landmarks = .ok ps) :
    ps.length = landmarks.length :=
  (List.Forall₂.length_eq (modelPoints_forall2 h)).symm

theorem getLandmarkAsPoint_ok (model : SdmLandmarkModel) (landmarkIdentifier : String)
    (x y : ℚ)
    (hpos : model.landmarkIdentifiers.indexOf landmarkIdentifier
      < model.landmarkIdentifiers.length)
    (hx : model.meanLandmarks.data[model.landmarkIdentifiers.indexOf landmarkIdentifier]?
      = some x)
    (hy : model.meanLandmarks.data[model.landmarkIdentifiers.indexOf landmarkIdentifier
      + model.getNumLandmarks]? = some y) :
    model.getLandmarkAsPoint landmarkIdentifier = .ok ⟨x, y⟩ := by
  unfold SdmLandmarkModel.getLandmarkAsPoint
  simp only [hpos, if_true, hx, hy]

/-- Claim C15: in `alignRigid` with a landmark collection the model-space point of a
correspondence named `le` is the midpoint of the mean-shape landmarks `37` and `40`,
that of one named `re` the midpoint of the mean-shape landmarks `46` and `43`, and
that of any other name the mean-shape landmark with that identifier (x at the index
of the identifier in the mean, y at that index plus `N`); the model-space points
are in the order of the correspondences, and the scale ratios pair them with the
correspondences' own x and y in that order. The lookup `getLandmarkAsPoint` is
modelled from the spec. -/
theorem modelPointOf_alias (model : SdmLandmarkModel) (landmarks : LandmarkCollection) :
    (∀ lm : Landmark, lm.name = "le" → ∀ a b : Point2f,
      model.getLandmarkAsPoint "37" = .ok a → model.getLandmarkAsPoint "40" = .ok b →
      modelPointOf model lm = .ok ⟨(a.x + b.x) / 2, (a.y + b.y) / 2⟩) ∧
    (∀ lm : Landmark, lm.name = "re" → ∀ a b : Point2f,
      model.getLandmarkAsPoint "46" = .ok a → model.getLandmarkAsPoint "43" = .ok b →
      modelPointOf model lm = .ok ⟨(a.x + b.x) / 2, (a.y + b.y) / 2⟩) ∧
    (∀ lm : Landmark, lm.name ≠ "le" → lm.name ≠ "re" →
      modelPointOf model lm = model.getLandmarkAsPoint lm.name) ∧
    (∀ (landmarkIdentifier : String) (x y : ℚ),
      model.landmarkIdentifiers.indexOf landmarkIdentifier
        < model.landmarkIdentifiers.length →
      model.meanLandmarks.data[model.landmarkIdentifiers.indexOf landmarkIdentifier]?
        = some x →
      model.meanLandmarks.data[model.landmarkIdentifiers.indexOf landmarkIdentifier
        + model.getNumLandmarks]? = some y →
      model.getLandmarkAsPoint landmarkIdentifier = .ok ⟨x, y⟩) ∧
    (∀ ps, modelPoints model landmarks = .ok ps →
      List.Forall₂ (fun lm p => modelPointOf model lm = .ok p) landmarks ps) ∧
    (∀ modelShape out, (alignRigidLandmarks model modelShape landmarks).result = .ok out →
      ∃ ps tr, modelPoints model landmarks = .ok ps ∧
        List.Forall₂ (fun lm p => modelPointOf model lm = .ok p) landmarks ps ∧
        estimateSimilarity ps landmarks = .ok tr ∧
        chooseScale
            (calculateScaleRatio (ps.map (fun p => p.x)) (landmarks.map (fun lm => lm.x)))
            (calculateScaleRatio (ps.map (fun p => p.y)) (landmarks.map (fun lm => lm.y)))
          = .ok tr.s) := by
  refine ⟨?_, ?_, ?_, ?_, ?_, ?_⟩
  · intro lm hle a b ha hb
    unfold modelPointOf
    simp only [hle, if_true, ha, hb]
  · intro lm hre a b ha hb
    have hne : ("re" : String) ≠ "le" := by decide
    unfold modelPointOf
    simp only [hre, hne, if_true, if_false, ha, hb]
  · intro lm h1 h2
    unfold modelPointOf
    simp only [h1, h2, if_false]
  · intro landmarkIdentifier x y hpos hx hy
    exact getLandmarkAsPoint_ok model landmarkIdentifier x y hpos hx hy
  · intro ps h
    exact modelPoints_forall2 h
  · intro modelShape out h
    obtain ⟨-, ps, tr, hp, ht, -, -⟩ := alignRigidLandmarks_ok h
    exact ⟨ps, tr, hp, modelPoints_forall2 hp, ht, (estimateSimilarity_ok ht).1⟩

theorem eyeModel_points :
    eyeModel.getLandmarkAsPoint "37" = .ok ⟨0, 1⟩ ∧
    eyeModel.getLandmarkAsPoint "40" = .ok ⟨2, 3⟩ ∧
    eyeModel.getLandmarkAsPoint "43" = .ok ⟨10, 5⟩ ∧
    eyeModel.getLandmarkAsPoint "46" = .ok ⟨14, 7⟩ := by
  simp [SdmLandmarkModel.getLandmarkAsPoint, SdmLandmarkModel.getNumLandmarks, eyeModel,
    List.indexOf, List.findIdx_cons]

/-- The theorem `modelPointOf_alias` at `eyeModel`: the point of a correspondence
named `le` is the midpoint of `(0, 1)` and `(2, 3)`, and that of one named `re` the
midpoint of `(14, 7)` and `(10, 5)`. -/
theorem modelPointOf_alias_witness :
    ("le" : String) = "le" ∧
    eyeModel.getLandmarkAsPoint "37" = .ok ⟨0, 1⟩ ∧
    eyeModel.getLandmarkAsPoint "40" = .ok ⟨2, 3⟩ ∧
    modelPointOf eyeModel ⟨"le", 100, 50, true⟩ = .ok ⟨(0 + 2) / 2, (1 + 3) / 2⟩ ∧
    modelPointOf eyeModel ⟨"re", 140, 50, true⟩ = .ok ⟨(14 + 10) / 2, (7 + 5) / 2⟩ :=
  ⟨rfl, eyeModel_points.1, eyeModel_points.2.1,
    (modelPointOf_alias eyeModel []).1 ⟨"le", 100, 50, true⟩ rfl ⟨0, 1⟩ ⟨2, 3⟩
      eyeModel_points.1 eyeModel_points.2.1,
    (modelPointOf_alias eyeModel []).2.1 ⟨"re", 140, 50, true⟩ rfl ⟨14, 7⟩ ⟨10, 5⟩
      eyeModel_points.2.2.2 eyeModel_points.2.2.1⟩

/-! ### The centroid of the correspondences -/

theorem sum_residuals (s : ℚ) (landmarks : LandmarkCollection) (ps : List Point2f)
    (h : ps.length = landmarks.length) :
    (List.zipWith (fun lm p => lm.x - s * p.x) landmarks ps).sum
      = (landmarks.map (fun lm => lm.x)).sum - s * (ps.map (fun p => p.x)).sum ∧
    (List.zipWith (fun lm p => lm.y - s * p.y) landmarks ps).sum
      = (landmarks.map (fun lm => lm.y)).sum - s * (ps.map (fun p => p.y)).sum := by
  induction landmarks generalizing ps with
  | nil => simp at h; subst h; simp
  | cons lm rest ih =>
    cases ps with
    | nil => simp at h
    | cons p qs =>
      obtain ⟨i1, i2⟩ := ih qs (by simpa using h)
      simp only [List.zipWith_cons_cons, List.sum_cons, List.map_cons, i1, i2]
      constructor <;> ring

theorem sum_transformed (s t : ℚ) (l : List ℚ) :
    (l.map (fun v => s * v + t)).sum = s * l.sum + (l.length : ℚ) * t := by
  induction l with
  | nil => simp
  | cons a l ih =>
    simp only [List.map_cons, List.sum_cons, ih, List.length_cons]
    push_cast
    ring

/-- Claim C19: whenever `alignRigid` with a non-empty landmark collection returns a
shape, with `ps` the model-space points of the correspondences and `(s, tx, ty)` the
transform it computed (by whichever branch `s` was chosen), the mean of
`s * p.x + tx` over `ps` is the mean of the target x, and the mean of `s * p.y + ty`
is the mean of the target y. The translation is that of the spec-modelled
`calculateMeanTranslation`. -/
theorem alignRigidLandmarks_centroid (model : SdmLandmarkModel) (modelShape : Mat)
    (landmarks : LandmarkCollection) (out : Mat) (hne : landmarks ≠ [])
    (h : (alignRigidLandmarks model modelShape landmarks).result = .ok out) :
    ∃ ps tr, modelPoints model landmarks = .ok ps ∧
      estimateSimilarity ps landmarks = .ok tr ∧
      ps.length = landmarks.length ∧
      (ps.map (fun p => tr.s * p.x + tr.tx)).sum / (ps.length : ℚ)
        = (landmarks.map (fun lm => lm.x)).sum / (landmarks.length : ℚ) ∧
      (ps.map (fun p => tr.s * p.y + tr.ty)).sum / (ps.length : ℚ)
        = (landmarks.map (fun lm => lm.y)).sum / (landmarks.length : ℚ) := by
  obtain ⟨-, ps, tr, hp, ht, -, -⟩ := alignRigidLandmarks_ok h
  obtain ⟨-, htx, hty⟩ := estimateSimilarity_ok ht
  have hlen := modelPoints_length hp
  obtain ⟨mx, my⟩ := calculateMeanTranslation_scaled tr.s ps landmarks
  obtain ⟨rx, ry⟩ := sum_residuals tr.s landmarks ps hlen
  rw [mx, rx] at htx
  rw [my, ry] at hty
  have hn : (landmarks.length : ℚ) ≠ 0 := by
    have : landmarks.length ≠ 0 := fun h0 => hne (List.length_eq_zero.1 h0)
    exact_mod_cast this
  have ex : (ps.map (fun p => tr.s * p.x + tr.tx))
      = (ps.map (fun p => p.x)).map (fun v => tr.s * v + tr.tx) := by
    rw [List.map_map]; rfl
  have ey : (ps.map (fun p => tr.s * p.y + tr.ty))
      = (ps.map (fun p => p.y)).map (fun v => tr.s * v + tr.ty) := by
    rw [List.map_map]; rfl
  refine ⟨ps, tr, hp, ht, hlen, ?_, ?_⟩
  · rw [ex, sum_transformed, List.length_map, hlen]
    rw [htx]
    field_simp
  · rw [ey, sum_transformed, List.length_map, hlen]
    rw [hty]
    field_simp

/-- The theorem `alignRigidLandmarks_centroid` at the worked example: the transformed
model points `(10, 5)`, `(12, 5)` and the targets have the same centroid. -/
theorem alignRigidLandmarks_centroid_witness :
    exampleLandmarks ≠ [] ∧
    (alignRigidLandmarks exampleModel exampleShape exampleLandmarks).result
      = .ok ⟨4, 1, [10, 12, 5, 5]⟩ ∧
    ∃ ps tr, modelPoints exampleModel exampleLandmarks = .ok ps ∧
      estimateSimilarity ps exampleLandmarks = .ok tr ∧
      ps.length = exampleLandmarks.length ∧
      (ps.map (fun p => tr.s * p.x + tr.tx)).sum / (ps.length : ℚ)
        = (exampleLandmarks.map (fun lm => lm.x)).sum / (exampleLandmarks.length : ℚ) ∧
      (ps.map (fun p => tr.s * p.y + tr.ty)).sum / (ps.length : ℚ)
        = (exampleLandmarks.map (fun lm => lm.y)).sum / (exampleLandmarks.length : ℚ) :=
  ⟨by decide, by rw [example_aligned],
    alignRigidLandmarks_centroid exampleModel exampleShape exampleLandmarks
      ⟨4, 1, [10, 12, 5, 5]⟩ (by decide) (by rw [example_aligned])⟩

end SdmLandmarkModelFitting

/-! ## The per-image loop and the errors of the fitting -/

namespace detectLandmarks

theorem alignRigidRect_mean_ok (model : SdmLandmarkModel) (face : Rect) :
    ∃ aligned, alignRigidRect model.getMeanShape face = ⟨aligned, .ok aligned⟩ ∧
      aligned.rows = model.meanLandmarks.data.length ∧ aligned.cols = 1 ∧
      aligned.data.length = model.meanLandmarks.data.length := by
  have hc : model.getMeanShape.cols = 1 := rfl
  have hl : model.getMeanShape.data.length = model.getMeanShape.rows := rfl
  have hr : model.getMeanShape.rows = model.meanLandmarks.data.length := rfl
  have hal : alignRigidRect model.getMeanShape face
      = ⟨(model.getMeanShape.mapRowRange 0 (model.getMeanShape.rows / 2)
            (fun v => (v + 1 / 2) * (face.width : ℚ) + (face.x : ℚ))).mapRowRange
          (model.getMeanShape.rows / 2) model.getMeanShape.rows
          (fun v => (v + 1 / 2) * (face.height : ℚ) + (face.y : ℚ)),
        .ok ((model.getMeanShape.mapRowRange 0 (model.getMeanShape.rows / 2)
            (fun v => (v + 1 / 2) * (face.width : ℚ) + (face.x : ℚ))).mapRowRange
          (model.getMeanShape.rows / 2) model.getMeanShape.rows
          (fun v => (v + 1 / 2) * (face.height : ℚ) + (face.y : ℚ)))⟩ := by
    unfold alignRigidRect
    simp only [hc, ne_eq, not_true_eq_false, if_false]
  rw [Mat.mapRowRange_halves _ _ _ hc hl] at hal
  refine ⟨_, hal, hr, rfl, ?_⟩
  simp only [List.length_append, List.length_map, List.length_take, List.length_drop]
  rw [hl]
  omega

theorem optimize_extractor_error (libm : Libm) (model : SdmLandmarkModel) (modelShape : Mat)
    (image : Image) (ext : DescriptorExtractor) (e : FitError)
    (hK : 0 < model.getNumCascadeSteps) (hN : 13 ≤ model.getNumLandmarks)
    (hlen : modelShape.data.length = 2 * model.getNumLandmarks)
    (hext : model.descriptorExtractors[0]? = some ext)
    (hfail : ∀ points window, ext.getDescriptors image points window = .error e) :
    (optimize libm model modelShape image).2 = .error e := by
  have hin := stageInput_ok libm model 0 modelShape hN hlen
  obtain ⟨calls, hst⟩ : ∃ calls, cascadeStage libm model image 0 modelShape
      = (calls, .error e) := by
    unfold cascadeStage
    simp only [hin, hext, hfail]
    exact ⟨_, rfl⟩
  unfold optimize
  obtain ⟨n, hn⟩ : ∃ n, model.getNumCascadeSteps = n + 1 := ⟨model.getNumCascadeSteps - 1, by omega⟩
  rw [hn, optimizeFrom_error hst]

theorem optimizeAndSave_error {libm : Libm} {model : SdmLandmarkModel} {aligned : Mat}
    {imgGray : Image} {e : FitError} (h : (optimize libm model aligned imgGray).2 = .error e) :
    optimizeAndSave libm model aligned imgGray = .error e := by
  unfold optimizeAndSave
  simp only [h]

theorem fitModel_box {libm : Libm} {model : SdmLandmarkModel} {lookup : Bool}
    {imgGray : Image} {faces : List Rect} {landmarks : LandmarkCollection} {face : Rect}
    {aligned : Mat} (hface : faces[0]? = some face)
    (ha : (alignRigidRect model.getMeanShape face).result = .ok aligned) :
    fitModel libm model lookup true imgGray faces landmarks
      = optimizeAndSave libm model aligned imgGray := by
  unfold fitModel
  simp only [if_true, hface, ha]

theorem fitModel_landmarks_ok {libm : Libm} {model : SdmLandmarkModel} {lookup : Bool}
    {imgGray : Image} {faces : List Rect} {landmarks : LandmarkCollection} {aligned : Mat}
    (ha : (alignRigidLandmarks model model.getMeanShape landmarks).result = .ok aligned) :
    fitModel libm model lookup false imgGray faces landmarks
      = optimizeAndSave libm model aligned imgGray := by
  unfold fitModel
  simp only [Bool.false_eq_true, if_false, ha]

theorem fitModel_landmarks_caught {libm : Libm} {model : SdmLandmarkModel} {lookup : Bool}
    {imgGray : Image} {faces : List Rect} {landmarks : LandmarkCollection} {e : FitError}
    (ha : (alignRigidLandmarks model model.getMeanShape landmarks).result = .error e)
    (hc : caughtAsRuntimeError lookup e = true) :
    fitModel libm model lookup false imgGray faces landmarks = .ok (.cannotAlign e) := by
  unfold fitModel
  simp only [Bool.false_eq_true, if_false, ha, hc, if_true]

theorem mainLoop_error {libm : Libm} {model : SdmLandmarkModel} {lookup useFaceDetector
    alignToFacebox : Bool} {input : ImageInput} {rest : List ImageInput} {e : FitError}
    (h : processImage libm model lookup useFaceDetector alignToFacebox input = .error e) :
    mainLoop libm model lookup useFaceDetector alignToFacebox (input :: rest)
      = ([], some e) := by
  simp only [mainLoop, h]

theorem mainLoop_ok {libm : Libm} {model : SdmLandmarkModel} {lookup useFaceDetector
    alignToFacebox : Bool} {input : ImageInput} {rest : List ImageInput}
    {outcome : ImageOutcome}
    (h : processImage libm model lookup useFaceDetector alignToFacebox input = .ok outcome) :
    mainLoop libm model lookup useFaceDetector alignToFacebox (input :: rest)
      = (outcome :: (mainLoop libm model lookup useFaceDetector alignToFacebox rest).1,
        (mainLoop libm model lookup useFaceDetector alignToFacebox rest).2) := by
  simp only [mainLoop, h]

theorem failingModel_optimize (modelShape : Mat) (image : Image)
    (hlen : modelShape.data.length = 26) :
    (optimize exampleLibm failingModel modelShape image).2 = .error .extractionError :=
  optimize_extractor_error exampleLibm failingModel modelShape image failingExtractor
    .extractionError (by decide) (by decide) hlen rfl (fun _ _ => rfl)

theorem failingModel_processImage (lookup : Bool) :
    processImage exampleLibm failingModel lookup true true faceImage
      = .error .extractionError := by
  obtain ⟨aligned, ha, -, -, hlen⟩ := alignRigidRect_mean_ok failingModel ⟨0, 0, 10, 10⟩
  have hres : (alignRigidRect failingModel.getMeanShape ⟨0, 0, 10, 10⟩).result
      = .ok aligned := by rw [ha]
  have hrun : fitModel exampleLibm failingModel lookup true faceImage.imgGray
      faceImage.detectedFaces [] = .error .extractionError := by
    rw [fitModel_box (show faceImage.detectedFaces[0]? = some ⟨0, 0, 10, 10⟩ from rfl) hres]
    exact optimizeAndSave_error (failingModel_optimize aligned _ hlen)
  unfold processImage
  simp only [if_true, hrun]
  rfl

/-- Claim C12, refuted as stated: with a model whose extractor fails, `optimize`
raises `extractionError` for the first image; the error is not caught, the loop is
left with no image processed and the second image is never reached. A fitting error
can end the run. -/
theorem mainLoop_optimize_error_ends_run :
    processImage exampleLibm failingModel true true true faceImage
      = .error .extractionError ∧
    mainLoop exampleLibm failingModel true true true [faceImage, faceImage]
      = ([], some .extractionError) ∧
    mainLoop exampleLibm failingModel false true true [faceImage, faceImage]
      = ([], some .extractionError) :=
  ⟨failingModel_processImage true, mainLoop_error (failingModel_processImage true),
    mainLoop_error (failingModel_processImage false)⟩

/-- Claim C12, amended: in the per-image loop only the rigid alignment to landmarks
is inside a `try` block. An `invalidShape` or `alignmentError` raised by it is caught
for that image, the image is skipped and the loop goes on with the next image. The
rigid alignment to a box and `optimize` are called outside any `try` block: an error
raised by `optimize`, after either alignment, is not caught and ends the loop, so no
later image is processed; the alignment of the mean shape to a box raises no
error. -/
theorem mainLoop_catches_landmark_alignment_only (libm : Libm) (model : SdmLandmarkModel)
    (lookup useFaceDetector alignToFacebox : Bool) (input : ImageInput)
    (rest : List ImageInput) :
    (∀ e, useFaceDetector = false → alignToFacebox = false →
      input.alignmentLandmarks.length ≠ 0 →
      (alignRigidLandmarks model model.getMeanShape input.alignmentLandmarks).result
        = .error e →
      e = .invalidShape ∨ e = .alignmentError →
      processImage libm model lookup useFaceDetector alignToFacebox input
        = .ok (.cannotAlign e) ∧
      mainLoop libm model lookup useFaceDetector alignToFacebox (input :: rest)
        = (.cannotAlign e
            :: (mainLoop libm model lookup useFaceDetector alignToFacebox rest).1,
          (mainLoop libm model lookup useFaceDetector alignToFacebox rest).2)) ∧
    (∀ aligned e, useFaceDetector = false → alignToFacebox = false →
      input.alignmentLandmarks.length ≠ 0 →
      (alignRigidLandmarks model model.getMeanShape input.alignmentLandmarks).result
        = .ok aligned →
      (optimize libm model aligned input.imgGray).2 = .error e →
      processImage libm model lookup useFaceDetector alignToFacebox input = .error e ∧
      mainLoop libm model lookup useFaceDetector alignToFacebox (input :: rest)
        = ([], some e)) ∧
    (∀ face aligned e, useFaceDetector = true → alignToFacebox = true →
      input.detectedFaces[0]? = some face →
      (alignRigidRect model.getMeanShape face).result = .ok aligned →
      (optimize libm model aligned input.imgGray).2 = .error e →
      processImage libm model lookup useFaceDetector alignToFacebox input = .error e ∧
      mainLoop libm model lookup useFaceDetector alignToFacebox (input :: rest)
        = ([], some e)) ∧
    (∀ face aligned e, useFaceDetector = false → alignToFacebox = true →
      input.facebox = some face →
      (alignRigidRect model.getMeanShape face).result = .ok aligned →
      (optimize libm model aligned input.imgGray).2 = .error e →
      processImage libm model lookup useFaceDetector alignToFacebox input = .error e ∧
      mainLoop libm model lookup useFaceDetector alignToFacebox (input :: rest)
        = ([], some e)) ∧
    (∀ face, ∃ aligned, (alignRigidRect model.getMeanShape face).result = .ok aligned) := by
  refine ⟨?_, ?_, ?_, ?_, ?_⟩
  · intro e hu ha hlen herr hcases
    subst hu ha
    have hc : caughtAsRuntimeError lookup e = true := by
      rcases hcases with h | h <;> rw [h] <;> rfl
    have hp : processImage libm model lookup false false input = .ok (.cannotAlign e) := by
      unfold processImage
      simp only [Bool.false_eq_true, if_false, hlen]
      exact fitModel_landmarks_caught herr hc
    exact ⟨hp, mainLoop_ok hp⟩
  · intro aligned e hu ha hlen hok hopt
    subst hu ha
    have hp : processImage libm model lookup false false input = .error e := by
      unfold processImage
      simp only [Bool.false_eq_true, if_false, hlen]
      rw [fitModel_landmarks_ok hok]
      exact optimizeAndSave_error hopt
    exact ⟨hp, mainLoop_error hp⟩
  · intro face aligned e hu ha hface hok hopt
    subst hu ha
    have hne : input.detectedFaces.isEmpty = false := by
      cases hd : input.detectedFaces with
      | nil => rw [hd] at hface; simp at hface
      | cons a l => rfl
    have hp : processImage libm model lookup true true input = .error e := by
      unfold processImage
      simp only [if_true, hne, Bool.false_eq_true, if_false]
      rw [fitModel_box hface hok]
      exact optimizeAndSave_error hopt
    exact ⟨hp, mainLoop_error hp⟩
  · intro face aligned e hu ha hface hok hopt
    subst hu ha
    have hp : processImage libm model lookup false true input = .error e := by
      unfold processImage
      simp only [Bool.false_eq_true, if_false, if_true, hface]
      rw [fitModel_box (show ([face] : List Rect)[0]? = some face from rfl) hok]
      exact optimizeAndSave_error hopt
    exact ⟨hp, mainLoop_error hp⟩
  · intro face
    obtain ⟨aligned, ha, -⟩ := alignRigidRect_mean_ok model face
    exact ⟨aligned, by rw [ha]⟩

theorem coincident_alignment_error :
    (alignRigidLandmarks coincidentModel coincidentModel.getMeanShape
      coincidentImage.alignmentLandmarks).result = .error .alignmentError := by
  have herr : estimateSimilarity [⟨3, 4⟩, ⟨3, 4⟩]
      [⟨"a", 7, 7, true⟩, ⟨"b", 7, 7, true⟩] = .error .alignmentError := by
    apply estimateSimilarity_of_neither
    · simp only [List.map, calculateScaleRatio, spread, List.foldl,
        max_self, min_self, sub_self]
      rfl
    · simp only [List.map, calculateScaleRatio, spread, List.foldl,
        max_self, min_self, sub_self]
      rfl
  show (alignRigidLandmarks coincidentModel coincidentModel.getMeanShape
    [⟨"a", 7, 7, true⟩, ⟨"b", 7, 7, true⟩]).result = .error .alignmentError
  rw [alignRigidLandmarks_of_error rfl coincident_modelPoints herr]

/-- The theorem `mainLoop_catches_landmark_alignment_only` at `coincidentModel` and an
image whose two landmarks are on the same pixel: the alignment error is caught and
the image skipped. -/
theorem mainLoop_catches_landmark_alignment_only_witness :
    coincidentImage.alignmentLandmarks.length ≠ 0 ∧
    (alignRigidLandmarks coincidentModel coincidentModel.getMeanShape
      coincidentImage.alignmentLandmarks).result = .error .alignmentError ∧
    processImage exampleLibm coincidentModel true false false coincidentImage
      = .ok (.cannotAlign .alignmentError) ∧
    mainLoop exampleLibm coincidentModel true false false [coincidentImage]
      = ([.cannotAlign .alignmentError], none) :=
  ⟨by decide, coincident_alignment_error,
    ((mainLoop_catches_landmark_alignment_only exampleLibm coincidentModel true false false
      coincidentImage []).1 .alignmentError rfl rfl (by decide) coincident_alignment_error
      (Or.inr rfl)).1,
    ((mainLoop_catches_landmark_alignment_only exampleLibm coincidentModel true false false
      coincidentImage []).1 .alignmentError rfl rfl (by decide) coincident_alignment_error
      (Or.inr rfl)).2⟩

end detectLandmarks

end superviseddescent

/-! # Properties of the MUCT parser -/

namespace imageio

open superviseddescent

namespace MuctLandmarkFormatParser

end MuctLandmarkFormatParser

end imageio
